import Mathlib

/-!
# BaseLink: MAC frame scheduler and addressing registry

A shallow embedding of the Data Link layer of the BaseLink protocol stack
(Frame.c, PhyAddress.c, and the protocol-visible part of A110x2500PhyBridge.c)
and of the protocol operations of API.c.

* Bytes (unsigned char) are natural numbers; stores that can leave the byte
  range are reduced modulo 256 explicitly.
* The process-wide singletons gPhyAddressInfo, gFrameScheduler, gPhyDevice and
  the static sequence counter of FrameBuild are fields of one record, Node,
  that every operation takes and returns.
* The conditional compilation of the two roles is a field of the build
  configuration, Config, as are the sizes that the configuration header fixes.
* What a node does to its surroundings (radio commands, application callbacks,
  the backup hook) is appended, in order, to Node.trace.
-/

namespace BaseLink

/-! ## Build configuration -/

/-- Node role: PROTOCOL_ENDPOINT or PROTOCOL_GATEWAY. -/
inductive Role where
  | endPoint
  | gateway
  deriving DecidableEq, Repr

/-- Constants fixed by the configuration header of a build. -/
structure Config where
  /-- PROTOCOL_ENDPOINT / PROTOCOL_GATEWAY -/
  role : Role
  /-- PROTOCOL_PHYADDRESS_PANID_SIZE -/
  PROTOCOL_PHYADDRESS_PANID_SIZE : Nat
  /-- PROTOCOL_PHYADDRESS_ADDRESS_SIZE -/
  PROTOCOL_PHYADDRESS_ADDRESS_SIZE : Nat
  /-- PROTOCOL_FRAME_MAX_PAYLOAD_LENGTH -/
  PROTOCOL_FRAME_MAX_PAYLOAD_LENGTH : Nat
  /-- PHY_MAX_TXFIFO_SIZE -/
  PHY_MAX_TXFIFO_SIZE : Nat
  /-- CC1101_TXFIFO_SIZE, declared by the radio driver -/
  CC1101_TXFIFO_SIZE : Nat
  /-- PROTOCOL_USE_RX_TIMEOUT -/
  PROTOCOL_USE_RX_TIMEOUT : Bool
  /-- Size in bytes of a function pointer on the target (sizeof of the Backup member) -/
  sizeofFunctionPointer : Nat
  deriving DecidableEq, Repr

/-- The End Point configuration of SimplexTransferLR09Config.h. -/
def shippedEndPoint : Config where
  role := Role.endPoint
  PROTOCOL_PHYADDRESS_PANID_SIZE := 1
  PROTOCOL_PHYADDRESS_ADDRESS_SIZE := 1
  PROTOCOL_FRAME_MAX_PAYLOAD_LENGTH := 8
  PHY_MAX_TXFIFO_SIZE := 64
  CC1101_TXFIFO_SIZE := 64
  PROTOCOL_USE_RX_TIMEOUT := false
  sizeofFunctionPointer := 2

/-- The same sizes with the Gateway role. -/
def shippedGateway : Config :=
  { shippedEndPoint with role := Role.gateway }

/-- The shipped End Point configuration built with PROTOCOL_USE_RX_TIMEOUT. -/
def timeoutEndPoint : Config :=
  { shippedEndPoint with PROTOCOL_USE_RX_TIMEOUT := true }

def PHY_ADDRESS_BROADCAST : Nat := 0

def PHY_ADDRESS_PANID_SIZE (cfg : Config) : Nat := cfg.PROTOCOL_PHYADDRESS_PANID_SIZE

def PHY_ADDRESS_ADDRESS_SIZE (cfg : Config) : Nat := cfg.PROTOCOL_PHYADDRESS_ADDRESS_SIZE

def PROTOCOL_DATASTREAM_MAX_SIZE (cfg : Config) : Nat := cfg.PHY_MAX_TXFIFO_SIZE

def PROTOCOL_DATASTREAM_FOOTER_CRC : Nat := 0x80

def FRAME_HEADER_ADDRESS_LENGTH (cfg : Config) : Nat :=
  cfg.PROTOCOL_PHYADDRESS_PANID_SIZE + (2 * cfg.PROTOCOL_PHYADDRESS_ADDRESS_SIZE)

def FRAME_HEADER_LENGTH (cfg : Config) : Nat := FRAME_HEADER_ADDRESS_LENGTH cfg + 2

def FRAME_FOOTER_LENGTH : Nat := 0

def FRAME_OVERHEAD_LENGTH (cfg : Config) : Nat := FRAME_HEADER_LENGTH cfg + FRAME_FOOTER_LENGTH

def FRAME_CONTROL_MODE_ENDPOINT : Nat := 0x00

def FRAME_CONTROL_MODE_GATEWAY : Nat := 0x01

def FRAME_CONTROL_TYPE : Nat := 0xC0

def FRAME_CONTROL_SECURE : Nat := 0x20

def FRAME_CONTROL_PENDING : Nat := 0x10

def FRAME_CONTROL_ACK_REQ : Nat := 0x08

def FRAME_CONTROL_ACK : Nat := 0x04

def FRAME_CONTROL_DATA_REQ : Nat := 0x02

def FRAME_CONTROL_MODE : Nat := 0x01

/-- Frame type carried in the two top bits of the control byte. -/
inductive eFrameType where
  | eFrameTypeData
  | eFrameTypeLinkRequest
  deriving DecidableEq, Repr

/-- The enumerator values: Data = 0x00, Link Request = 0x40. -/
def eFrameType.toNat : eFrameType → Nat
  | eFrameType.eFrameTypeData => 0x00
  | eFrameType.eFrameTypeLinkRequest => 0x40

/-! ## Byte and buffer helpers -/

/-- The C statement `c &= ~m` on an unsigned char c and a mask m below 256. -/
def clearBits (c m : Nat) : Nat := c &&& (0xFF ^^^ m)

/-- The C call memcpy(dest, src, n) on byte arrays: the first n bytes of src
replace the first n bytes of dest.  src is expected to hold n bytes; when n
exceeds the size of dest the result is longer than dest, that is, the copy
runs past the end of the destination array. -/
def memcpy (dest src : List Nat) (n : Nat) : List Nat := src.take n ++ dest.drop n

/-- The C call memcmp(a, b, n): zero when the first n bytes agree, else the
difference of the first differing pair.  Only the test against zero is used. -/
def memcmp : List Nat → List Nat → Nat → Int
  | a :: as, b :: bs, n + 1 => if a = b then memcmp as bs n else (a : Int) - (b : Int)
  | _, _, _ => 0

def PhyAddressCopy (dest src : List Nat) (size : Nat) : List Nat := memcpy dest src size

def PhyAddressCompare (addr1 addr2 : List Nat) (size : Nat) : Int := memcmp addr1 addr2 size

/-- The macro PhyAddressToBroadcast: memset(addr, PHY_ADDRESS_BROADCAST, size). -/
def PhyAddressToBroadcast (addr : List Nat) (size : Nat) : List Nat :=
  List.replicate size PHY_ADDRESS_BROADCAST ++ addr.drop size

/-- True when none of the first size bytes differs from the broadcast value. -/
def PhyAddressIsBroadcast : List Nat → Nat → Bool
  | a :: as, n + 1 => if a ≠ PHY_ADDRESS_BROADCAST then false else PhyAddressIsBroadcast as n
  | _, _ => true

/-! ## Data model -/

/-- Local addressing record (struct sPhyAddressLocal). -/
structure sPhyAddressLocal where
  fixed : Bool
  panId : List Nat
  address : List Nat
  remote : List Nat
  deriving DecidableEq, Repr

/-- Addressing registry (struct sPhyAddressInfo).  The Backup member is a
function pointer into the application; the registry only tests it against
NULL and calls it, so it is kept as a flag and its calls are traced. -/
structure sPhyAddressInfo where
  local_ : sPhyAddressLocal
  Backup : Bool
  deriving DecidableEq, Repr

structure sFrameHeader where
  panId : List Nat
  destAddr : List Nat
  srcAddr : List Nat
  control : Nat
  seqNumber : Nat
  deriving DecidableEq, Repr

structure sFrame where
  header : sFrameHeader
  payload : List Nat
  deriving DecidableEq, Repr

/-- The bytes of a struct sFrame in memory order, which is the wire order:
PAN id, destination, source, control, sequence, payload. -/
def sFrame.toBytes (f : sFrame) : List Nat :=
  f.header.panId ++ f.header.destAddr ++ f.header.srcAddr
    ++ [f.header.control, f.header.seqNumber] ++ f.payload

/-- Reading a run of bytes through the layout of struct sFrame. -/
def sFrame.ofBytes (cfg : Config) (bytes : List Nat) : sFrame :=
  let p := cfg.PROTOCOL_PHYADDRESS_PANID_SIZE
  let a := cfg.PROTOCOL_PHYADDRESS_ADDRESS_SIZE
  { header :=
      { panId := bytes.take p
        destAddr := (bytes.drop p).take a
        srcAddr := (bytes.drop (p + a)).take a
        control := (bytes.drop (p + a + a)).headD 0
        seqNumber := (bytes.drop (p + a + a + 1)).headD 0 }
    payload := bytes.drop (p + a + a + 2) }

structure sFrameDataResponse where
  payload : List Nat
  length : Nat
  deriving DecidableEq, Repr

/-- What a FrameComplete callback hands back: its status byte and, on a
Gateway, the response it staged through ProtocolLoadDataResponse while it ran
(none when it did not call it). -/
structure CallbackResult where
  statusMessage : Nat
  loadDataResponse : Option sFrameDataResponse

/-- MAC scheduler (struct sFrameScheduler).  FrameComplete takes the data
request indicator (absent on an End Point), the payload pointer (none for
NULL) and the length. -/
structure sFrameScheduler where
  FrameComplete : Option (Option Bool → Option (List Nat) → Nat → CallbackResult)
  LinkRequest : Option (List Nat → Nat → Bool)
  dataResponse : sFrameDataResponse
  busy : Bool
  frame : sFrame
  length : Nat

structure sPhyTimerRxTimeout where
  enable : Bool
  compare : Nat
  counter : Nat
  deriving DecidableEq, Repr

/-- A routine registered as a timer callback, unsigned char(*)(void): the
scheduler's FrameTimeout, or a routine of the application, which returns a
status byte and does not touch the protocol state.  NULL is none. -/
inductive TimerCallback where
  | frameTimeout
  | application (status : Nat)
  deriving DecidableEq, Repr

/-- The protocol-visible part of struct sPhyDevice. -/
structure sPhyDevice where
  /-- status.transmitting -/
  transmitting : Bool
  /-- timer.running -/
  timerRunning : Bool
  /-- timer.Generic -/
  Generic : Option TimerCallback
  /-- timer.rxTimeout: enable, compare and counter -/
  rxTimeout : sPhyTimerRxTimeout
  /-- timer.rxTimeout.RxTimeout -/
  RxTimeout : Option TimerCallback
  /-- stream.header.length -/
  streamHeaderLength : Nat
  /-- stream.footer.status -/
  footerStatus : Nat
  /-- the GDO0 interrupt is set to wait for the End-of-Packet (deassert) edge -/
  gdoWaitForDeassert : Bool
  deriving DecidableEq, Repr

/-- Effects of a node on its surroundings. -/
inductive Event where
  | phyEnable
  | phyDisable
  | phyLowPowerMode
  | phyReceiverOn
  | phyTransmit (dataField : List Nat) (count : Nat)
  | phyEnableAddressFilter (deviceAddr : Nat)
  | phyDisableAddressFilter
  | frameComplete (dataRequest : Option Bool) (payload : Option (List Nat)) (length : Nat)
  | linkRequest (payload : List Nat) (length : Nat)
  | backup (read : Bool) (data : List Nat) (size : Nat)
  deriving DecidableEq, Repr

/-- One protocol instance. -/
structure Node where
  gPhyAddressInfo : sPhyAddressInfo
  gFrameScheduler : sFrameScheduler
  /-- the static seqNumber of FrameBuild -/
  seqNumber : Nat
  gPhyDevice : sPhyDevice
  trace : List Event

def Node.emit (n : Node) (e : Event) : Node := { n with trace := n.trace ++ [e] }

/-! ## Physical bridge (A110x2500PhyBridge.c), protocol-visible part -/

def PhyEnable (n : Node) : Node := n.emit Event.phyEnable

def PhyDisable (n : Node) : Node := n.emit Event.phyDisable

def PhyLowPowerMode (n : Node) : Node := n.emit Event.phyLowPowerMode

def PhyEnableAddressFilter (deviceAddr : Nat) (n : Node) : Node :=
  n.emit (Event.phyEnableAddressFilter deviceAddr)

def PhyDisableAddressFilter (n : Node) : Node := n.emit Event.phyDisableAddressFilter

def PhyTimerStart (n : Node) : Node :=
  if !n.gPhyDevice.timerRunning then
    { n with gPhyDevice := { n.gPhyDevice with timerRunning := true } }
  else n

def PhyTimerEnableRxTimeout (n : Node) : Node :=
  let d := n.gPhyDevice
  PhyTimerStart
    { n with gPhyDevice :=
        { d with rxTimeout := { d.rxTimeout with counter := d.rxTimeout.compare, enable := true } } }

def PhyTimerStop (n : Node) : Node :=
  if n.gPhyDevice.timerRunning then
    { n with gPhyDevice := { n.gPhyDevice with timerRunning := false } }
  else n

def PhyTimerDisableRxTimeout (n : Node) : Node :=
  let n1 := PhyTimerStop n
  let d := n1.gPhyDevice
  { n1 with gPhyDevice := { d with rxTimeout := { d.rxTimeout with enable := false, counter := 0 } } }

/-- PHY_PREAMBLE_LENGTH: length of the preamble in bytes. -/
def PHY_PREAMBLE_LENGTH : Nat := 4

/-- PHY_SYNC_LENGTH: length of the sync word in bytes. -/
def PHY_SYNC_LENGTH : Nat := 4

/-- A store to gPhyDevice.timer.rxTimeout.compare, a tTime (unsigned long, 32
bits on the target). -/
def storeRxTimeoutCompare (v : Nat) (n : Node) : Node :=
  let d := n.gPhyDevice
  { n with gPhyDevice := { d with rxTimeout := { d.rxTimeout with compare := v % 2 ^ 32 } } }

/-- One statement of the source per step: two plain assignments, then the
compound assignments times (1000 / baudRate), divided by scaleFactor, plus 1,
shifted left by 2.  Both divisions are integer divisions. -/
def PhyCalculateRxTimeout (cfg : Config) (baudRate scaleFactor : Nat) (n : Node) : Node :=
  let n1 := storeRxTimeoutCompare ((PHY_PREAMBLE_LENGTH + PHY_SYNC_LENGTH) * 8) n
  let n2 := storeRxTimeoutCompare (cfg.PHY_MAX_TXFIFO_SIZE * 8) n1
  let n3 := storeRxTimeoutCompare (n2.gPhyDevice.rxTimeout.compare * (1000 / baudRate)) n2
  let n4 := storeRxTimeoutCompare (n3.gPhyDevice.rxTimeout.compare / scaleFactor) n3
  let n5 := storeRxTimeoutCompare (n4.gPhyDevice.rxTimeout.compare + 1) n4
  storeRxTimeoutCompare (n5.gPhyDevice.rxTimeout.compare <<< 2) n5

/-- PhyTimerInit(GenericTimer): the timer is marked stopped and the generic
timer callback registered. -/
def PhyTimerInit (GenericTimer : Option TimerCallback) (n : Node) : Node :=
  { n with gPhyDevice := { n.gPhyDevice with timerRunning := false, Generic := GenericTimer } }

/-- PhySyncTimerInit(RxTimeout): the receive timeout is disabled, its counter
cleared and its callback registered. -/
def PhySyncTimerInit (RxTimeout : Option TimerCallback) (n : Node) : Node :=
  let d := n.gPhyDevice
  { n with gPhyDevice :=
      { d with
        rxTimeout := { d.rxTimeout with enable := false, counter := 0 }
        RxTimeout := RxTimeout } }

/-- Arms the receiver on the shared frame buffer; an End Point built with the
receive timeout also starts the timeout counter. -/
def PhyReceiverOn (cfg : Config) (n : Node) : Node :=
  let n0 := { n with gPhyDevice := { n.gPhyDevice with gdoWaitForDeassert := true } }
  let n1 := n0.emit Event.phyReceiverOn
  if cfg.role = Role.endPoint ∧ cfg.PROTOCOL_USE_RX_TIMEOUT = true then
    PhyTimerEnableRxTimeout n1
  else n1

/-- Hands count bytes at dataField to the radio.  Refused when count exceeds
the TX FIFO or a transmission is in flight. -/
def PhyTransmit (cfg : Config) (dataField : List Nat) (count : Nat) (n : Node) : Bool × Node :=
  if count > cfg.CC1101_TXFIFO_SIZE then
    (false, n)
  else if !n.gPhyDevice.transmitting then
    let n1 :=
      { n with gPhyDevice :=
          { n.gPhyDevice with
            gdoWaitForDeassert := true, streamHeaderLength := count, transmitting := true } }
    (true, n1.emit (Event.phyTransmit (dataField.take count) count))
  else
    (false, n)

/-! ## Addressing registry (PhyAddress.c) -/

/-- The bytes of struct sPhyAddressLocal in memory order. -/
def sPhyAddressLocal.toBytes (l : sPhyAddressLocal) : List Nat :=
  [if l.fixed then 1 else 0] ++ l.panId ++ l.address ++ l.remote

/-- sizeof(struct sPhyAddressLocal) on an End Point. -/
def sizeofPhyAddressLocal (cfg : Config) : Nat :=
  1 + cfg.PROTOCOL_PHYADDRESS_PANID_SIZE + 2 * cfg.PROTOCOL_PHYADDRESS_ADDRESS_SIZE

/-- sizeof(struct sPhyAddressInfo) on an End Point: the local record, padded
to the alignment of the function pointer that follows it, and that pointer. -/
def sizeofPhyAddressInfo (cfg : Config) : Nat :=
  let w := cfg.sizeofFunctionPointer
  ((sizeofPhyAddressLocal cfg + w - 1) / w) * w + w

/-- The call of the backup hook in write mode made by the link operations. -/
def PhyAddressBackupWrite (cfg : Config) (n : Node) : Node :=
  if n.gPhyAddressInfo.Backup then
    n.emit (Event.backup false n.gPhyAddressInfo.local_.toBytes
      ((sizeofPhyAddressLocal cfg / sizeofPhyAddressInfo cfg) % 256))
  else n

def PhyAddressInit (cfg : Config) (panId address : List Nat) (Backup : Bool) (n : Node) : Node :=
  let l := n.gPhyAddressInfo.local_
  match cfg.role with
  | Role.endPoint =>
    let fixed := !PhyAddressIsBroadcast panId (PHY_ADDRESS_PANID_SIZE cfg)
    let l1 : sPhyAddressLocal :=
      { l with
        fixed := fixed
        panId := PhyAddressCopy l.panId panId (PHY_ADDRESS_PANID_SIZE cfg)
        address := PhyAddressCopy l.address address (PHY_ADDRESS_ADDRESS_SIZE cfg) }
    let n1 := { n with gPhyAddressInfo := { local_ := l1, Backup := Backup } }
    if fixed then PhyEnableAddressFilter (l1.panId.headD 0) n1
    else PhyDisableAddressFilter n1
  | Role.gateway =>
    let l1 : sPhyAddressLocal :=
      { l with
        panId := PhyAddressCopy l.panId panId (PHY_ADDRESS_PANID_SIZE cfg)
        address := PhyAddressCopy l.address address (PHY_ADDRESS_ADDRESS_SIZE cfg) }
    let n1 := { n with gPhyAddressInfo := { n.gPhyAddressInfo with local_ := l1 } }
    PhyEnableAddressFilter (l1.panId.headD 0) n1

def PhyAddressGetLocalInfo (n : Node) : sPhyAddressLocal := n.gPhyAddressInfo.local_

def PhyAddressLinkExists (cfg : Config) (n : Node) : Bool :=
  if !PhyAddressIsBroadcast n.gPhyAddressInfo.local_.remote (PHY_ADDRESS_ADDRESS_SIZE cfg) then
    true
  else false

def PhyAddressLinkEstablish (cfg : Config) (panId remote : List Nat) (n : Node) : Node :=
  match cfg.role with
  | Role.endPoint =>
    let l := n.gPhyAddressInfo.local_
    let n1 :=
      if !l.fixed then
        let l1 := { l with panId := PhyAddressCopy l.panId panId (PHY_ADDRESS_PANID_SIZE cfg) }
        PhyEnableAddressFilter (l1.panId.headD 0)
          { n with gPhyAddressInfo := { n.gPhyAddressInfo with local_ := l1 } }
      else n
    let l2 := n1.gPhyAddressInfo.local_
    let n2 :=
      { n1 with gPhyAddressInfo :=
          { n1.gPhyAddressInfo with
            local_ := { l2 with remote := PhyAddressCopy l2.remote remote (PHY_ADDRESS_ADDRESS_SIZE cfg) } } }
    PhyAddressBackupWrite cfg n2
  | Role.gateway => n

def PhyAddressLinkDestroy (cfg : Config) (n : Node) : Node :=
  match cfg.role with
  | Role.endPoint =>
    let l := n.gPhyAddressInfo.local_
    let n1 :=
      if !l.fixed then
        let l1 := { l with panId := PhyAddressToBroadcast l.panId (PHY_ADDRESS_PANID_SIZE cfg) }
        PhyDisableAddressFilter
          { n with gPhyAddressInfo := { n.gPhyAddressInfo with local_ := l1 } }
      else n
    let l2 := n1.gPhyAddressInfo.local_
    let n2 :=
      { n1 with gPhyAddressInfo :=
          { n1.gPhyAddressInfo with
            local_ := { l2 with remote := PhyAddressToBroadcast l2.remote (PHY_ADDRESS_ADDRESS_SIZE cfg) } } }
    PhyAddressBackupWrite cfg n2
  | Role.gateway => n

/-! ## MAC frame scheduler (Frame.c) -/

/-- Stamps the header of the shared frame buffer and copies the payload in.
The control byte is updated field by field, on the value left in the buffer. -/
def FrameBuild (cfg : Config) (type : eFrameType) (dataRequest : Bool)
    (payload : List Nat) (length : Nat) (n : Node) : Node :=
  let sch := n.gFrameScheduler
  let h := sch.frame.header
  let l := PhyAddressGetLocalInfo n
  let panId := PhyAddressCopy h.panId l.panId cfg.PROTOCOL_PHYADDRESS_PANID_SIZE
  let destAddr :=
    match cfg.role with
    | Role.endPoint => PhyAddressCopy h.destAddr l.remote cfg.PROTOCOL_PHYADDRESS_ADDRESS_SIZE
    | Role.gateway => PhyAddressCopy h.destAddr h.srcAddr cfg.PROTOCOL_PHYADDRESS_ADDRESS_SIZE
  let srcAddr := PhyAddressCopy h.srcAddr l.address cfg.PROTOCOL_PHYADDRESS_ADDRESS_SIZE
  let c1 := clearBits h.control FRAME_CONTROL_TYPE
  let c2 := c1 ||| type.toNat
  let c3 := clearBits c2 FRAME_CONTROL_DATA_REQ
  let c4 := if dataRequest then c3 ||| FRAME_CONTROL_DATA_REQ else c3
  let c5 :=
    match cfg.role with
    | Role.endPoint => clearBits c4 FRAME_CONTROL_MODE
    | Role.gateway => c4 ||| FRAME_CONTROL_MODE
  let header : sFrameHeader :=
    { panId := panId, destAddr := destAddr, srcAddr := srcAddr,
      control := c5, seqNumber := n.seqNumber }
  { n with
    seqNumber := (n.seqNumber + 1) % 256
    gFrameScheduler :=
      { sch with
        length := length
        frame := { header := header, payload := memcpy sch.frame.payload payload length } } }

/-- End Point filter on a received header.  Each early `return false` of the
source is a branch that yields false; falling through yields true. -/
def FrameEndPointValidate (cfg : Config) (destPan destAddr : List Nat) (n : Node) : Bool :=
  let l := PhyAddressGetLocalInfo n
  let control := n.gFrameScheduler.frame.header.control
  if (control &&& FRAME_CONTROL_MODE) ≠ FRAME_CONTROL_MODE_GATEWAY then
    false
  else if PhyAddressCompare l.address destAddr (PHY_ADDRESS_ADDRESS_SIZE cfg) ≠ 0 then
    false
  else if PhyAddressCompare l.panId destPan (PHY_ADDRESS_PANID_SIZE cfg) ≠ 0 then
    if (control &&& FRAME_CONTROL_TYPE) ≠ eFrameType.eFrameTypeLinkRequest.toNat then
      false
    else if PhyAddressLinkExists cfg n || l.fixed then
      false
    else
      true
  else
    true

/-- Gateway filter on a received header.  The destination test of the source,
a broadcast test nested in the address mismatch, is the conjunction of the
two; the PAN test keeps both branches of the comparison of the whole control
byte with eFrameTypeLinkRequest, which run the same broadcast test. -/
def FrameGatewayValidate (cfg : Config) (destPan destAddr : List Nat) (n : Node) : Bool :=
  let l := PhyAddressGetLocalInfo n
  let control := n.gFrameScheduler.frame.header.control
  if (control &&& FRAME_CONTROL_MODE) ≠ FRAME_CONTROL_MODE_ENDPOINT then
    false
  else if PhyAddressCompare l.address destAddr (PHY_ADDRESS_ADDRESS_SIZE cfg) ≠ 0
      ∧ PhyAddressIsBroadcast destAddr (PHY_ADDRESS_ADDRESS_SIZE cfg) = false then
    false
  else if PhyAddressCompare l.panId destPan (PHY_ADDRESS_PANID_SIZE cfg) ≠ 0 then
    if control ≠ eFrameType.eFrameTypeLinkRequest.toNat then
      if !PhyAddressIsBroadcast destPan (PHY_ADDRESS_PANID_SIZE cfg) then false else true
    else
      if !PhyAddressIsBroadcast destPan (PHY_ADDRESS_PANID_SIZE cfg) then false else true
  else
    true

def FrameSetDataResponse (payload : List Nat) (length : Nat) (n : Node) : Node :=
  { n with gFrameScheduler :=
      { n.gFrameScheduler with dataResponse := { payload := payload, length := length } } }

/-- The effect on the scheduler of a callback that called
ProtocolLoadDataResponse (Gateway only): FrameSetDataResponse with what it
staged. -/
def applyLoad (cfg : Config) (r : CallbackResult) (n : Node) : Node :=
  match cfg.role, r.loadDataResponse with
  | Role.gateway, some d => FrameSetDataResponse d.payload d.length n
  | _, _ => n

def FrameListen (cfg : Config) (n : Node) : Bool × Node :=
  if !n.gFrameScheduler.busy then
    (true, PhyReceiverOn cfg { n with gFrameScheduler := { n.gFrameScheduler with busy := true } })
  else
    (false, n)

def FrameIdle (cfg : Config) (n : Node) : Node :=
  match cfg.role with
  | Role.endPoint => PhyLowPowerMode n
  | Role.gateway => (FrameListen cfg (PhyDisable n)).2

/-- Builds the frame, then checks its size against the data stream limit and
hands it to the physical layer.  The count parameter of PhyTransmit is an
unsigned char. -/
def FrameSend (cfg : Config) (type : eFrameType) (dataRequest : Bool)
    (payload : List Nat) (length : Nat) (n : Node) : Bool × Node :=
  if !n.gFrameScheduler.busy then
    let n1 := FrameBuild cfg type dataRequest payload length n
    if length + FRAME_OVERHEAD_LENGTH cfg ≤ PROTOCOL_DATASTREAM_MAX_SIZE cfg then
      let r := PhyTransmit cfg n1.gFrameScheduler.frame.toBytes
        ((length + FRAME_OVERHEAD_LENGTH cfg) % 256) n1
      if r.1 then
        (true, { r.2 with gFrameScheduler := { r.2.gFrameScheduler with busy := true } })
      else
        (false, r.2)
    else
      (false, n1)
  else
    (false, n)

def FrameBusy (n : Node) : Bool := n.gFrameScheduler.busy

/-- Dispatch of a validated Data frame. -/
def FrameSchedulerData (cfg : Config) (n : Node) : Nat × Node :=
  match n.gFrameScheduler.FrameComplete with
  | some FrameComplete =>
    let sch := n.gFrameScheduler
    let h := sch.frame.header
    let dataRequest : Bool := ((h.control &&& FRAME_CONTROL_DATA_REQ) >>> 1) ≠ 0
    let n1 :=
      { n with gFrameScheduler :=
          { sch with frame :=
              { sch.frame with header :=
                  { h with control := clearBits h.control FRAME_CONTROL_DATA_REQ } } } }
    match cfg.role with
    | Role.endPoint =>
      let r := FrameComplete none (some n1.gFrameScheduler.frame.payload) n1.gFrameScheduler.length
      let n2 := n1.emit (Event.frameComplete none (some n1.gFrameScheduler.frame.payload)
        n1.gFrameScheduler.length)
      (r.statusMessage, n2)
    | Role.gateway =>
      let r := FrameComplete (some dataRequest) (some n1.gFrameScheduler.frame.payload)
        n1.gFrameScheduler.length
      let n2 := n1.emit (Event.frameComplete (some dataRequest)
        (some n1.gFrameScheduler.frame.payload) n1.gFrameScheduler.length)
      let n3 := applyLoad cfg r n2
      if dataRequest ∧ n3.gFrameScheduler.dataResponse.length > 0 then
        let n4 := PhyEnable n3
        (r.statusMessage,
          (FrameSend cfg eFrameType.eFrameTypeData dataRequest
            n4.gFrameScheduler.dataResponse.payload n4.gFrameScheduler.dataResponse.length n4).2)
      else
        (r.statusMessage, n3)
  | none => (0, n)

/-- Dispatch of a validated Link Request frame. -/
def FrameSchedulerLinkRequest (cfg : Config) (n : Node) : Nat × Node :=
  match cfg.role with
  | Role.endPoint =>
    (0, PhyAddressLinkEstablish cfg n.gFrameScheduler.frame.header.panId
      n.gFrameScheduler.frame.header.srcAddr n)
  | Role.gateway =>
    if (n.gFrameScheduler.frame.header.control &&& FRAME_CONTROL_MODE)
        = FRAME_CONTROL_MODE_ENDPOINT then
      let r : Bool × Node :=
        match n.gFrameScheduler.LinkRequest with
        | some LinkRequest =>
          (LinkRequest n.gFrameScheduler.frame.payload n.gFrameScheduler.length,
            n.emit (Event.linkRequest n.gFrameScheduler.frame.payload n.gFrameScheduler.length))
        | none => (true, n)
      if r.1 then
        (0, (FrameSend cfg eFrameType.eFrameTypeLinkRequest false [] 0 (PhyEnable r.2)).2)
      else
        (0, r.2)
    else
      (0, n)

def FrameInit (cfg : Config)
    (FrameComplete : Option (Option Bool → Option (List Nat) → Nat → CallbackResult))
    (LinkRequest : Option (List Nat → Nat → Bool)) (n : Node) : Node :=
  let sch := n.gFrameScheduler
  let n1 :=
    match cfg.role with
    | Role.endPoint => { n with gFrameScheduler := { sch with FrameComplete := FrameComplete } }
    | Role.gateway =>
      { n with gFrameScheduler :=
          { sch with FrameComplete := FrameComplete, LinkRequest := LinkRequest } }
  FrameIdle cfg n1

/-- Receive completion.  The received bytes are already in the shared frame
buffer; the payload argument is not read. -/
def FrameAssemble (cfg : Config) (_payload : List Nat) (length : Nat) (n : Node) : Nat × Node :=
  let n1 := { n with gFrameScheduler := { n.gFrameScheduler with busy := false, length := 0 } }
  let n2 :=
    match cfg.role with
    | Role.endPoint => n1
    | Role.gateway => FrameSetDataResponse [] 0 n1
  if length ≥ FRAME_OVERHEAD_LENGTH cfg
      ∧ (n2.gPhyDevice.footerStatus &&& PROTOCOL_DATASTREAM_FOOTER_CRC) ≠ 0 then
    let n3 :=
      { n2 with gFrameScheduler :=
          { n2.gFrameScheduler with length := (length - FRAME_OVERHEAD_LENGTH cfg) % 256 } }
    let h := n3.gFrameScheduler.frame.header
    let valid :=
      match cfg.role with
      | Role.endPoint => FrameEndPointValidate cfg h.panId h.destAddr n3
      | Role.gateway => FrameGatewayValidate cfg h.panId h.destAddr n3
    if valid then
      let r : Nat × Node :=
        if (h.control &&& FRAME_CONTROL_TYPE) = eFrameType.eFrameTypeData.toNat then
          FrameSchedulerData cfg n3
        else if (h.control &&& FRAME_CONTROL_TYPE) = eFrameType.eFrameTypeLinkRequest.toNat then
          FrameSchedulerLinkRequest cfg n3
        else
          (0, n3)
      if !r.2.gFrameScheduler.busy then
        (r.1, FrameIdle cfg r.2)
      else
        r
    else
      (0, FrameIdle cfg n3)
  else
    (0, FrameIdle cfg n2)

/-- Transmit completion. -/
def FrameDisassemble (cfg : Config) (n : Node) : Nat × Node :=
  let n1 := { n with gFrameScheduler := { n.gFrameScheduler with busy := false } }
  if (n1.gFrameScheduler.frame.header.control &&& FRAME_CONTROL_DATA_REQ) ≠ 0 then
    (0, (FrameListen cfg n1).2)
  else
    let n2 := { n1 with gFrameScheduler := { n1.gFrameScheduler with length := 0 } }
    match n2.gFrameScheduler.FrameComplete with
    | some FrameComplete =>
      let dataRequest : Option Bool :=
        match cfg.role with
        | Role.endPoint => none
        | Role.gateway => some false
      let r := FrameComplete dataRequest none 0
      ((r.statusMessage),
        FrameIdle cfg (applyLoad cfg r (n2.emit (Event.frameComplete dataRequest none 0))))
    | none => (0, FrameIdle cfg n2)

def FrameTimeout (cfg : Config) (n : Node) : Nat × Node :=
  (0, FrameIdle cfg { n with gFrameScheduler := { n.gFrameScheduler with busy := false } })

/-! ## The End-of-Packet interrupt (A110x2500PhyBridge.c) -/

/-- Reads the radio RX FIFO: its length byte, that many bytes of data field
into the buffer armed by PhyReceiverOn (the shared frame buffer), then the two
appended status bytes.  An empty FIFO (a bogus interrupt) clears the length. -/
def PhyGetDataStream (cfg : Config) (rxFifo : List Nat) (n : Node) : Node :=
  match rxFifo with
  | [] => { n with gPhyDevice := { n.gPhyDevice with streamHeaderLength := 0 } }
  | len :: rest =>
    { n with
      gFrameScheduler :=
        { n.gFrameScheduler with
          frame := sFrame.ofBytes cfg (memcpy n.gFrameScheduler.frame.toBytes rest len) }
      gPhyDevice :=
        { n.gPhyDevice with
          streamHeaderLength := len
          footerStatus := (rest.drop (len + 1)).headD 0 } }

/-- The GDO0 interrupt service routine, with the callbacks ProtocolInit
registers: FrameDisassemble for a sent data stream, FrameAssemble for a
received one.  gdo0Event says whether the port event is the GDO0 pin. -/
def PhySyncEopIsr (cfg : Config) (gdo0Event : Bool) (rxFifo : List Nat) (n : Node) : Nat × Node :=
  if gdo0Event then
    let n1 := PhyDisable n
    let r : Nat × Node :=
      if n1.gPhyDevice.gdoWaitForDeassert then
        if n1.gPhyDevice.transmitting then
          FrameDisassemble cfg
            { n1 with gPhyDevice := { n1.gPhyDevice with transmitting := false } }
        else
          let n2 := PhyGetDataStream cfg rxFifo n1
          FrameAssemble cfg n2.gFrameScheduler.frame.toBytes n2.gPhyDevice.streamHeaderLength n2
      else
        (0, n1)
    (r.1, PhyEnable r.2)
  else
    (0, n)

/-- A call through a timer callback pointer. -/
def TimerCallback.call (cfg : Config) : TimerCallback → Node → Nat × Node
  | TimerCallback.frameTimeout, n => FrameTimeout cfg n
  | TimerCallback.application status, n => (status % 256, n)

/-- The tail of PhyTimerIsr: the generic timer callback is called if one is
registered, and its status returned; with none the routine returns 0. -/
def PhyTimerGeneric (cfg : Config) (n : Node) : Nat × Node :=
  match n.gPhyDevice.Generic with
  | some Generic => Generic.call cfg n
  | none => (0, n)

/-- The timer interrupt service routine (one millisecond tick).  On an End
Point built with the receive timeout an enabled timeout counts down (the
counter is a tTime: the decrement wraps at 2 ^ 32); when it reaches zero the
timeout is disabled and, if a receive timeout callback is registered, the
routine returns what that callback returns.  Every other path services the
generic timer. -/
def PhyTimerIsr (cfg : Config) (n : Node) : Nat × Node :=
  if cfg.role = Role.endPoint ∧ cfg.PROTOCOL_USE_RX_TIMEOUT = true then
    if n.gPhyDevice.rxTimeout.enable then
      let d := n.gPhyDevice
      let counter := (d.rxTimeout.counter + (2 ^ 32 - 1)) % 2 ^ 32
      let n1 :=
        { n with gPhyDevice := { d with rxTimeout := { d.rxTimeout with counter := counter } } }
      if counter = 0 then
        let n2 := PhyTimerDisableRxTimeout n1
        match n2.gPhyDevice.RxTimeout with
        | some RxTimeout => RxTimeout.call cfg n2
        | none => PhyTimerGeneric cfg n2
      else
        PhyTimerGeneric cfg n1
    else
      PhyTimerGeneric cfg n
  else
    PhyTimerGeneric cfg n

/-- The node after k consecutive timer ticks with no other event between
them. -/
def timerTicks (cfg : Config) : Nat → Node → Node
  | 0, n => n
  | k + 1, n => timerTicks cfg k (PhyTimerIsr cfg n).2

/-- The arguments of one FrameSend call. -/
structure SendCall where
  type : eFrameType
  dataRequest : Bool
  payload : List Nat
  length : Nat
  deriving DecidableEq, Repr

def SendCall.run (cfg : Config) (c : SendCall) (n : Node) : Bool × Node :=
  FrameSend cfg c.type c.dataRequest c.payload c.length n

/-- FrameSend calls made one after the other, each on the node the previous
one left. -/
def sendAll (cfg : Config) (calls : List SendCall) (n : Node) : Node :=
  calls.foldl (fun m c => (c.run cfg m).2) n

/-! ## Protocol operations (API.c) -/

def ProtocolBusy (n : Node) : Bool := FrameBusy n

/-- End Point only. -/
def ProtocolConnect (cfg : Config) (txData : List Nat) (length : Nat) (n : Node) : Bool × Node :=
  if !PhyAddressLinkExists cfg n then
    (false, (FrameSend cfg eFrameType.eFrameTypeLinkRequest true txData length n).2)
  else
    (true, n)

/-- End Point only. -/
def ProtocolDisconnect (cfg : Config) (n : Node) : Node := PhyAddressLinkDestroy cfg n

/-- End Point only. -/
def ProtocolSimpleTransfer (cfg : Config) (txData : List Nat) (length : Nat) (n : Node) :
    Bool × Node :=
  let r := FrameSend cfg eFrameType.eFrameTypeData false txData length n
  if r.1 then (true, r.2) else (false, r.2)

/-- End Point only. -/
def ProtocolTransfer (cfg : Config) (txData : List Nat) (txLength : Nat) (n : Node) :
    Bool × Node :=
  if PhyAddressLinkExists cfg n then
    let r := FrameSend cfg eFrameType.eFrameTypeData true txData txLength n
    if r.1 then (true, r.2) else (false, r.2)
  else
    (false, n)

/-- Gateway only. -/
def ProtocolLoadDataResponse (txData : List Nat) (txLength : Nat) (n : Node) : Node :=
  FrameSetDataResponse txData txLength n

/-- The node FrameAssemble holds when it consults the validator and
dispatches: busy cleared, the staged data response cleared on a Gateway, and
the stored length set to the received length less the frame overhead. -/
def atDispatch (cfg : Config) (length : Nat) (n : Node) : Node :=
  let n1 := { n with gFrameScheduler := { n.gFrameScheduler with busy := false, length := 0 } }
  let n2 :=
    match cfg.role with
    | Role.endPoint => n1
    | Role.gateway => FrameSetDataResponse [] 0 n1
  { n2 with gFrameScheduler :=
      { n2.gFrameScheduler with length := (length - FRAME_OVERHEAD_LENGTH cfg) % 256 } }

/-! ## Initial and sample states -/

/-- Static storage before any initialisation: every singleton is zeroed, the
callbacks are NULL and nothing has been traced. -/
def Node.zero (cfg : Config) : Node where
  gPhyAddressInfo :=
    { local_ :=
        { fixed := false
          panId := List.replicate cfg.PROTOCOL_PHYADDRESS_PANID_SIZE 0
          address := List.replicate cfg.PROTOCOL_PHYADDRESS_ADDRESS_SIZE 0
          remote := List.replicate cfg.PROTOCOL_PHYADDRESS_ADDRESS_SIZE 0 }
      Backup := false }
  gFrameScheduler :=
    { FrameComplete := none
      LinkRequest := none
      dataResponse := { payload := [], length := 0 }
      busy := false
      frame :=
        { header :=
            { panId := List.replicate cfg.PROTOCOL_PHYADDRESS_PANID_SIZE 0
              destAddr := List.replicate cfg.PROTOCOL_PHYADDRESS_ADDRESS_SIZE 0
              srcAddr := List.replicate cfg.PROTOCOL_PHYADDRESS_ADDRESS_SIZE 0
              control := 0
              seqNumber := 0 }
          payload := List.replicate cfg.PROTOCOL_FRAME_MAX_PAYLOAD_LENGTH 0 }
      length := 0 }
  seqNumber := 0
  gPhyDevice :=
    { transmitting := false
      timerRunning := false
      Generic := none
      rxTimeout := { enable := false, compare := 0, counter := 0 }
      RxTimeout := none
      streamHeaderLength := 0
      footerStatus := 0
      gdoWaitForDeassert := false }
  trace := []

/-- The node once the physical layer has stored a received frame in the shared
buffer and its status byte in the data stream footer. -/
def Node.received (n : Node) (f : sFrame) (status : Nat) : Node :=
  { n with
    gFrameScheduler := { n.gFrameScheduler with frame := f }
    gPhyDevice := { n.gPhyDevice with footerStatus := status } }

/-- An unlinked End Point with address 2 and no fixed PAN id. -/
def sampleEndPoint : Node :=
  PhyAddressInit shippedEndPoint [0] [2] false (Node.zero shippedEndPoint)

/-- A Gateway with PAN id 1 and address 9. -/
def sampleGateway : Node :=
  PhyAddressInit shippedGateway [1] [9] false (Node.zero shippedGateway)

/-- A Link Request answer from the Gateway at address 9 in PAN 7 to address 2. -/
def sampleLinkResponse : sFrame :=
  { header := { panId := [7], destAddr := [2], srcAddr := [9], control := 0x41, seqNumber := 5 }
    payload := [0, 0, 0, 0, 0, 0, 0, 0] }

/-- A Data frame from the End Point at address 2 to the Gateway at address 9,
with the reserved secure bit set. -/
def sampleDataFrame : sFrame :=
  { header := { panId := [1], destAddr := [9], srcAddr := [2], control := 0x20, seqNumber := 3 }
    payload := [72, 105, 0, 0, 0, 0, 0, 0] }

/-- The sample End Point once linked to the Gateway at address 9 in PAN 7. -/
def linkedEndPoint : Node :=
  PhyAddressLinkEstablish shippedEndPoint [7] [9] sampleEndPoint

/-- A Link Request frame of PAN 7 for address 2 sent by another Gateway, at
address 5. -/
def otherLinkResponse : sFrame :=
  { header := { panId := [7], destAddr := [2], srcAddr := [5], control := 0x41, seqNumber := 0 }
    payload := [0, 0, 0, 0, 0, 0, 0, 0] }

/-- A completion callback that reports status 0 and stages nothing. -/
def quietCallback : Option Bool → Option (List Nat) → Nat → CallbackResult :=
  fun _ _ _ => { statusMessage := 0, loadDataResponse := none }

/-- The completion callback of the half duplex Gateway example: on a data
request it stages a fixed eight byte packet. -/
def stagingCallback : Option Bool → Option (List Nat) → Nat → CallbackResult :=
  fun dataRequest _ _ =>
    { statusMessage := 0
      loadDataResponse :=
        if dataRequest = some true then
          some { payload := [0, 72, 101, 108, 108, 111, 0, 0], length := 8 }
        else none }

/-- The sample Gateway after FrameInit with the quiet callback and no
LinkRequest callback: it is listening. -/
def quietGateway : Node :=
  FrameInit shippedGateway (some quietCallback) none sampleGateway

/-- The sample Gateway after FrameInit with the staging callback. -/
def stagingGateway : Node :=
  FrameInit shippedGateway (some stagingCallback) none sampleGateway

/-- A Data frame with the data request bit set, from the End Point at address
2 to the Gateway at address 9 in PAN 1. -/
def sampleDataRequest : sFrame :=
  { header := { panId := [1], destAddr := [9], srcAddr := [2], control := 0x02, seqNumber := 4 }
    payload := [1, 2, 3, 0, 0, 0, 0, 0] }

/-- A Link Request frame from the unlinked End Point at address 2. -/
def sampleLinkRequest : sFrame :=
  { header := { panId := [0], destAddr := [0], srcAddr := [2], control := 0x42, seqNumber := 0 }
    payload := [0, 0, 0, 0, 0, 0, 0, 0] }

/-! ## Well-formed states -/

/-- The arrays of the frame buffer have their declared sizes. -/
def sFrame.WellFormed (cfg : Config) (f : sFrame) : Prop :=
  f.header.panId.length = cfg.PROTOCOL_PHYADDRESS_PANID_SIZE
  ∧ f.header.destAddr.length = cfg.PROTOCOL_PHYADDRESS_ADDRESS_SIZE
  ∧ f.header.srcAddr.length = cfg.PROTOCOL_PHYADDRESS_ADDRESS_SIZE
  ∧ f.payload.length = cfg.PROTOCOL_FRAME_MAX_PAYLOAD_LENGTH

instance (cfg : Config) (f : sFrame) : Decidable (f.WellFormed cfg) := by
  unfold sFrame.WellFormed
  infer_instance

/-- The arrays of the local addressing record have their declared sizes. -/
def sPhyAddressLocal.WellFormed (cfg : Config) (l : sPhyAddressLocal) : Prop :=
  l.panId.length = cfg.PROTOCOL_PHYADDRESS_PANID_SIZE
  ∧ l.address.length = cfg.PROTOCOL_PHYADDRESS_ADDRESS_SIZE
  ∧ l.remote.length = cfg.PROTOCOL_PHYADDRESS_ADDRESS_SIZE

instance (cfg : Config) (l : sPhyAddressLocal) : Decidable (l.WellFormed cfg) := by
  unfold sPhyAddressLocal.WellFormed
  infer_instance

/-- Every array of the node has its declared size. -/
def Node.WellFormed (cfg : Config) (n : Node) : Prop :=
  n.gPhyAddressInfo.local_.WellFormed cfg ∧ n.gFrameScheduler.frame.WellFormed cfg

instance (cfg : Config) (n : Node) : Decidable (n.WellFormed cfg) := by
  unfold Node.WellFormed
  infer_instance

/-- The role-mode bit FrameBuild stamps: 0 on an End Point, 1 on a Gateway. -/
def Role.modeBit : Role → Nat
  | Role.endPoint => FRAME_CONTROL_MODE_ENDPOINT
  | Role.gateway => FRAME_CONTROL_MODE_GATEWAY

/-- The radio commands of the idle policy (FrameIdle) on a node that is not
busy: low power on an End Point; disable, then receiver on, on a Gateway. -/
def idleEvents : Role → List Event
  | Role.endPoint => [Event.phyLowPowerMode]
  | Role.gateway => [Event.phyDisable, Event.phyReceiverOn]

/-- The busy flag the idle policy leaves on a node that was not busy. -/
def idleBusy : Role → Bool
  | Role.endPoint => false
  | Role.gateway => true

/-- The data request argument of the completion callback after a transmission:
absent on an End Point, false on a Gateway. -/
def sentDataRequest : Role → Option Bool
  | Role.endPoint => none
  | Role.gateway => some false

/-- The validator FrameAssemble applies, selected by the role, on the header
held in the shared buffer. -/
def FrameValidate (cfg : Config) (n : Node) : Bool :=
  match cfg.role with
  | Role.endPoint =>
    FrameEndPointValidate cfg n.gFrameScheduler.frame.header.panId
      n.gFrameScheduler.frame.header.destAddr n
  | Role.gateway =>
    FrameGatewayValidate cfg n.gFrameScheduler.frame.header.panId
      n.gFrameScheduler.frame.header.destAddr n

/-- The node FrameSchedulerData holds on a Gateway when the completion callback
cb, called for a frame that requests data, has returned: the data request bit
of the stored control byte is cleared, the call is traced and what the
callback staged is in the data response. -/
def afterDataCallback (cfg : Config) (d : Node)
    (cb : Option Bool → Option (List Nat) → Nat → CallbackResult) : Node :=
  applyLoad cfg
    (cb (some true) (some d.gFrameScheduler.frame.payload) d.gFrameScheduler.length)
    (Node.emit
      { d with gFrameScheduler :=
          { d.gFrameScheduler with frame :=
              { d.gFrameScheduler.frame with header :=
                  { d.gFrameScheduler.frame.header with
                    control := clearBits d.gFrameScheduler.frame.header.control
                      FRAME_CONTROL_DATA_REQ } } } }
      (Event.frameComplete (some true) (some d.gFrameScheduler.frame.payload)
        d.gFrameScheduler.length))

/-- An unlinked End Point with address 2, no fixed PAN id and a backup hook
registered. -/
def backedEndPoint : Node :=
  PhyAddressInit shippedEndPoint [0] [2] true (Node.zero shippedEndPoint)

/-- An End Point with address 2 and the fixed PAN id 1. -/
def fixedEndPoint : Node :=
  PhyAddressInit shippedEndPoint [1] [2] false (Node.zero shippedEndPoint)

/-- The compare value as the documentation of PhyCalculateRxTimeout words it:
the time, in millisecond ticks, of (PREAMBLE + SYNC) * 8 + PAYLOAD * 8 bits at
the true baud rate baudRate * scaleFactor, rounded up to a whole tick, and
doubled for the offset. -/
def documentedRxTimeout (cfg : Config) (baudRate scaleFactor : Nat) : Nat :=
  let bits := (PHY_PREAMBLE_LENGTH + PHY_SYNC_LENGTH) * 8 + cfg.PHY_MAX_TXFIFO_SIZE * 8
  let baud := baudRate * scaleFactor
  2 * ((bits * 1000 + baud - 1) / baud)

/-- The node with its receive timeout counter set to c. -/
def Node.withRxCounter (n : Node) (c : Nat) : Node :=
  { n with gPhyDevice :=
      { n.gPhyDevice with rxTimeout := { n.gPhyDevice.rxTimeout with counter := c } } }

/-- The part of PhyInit that reaches the protocol-visible state: the
transmitting flag, the generic timer callback and the data stream header and
footer are cleared, and an End Point built with the receive timeout computes its
compare value from the baud rate entry of the radio module table (baudRate,
scaleFactor).  The result of the radio initialisation, which PhyInit returns, is
not used by ProtocolInit. -/
def PhyInit (cfg : Config) (baudRate scaleFactor : Nat) (n : Node) : Node :=
  let n1 :=
    { n with gPhyDevice :=
        { n.gPhyDevice with
          transmitting := false
          Generic := none
          streamHeaderLength := 0
          footerStatus := 0 } }
  if cfg.role = Role.endPoint ∧ cfg.PROTOCOL_USE_RX_TIMEOUT = true then
    PhyCalculateRxTimeout cfg baudRate scaleFactor n1
  else n1

/-- ProtocolInit with a setup record (not NULL) holding panId, address and the
callbacks.  The channel selection is a radio register write.  The generic timer
gets no callback, the receive timeout gets FrameTimeout. -/
def ProtocolInit (cfg : Config) (baudRate scaleFactor : Nat) (panId address : List Nat)
    (Backup : Bool)
    (TransferComplete : Option (Option Bool → Option (List Nat) → Nat → CallbackResult))
    (LinkRequest : Option (List Nat → Nat → Bool)) (n : Node) : Bool × Node :=
  let n1 := PhyTimerInit none (PhyInit cfg baudRate scaleFactor n)
  let n2 :=
    match cfg.role with
    | Role.endPoint =>
      let n3 :=
        if cfg.PROTOCOL_USE_RX_TIMEOUT then PhySyncTimerInit (some TimerCallback.frameTimeout) n1
        else n1
      FrameInit cfg TransferComplete none (PhyAddressInit cfg panId address Backup n3)
    | Role.gateway =>
      FrameInit cfg TransferComplete LinkRequest (PhyAddressInit cfg panId address false n1)
  (true, PhyEnable n2)

/-- An End Point built with the receive timeout, initialised for 115.2 kBaud
(compare value 4), address 2, no fixed PAN id. -/
def staleInit : Node :=
  (ProtocolInit timeoutEndPoint 1152 100 [0] [2] false (some quietCallback) none
    (Node.zero timeoutEndPoint)).2

/-- It sends a Link Request. -/
def staleConnect : Node := (ProtocolConnect timeoutEndPoint [] 0 staleInit).2

/-- The transmission completes: the End Point listens for the answer and the
receive timeout is armed. -/
def staleListening : Node := (PhySyncEopIsr timeoutEndPoint true [] staleConnect).2

/-- One tick later the answer of the Gateway at address 9 in PAN 1 arrives with
CRC OK and is processed. -/
def staleLinked : Node :=
  (PhySyncEopIsr timeoutEndPoint true [5, 1, 2, 9, 0x41, 0, 0, 0x80]
    (PhyTimerIsr timeoutEndPoint staleListening).2).2

/-- The application transfers three bytes. -/
def staleTransfer : Bool × Node := ProtocolTransfer timeoutEndPoint [1, 2, 3] 3 staleLinked

/-- Three more ticks pass before the End-of-Packet interrupt of that
transmission. -/
def staleExpired : Node := timerTicks timeoutEndPoint 3 staleTransfer.2

/-- The RX FIFO of a radio that has received, unaltered, the count bytes a peer
handed to PhyTransmit at dataField: the length byte, the bytes, and the two
status bytes the radio appends, the second of which carries the CRC OK flag. -/
def rxFifo (dataField : List Nat) (count rssi status : Nat) : List Nat :=
  count :: dataField.take count ++ [rssi, status]

/-- The relation of the two flags the scheduler relies on: while the physical
bridge has a transmission in flight, the scheduler is busy. -/
def Node.busyInFlight (n : Node) : Prop :=
  n.gPhyDevice.transmitting = true → n.gFrameScheduler.busy = true

instance (n : Node) : Decidable n.busyInFlight := by
  unfold Node.busyInFlight
  infer_instance

/-- What drives a protocol instance: a FrameSend call, a FrameListen call, a
port interrupt (the End-of-Packet edge when gdo0Event holds, with what the RX
FIFO then contains), or a timer tick. -/
inductive Stimulus where
  | send (c : SendCall)
  | listen
  | edge (gdo0Event : Bool) (rxFifo : List Nat)
  | tick
  deriving DecidableEq, Repr

def Stimulus.run (cfg : Config) : Stimulus → Node → Node
  | Stimulus.send c, n => (c.run cfg n).2
  | Stimulus.listen, n => (FrameListen cfg n).2
  | Stimulus.edge gdo0Event rxFifo, n => (PhySyncEopIsr cfg gdo0Event rxFifo n).2
  | Stimulus.tick, n => (PhyTimerIsr cfg n).2

/-- The node after a run of stimuli, each applied to the node the previous one
left. -/
def runAll (cfg : Config) (run : List Stimulus) (n : Node) : Node :=
  run.foldl (fun m s => s.run cfg m) n

/-- The run that leads from staleInit to staleExpired. -/
def staleRun : List Stimulus :=
  [Stimulus.send
      { type := eFrameType.eFrameTypeLinkRequest, dataRequest := true, payload := [], length := 0 },
    Stimulus.edge true [],
    Stimulus.tick,
    Stimulus.edge true [5, 1, 2, 9, 0x41, 0, 0, 0x80],
    Stimulus.send
      { type := eFrameType.eFrameTypeData, dataRequest := true, payload := [1, 2, 3], length := 3 },
    Stimulus.tick,
    Stimulus.tick,
    Stimulus.tick]

theorem memcmp_self (a : List Nat) (n : Nat) : memcmp a a n = 0 := by
  induction a generalizing n with
  | nil => simp [memcmp]
  | cons x xs ih =>
    cases n with
    | zero => simp [memcmp]
    | succ k => simp [memcmp, ih]

theorem memcmp_eq_zero_iff (a b : List Nat) (n : Nat) (ha : a.length = n) (hb : b.length = n) :
    memcmp a b n = 0 ↔ a = b := by
  induction a generalizing b n with
  | nil =>
    subst ha
    have : b = [] := List.length_eq_zero.mp hb
    subst this
    simp [memcmp]
  | cons x xs ih =>
    cases n with
    | zero => simp at ha
    | succ k =>
      cases b with
      | nil => simp at hb
      | cons y ys =>
        simp only [List.length_cons, Nat.add_right_cancel_iff] at ha hb
        by_cases hxy : x = y
        · subst hxy
          simp [memcmp, ih ys k ha hb]
        · have hne : (x : Int) - (y : Int) ≠ 0 := by
            intro h
            apply hxy
            omega
          simp [memcmp, hxy, hne]

theorem PhyAddressCompare_eq_zero_iff (a b : List Nat) (n : Nat)
    (ha : a.length = n) (hb : b.length = n) : PhyAddressCompare a b n = 0 ↔ a = b :=
  memcmp_eq_zero_iff a b n ha hb

theorem PhyAddressIsBroadcast_iff (a : List Nat) (n : Nat) (ha : a.length = n) :
    PhyAddressIsBroadcast a n = true ↔ a = List.replicate n PHY_ADDRESS_BROADCAST := by
  induction a generalizing n with
  | nil =>
    subst ha
    simp [PhyAddressIsBroadcast]
  | cons x xs ih =>
    cases n with
    | zero => simp at ha
    | succ k =>
      simp only [List.length_cons, Nat.add_right_cancel_iff] at ha
      by_cases hx : x = PHY_ADDRESS_BROADCAST
      · simp [PhyAddressIsBroadcast, hx, ih k ha, List.replicate_succ]
      · simp [PhyAddressIsBroadcast, hx, List.replicate_succ]

theorem memcpy_exact (dest src : List Nat) (n : Nat) (hd : dest.length = n) (hs : src.length = n) :
    memcpy dest src n = src := by
  unfold memcpy
  rw [List.take_of_length_le (by omega), List.drop_of_length_le (by omega)]
  simp

/-! ## Frame validation -/

/-- C1: on an End Point, FrameEndPointValidate accepts exactly the frames whose
mode bit says Gateway origin, whose destination equals the local address, and
whose PAN id equals the local one or, failing that, that are Link Requests
arriving while no link exists and the local PAN id is not fixed.  A frame with
mode bit 0 is rejected whatever its addresses. -/
theorem FrameEndPointValidate_iff (cfg : Config) (n : Node) (destPan destAddr : List Nat)
    (hA : n.gPhyAddressInfo.local_.address.length = cfg.PROTOCOL_PHYADDRESS_ADDRESS_SIZE)
    (hD : destAddr.length = cfg.PROTOCOL_PHYADDRESS_ADDRESS_SIZE)
    (hP : n.gPhyAddressInfo.local_.panId.length = cfg.PROTOCOL_PHYADDRESS_PANID_SIZE)
    (hDP : destPan.length = cfg.PROTOCOL_PHYADDRESS_PANID_SIZE) :
    (FrameEndPointValidate cfg destPan destAddr n = true ↔
      (n.gFrameScheduler.frame.header.control &&& 0x01 = 1
        ∧ destAddr = n.gPhyAddressInfo.local_.address
        ∧ (destPan = n.gPhyAddressInfo.local_.panId
            ∨ (n.gFrameScheduler.frame.header.control &&& 0xC0 = 0x40
                ∧ PhyAddressLinkExists cfg n = false
                ∧ n.gPhyAddressInfo.local_.fixed = false))))
    ∧ (n.gFrameScheduler.frame.header.control &&& 0x01 = 0 →
        ∀ pan addr : List Nat, FrameEndPointValidate cfg pan addr n = false) := by
  constructor
  · unfold FrameEndPointValidate
    simp only [PhyAddressGetLocalInfo, PHY_ADDRESS_ADDRESS_SIZE, PHY_ADDRESS_PANID_SIZE,
      FRAME_CONTROL_MODE, FRAME_CONTROL_MODE_GATEWAY, FRAME_CONTROL_TYPE, eFrameType.toNat,
      ne_eq, PhyAddressCompare_eq_zero_iff _ _ _ hA hD, PhyAddressCompare_eq_zero_iff _ _ _ hP hDP]
    generalize n.gFrameScheduler.frame.header.control &&& 1 = m
    generalize n.gFrameScheduler.frame.header.control &&& 192 = t
    by_cases hm : m = 1
    · by_cases ha : n.gPhyAddressInfo.local_.address = destAddr
      · by_cases hp : n.gPhyAddressInfo.local_.panId = destPan
        · simp [hm, ha, hp]
        · have hp2 : ¬ destPan = n.gPhyAddressInfo.local_.panId := fun h => hp h.symm
          by_cases ht : t = 64
          · simp [hm, ha, hp, hp2, ht]
          · simp [hm, ha, hp, hp2, ht]
      · have ha2 : ¬ destAddr = n.gPhyAddressInfo.local_.address := fun h => ha h.symm
        simp [hm, ha, ha2]
    · simp [hm]
  · intro h0 pan addr
    unfold FrameEndPointValidate
    simp only [FRAME_CONTROL_MODE, FRAME_CONTROL_MODE_GATEWAY, h0]
    simp

/-- C2: on a Gateway, FrameGatewayValidate accepts exactly the frames whose mode
bit says End Point origin, whose destination is the local address or the
broadcast address, and whose PAN id is the local one or the broadcast PAN.  The
type bits play no part: a PAN id that is neither local nor broadcast is
rejected whatever the control byte. -/
theorem FrameGatewayValidate_iff (cfg : Config) (n : Node) (destPan destAddr : List Nat)
    (hA : n.gPhyAddressInfo.local_.address.length = cfg.PROTOCOL_PHYADDRESS_ADDRESS_SIZE)
    (hD : destAddr.length = cfg.PROTOCOL_PHYADDRESS_ADDRESS_SIZE)
    (hP : n.gPhyAddressInfo.local_.panId.length = cfg.PROTOCOL_PHYADDRESS_PANID_SIZE)
    (hDP : destPan.length = cfg.PROTOCOL_PHYADDRESS_PANID_SIZE) :
    (FrameGatewayValidate cfg destPan destAddr n = true ↔
      (n.gFrameScheduler.frame.header.control &&& 0x01 = 0
        ∧ (destAddr = n.gPhyAddressInfo.local_.address
            ∨ destAddr = List.replicate cfg.PROTOCOL_PHYADDRESS_ADDRESS_SIZE PHY_ADDRESS_BROADCAST)
        ∧ (destPan = n.gPhyAddressInfo.local_.panId
            ∨ destPan = List.replicate cfg.PROTOCOL_PHYADDRESS_PANID_SIZE PHY_ADDRESS_BROADCAST)))
    ∧ (destPan ≠ n.gPhyAddressInfo.local_.panId →
        destPan ≠ List.replicate cfg.PROTOCOL_PHYADDRESS_PANID_SIZE PHY_ADDRESS_BROADCAST →
        FrameGatewayValidate cfg destPan destAddr n = false) := by
  have key : FrameGatewayValidate cfg destPan destAddr n = true ↔
      (n.gFrameScheduler.frame.header.control &&& 0x01 = 0
        ∧ (destAddr = n.gPhyAddressInfo.local_.address
            ∨ destAddr = List.replicate cfg.PROTOCOL_PHYADDRESS_ADDRESS_SIZE PHY_ADDRESS_BROADCAST)
        ∧ (destPan = n.gPhyAddressInfo.local_.panId
            ∨ destPan = List.replicate cfg.PROTOCOL_PHYADDRESS_PANID_SIZE PHY_ADDRESS_BROADCAST)) := by
    have hbA := PhyAddressIsBroadcast_iff destAddr _ hD
    have hbP := PhyAddressIsBroadcast_iff destPan _ hDP
    unfold FrameGatewayValidate
    simp only [PhyAddressGetLocalInfo, PHY_ADDRESS_ADDRESS_SIZE, PHY_ADDRESS_PANID_SIZE,
      FRAME_CONTROL_MODE, FRAME_CONTROL_MODE_ENDPOINT, eFrameType.toNat,
      ne_eq, PhyAddressCompare_eq_zero_iff _ _ _ hA hD, PhyAddressCompare_eq_zero_iff _ _ _ hP hDP]
    generalize n.gFrameScheduler.frame.header.control &&& 1 = m
    generalize n.gFrameScheduler.frame.header.control = c
    rw [← hbA, ← hbP]
    clear hbA hbP
    have ha2 : destAddr = n.gPhyAddressInfo.local_.address
        ↔ n.gPhyAddressInfo.local_.address = destAddr := eq_comm
    have hp2 : destPan = n.gPhyAddressInfo.local_.panId
        ↔ n.gPhyAddressInfo.local_.panId = destPan := eq_comm
    rw [ha2, hp2]
    by_cases hm : m = 0 <;>
      by_cases ha : n.gPhyAddressInfo.local_.address = destAddr <;>
      by_cases hp : n.gPhyAddressInfo.local_.panId = destPan <;>
      by_cases hc : c = 64 <;>
      by_cases hbA : PhyAddressIsBroadcast destAddr cfg.PROTOCOL_PHYADDRESS_ADDRESS_SIZE = true <;>
      by_cases hbP : PhyAddressIsBroadcast destPan cfg.PROTOCOL_PHYADDRESS_PANID_SIZE = true <;>
      simp [hm, ha, hp, hc, hbA, hbP]
  refine ⟨key, ?_⟩
  intro h1 h2
  cases hv : FrameGatewayValidate cfg destPan destAddr n
  · rfl
  · exact absurd (key.mp hv).2.2 (by simp [h1, h2])

/-- Witness of C1: the unlinked sample End Point holding a Link Request answer
from a foreign PAN. -/
theorem FrameEndPointValidate_iff_witness :
    ((sampleEndPoint.received sampleLinkResponse 0x80).gPhyAddressInfo.local_.address.length
        = shippedEndPoint.PROTOCOL_PHYADDRESS_ADDRESS_SIZE
      ∧ [2].length = shippedEndPoint.PROTOCOL_PHYADDRESS_ADDRESS_SIZE
      ∧ (sampleEndPoint.received sampleLinkResponse 0x80).gPhyAddressInfo.local_.panId.length
        = shippedEndPoint.PROTOCOL_PHYADDRESS_PANID_SIZE
      ∧ [7].length = shippedEndPoint.PROTOCOL_PHYADDRESS_PANID_SIZE)
    ∧ FrameEndPointValidate shippedEndPoint [7] [2]
        (sampleEndPoint.received sampleLinkResponse 0x80) = true :=
  ⟨⟨by decide, by decide, by decide, by decide⟩,
    ((FrameEndPointValidate_iff shippedEndPoint (sampleEndPoint.received sampleLinkResponse 0x80)
      [7] [2] (by decide) (by decide) (by decide) (by decide)).1).2
      ⟨by decide, by decide, Or.inr ⟨by decide, by decide, by decide⟩⟩⟩

/-- Witness of C2: the sample Gateway holding a Data frame of its own PAN. -/
theorem FrameGatewayValidate_iff_witness :
    ((sampleGateway.received sampleDataFrame 0x80).gPhyAddressInfo.local_.address.length
        = shippedGateway.PROTOCOL_PHYADDRESS_ADDRESS_SIZE
      ∧ [9].length = shippedGateway.PROTOCOL_PHYADDRESS_ADDRESS_SIZE
      ∧ (sampleGateway.received sampleDataFrame 0x80).gPhyAddressInfo.local_.panId.length
        = shippedGateway.PROTOCOL_PHYADDRESS_PANID_SIZE
      ∧ [1].length = shippedGateway.PROTOCOL_PHYADDRESS_PANID_SIZE)
    ∧ FrameGatewayValidate shippedGateway [1] [9]
        (sampleGateway.received sampleDataFrame 0x80) = true :=
  ⟨⟨by decide, by decide, by decide, by decide⟩,
    ((FrameGatewayValidate_iff shippedGateway (sampleGateway.received sampleDataFrame 0x80)
      [1] [9] (by decide) (by decide) (by decide) (by decide)).1).2
      ⟨by decide, Or.inl (by decide), Or.inl (by decide)⟩⟩

/-! ## Sending and the busy gate -/

theorem PhyTransmit_accepts_iff (cfg : Config) (dataField : List Nat) (count : Nat) (n : Node) :
    (PhyTransmit cfg dataField count n).1 = true ↔
      count ≤ cfg.CC1101_TXFIFO_SIZE ∧ n.gPhyDevice.transmitting = false := by
  unfold PhyTransmit
  by_cases hc : count > cfg.CC1101_TXFIFO_SIZE
  · simp [hc]
  · have hle : count ≤ cfg.CC1101_TXFIFO_SIZE := by omega
    cases ht : n.gPhyDevice.transmitting <;> simp [hc, ht, hle]

theorem FrameBuild_gPhyDevice (cfg : Config) (type : eFrameType) (dataRequest : Bool)
    (payload : List Nat) (length : Nat) (n : Node) :
    (FrameBuild cfg type dataRequest payload length n).gPhyDevice = n.gPhyDevice := rfl

theorem FrameBuild_trace (cfg : Config) (type : eFrameType) (dataRequest : Bool)
    (payload : List Nat) (length : Nat) (n : Node) :
    (FrameBuild cfg type dataRequest payload length n).trace = n.trace := rfl

theorem FrameBuild_busy (cfg : Config) (type : eFrameType) (dataRequest : Bool)
    (payload : List Nat) (length : Nat) (n : Node) :
    (FrameBuild cfg type dataRequest payload length n).gFrameScheduler.busy
      = n.gFrameScheduler.busy := rfl

/-- C3: a FrameSend made while the scheduler is not busy returns true exactly
when length + FRAME_OVERHEAD_LENGTH fits PROTOCOL_DATASTREAM_MAX_SIZE and
PhyTransmit, asked for exactly that many bytes of the built frame, accepts.
The busy flag afterwards equals the returned value; an accepted call hands one
frame of that length to the radio and a rejected one hands over nothing. -/
theorem FrameSend_not_busy (cfg : Config) (type : eFrameType) (dataRequest : Bool)
    (payload : List Nat) (length : Nat) (n : Node)
    (hbusy : n.gFrameScheduler.busy = false)
    (hmax : PROTOCOL_DATASTREAM_MAX_SIZE cfg < 256) :
    ((FrameSend cfg type dataRequest payload length n).1 = true ↔
      (length + FRAME_OVERHEAD_LENGTH cfg ≤ PROTOCOL_DATASTREAM_MAX_SIZE cfg
        ∧ (PhyTransmit cfg
            (FrameBuild cfg type dataRequest payload length n).gFrameScheduler.frame.toBytes
            (length + FRAME_OVERHEAD_LENGTH cfg)
            (FrameBuild cfg type dataRequest payload length n)).1 = true))
    ∧ (FrameSend cfg type dataRequest payload length n).2.gFrameScheduler.busy
        = (FrameSend cfg type dataRequest payload length n).1
    ∧ ((FrameSend cfg type dataRequest payload length n).1 = true →
        (FrameSend cfg type dataRequest payload length n).2.trace
          = n.trace ++ [Event.phyTransmit
              ((FrameBuild cfg type dataRequest payload length n).gFrameScheduler.frame.toBytes.take
                (length + FRAME_OVERHEAD_LENGTH cfg))
              (length + FRAME_OVERHEAD_LENGTH cfg)])
    ∧ ((FrameSend cfg type dataRequest payload length n).1 = false →
        (FrameSend cfg type dataRequest payload length n).2.trace = n.trace) := by
  by_cases hsz : length + FRAME_OVERHEAD_LENGTH cfg ≤ PROTOCOL_DATASTREAM_MAX_SIZE cfg
  · have hmod : (length + FRAME_OVERHEAD_LENGTH cfg) % 256 = length + FRAME_OVERHEAD_LENGTH cfg :=
      Nat.mod_eq_of_lt (by omega)
    by_cases hc : length + FRAME_OVERHEAD_LENGTH cfg > cfg.CC1101_TXFIFO_SIZE
    · simp [FrameSend, hbusy, hsz, hmod, PhyTransmit, hc, FrameBuild_busy, FrameBuild_trace]
    · cases ht : n.gPhyDevice.transmitting <;>
        simp [FrameSend, hbusy, hsz, hmod, PhyTransmit, hc, FrameBuild_busy, FrameBuild_trace,
          FrameBuild_gPhyDevice, ht, Node.emit]
  · simp [FrameSend, hbusy, hsz, FrameBuild_busy, FrameBuild_trace]

/-- C4: while the scheduler is busy, FrameSend and FrameListen return false and
hand back the node exactly as it was: frame buffer, stored length, sequence
counter, busy flag, physical state and trace. -/
theorem busy_rejects_FrameSend_FrameListen (cfg : Config) (type : eFrameType)
    (dataRequest : Bool) (payload : List Nat) (length : Nat) (n : Node)
    (hbusy : n.gFrameScheduler.busy = true) :
    FrameSend cfg type dataRequest payload length n = (false, n)
    ∧ FrameListen cfg n = (false, n) := by
  simp [FrameSend, FrameListen, hbusy]

/-- Witness of C3: a three byte Data frame sent by the idle sample End Point. -/
theorem FrameSend_not_busy_witness :
    sampleEndPoint.gFrameScheduler.busy = false
    ∧ PROTOCOL_DATASTREAM_MAX_SIZE shippedEndPoint < 256
    ∧ (FrameSend shippedEndPoint eFrameType.eFrameTypeData false [1, 2, 3] 3
        sampleEndPoint).2.gFrameScheduler.busy
      = (FrameSend shippedEndPoint eFrameType.eFrameTypeData false [1, 2, 3] 3 sampleEndPoint).1 :=
  ⟨by decide, by decide,
    (FrameSend_not_busy shippedEndPoint eFrameType.eFrameTypeData false [1, 2, 3] 3
      sampleEndPoint (by decide) (by decide)).2.1⟩

/-- Witness of C4: a second FrameSend and a FrameListen right after an accepted
FrameSend. -/
theorem busy_rejects_FrameSend_FrameListen_witness :
    (FrameSend shippedEndPoint eFrameType.eFrameTypeData false [1, 2, 3] 3
        sampleEndPoint).2.gFrameScheduler.busy = true
    ∧ FrameSend shippedEndPoint eFrameType.eFrameTypeData true [4, 5] 2
        (FrameSend shippedEndPoint eFrameType.eFrameTypeData false [1, 2, 3] 3 sampleEndPoint).2
      = (false,
          (FrameSend shippedEndPoint eFrameType.eFrameTypeData false [1, 2, 3] 3 sampleEndPoint).2)
    ∧ FrameListen shippedEndPoint
        (FrameSend shippedEndPoint eFrameType.eFrameTypeData false [1, 2, 3] 3 sampleEndPoint).2
      = (false,
          (FrameSend shippedEndPoint eFrameType.eFrameTypeData false [1, 2, 3] 3 sampleEndPoint).2) :=
  ⟨by decide,
    busy_rejects_FrameSend_FrameListen shippedEndPoint eFrameType.eFrameTypeData true [4, 5] 2
      (FrameSend shippedEndPoint eFrameType.eFrameTypeData false [1, 2, 3] 3 sampleEndPoint).2
      (by decide)⟩

/-! ## Frame build -/

theorem control_bits_table : ∀ d : Fin 64, ∀ t : Fin 2, ∀ dr m : Bool,
    (if m then
        (if dr then clearBits (d.val ||| (64 * t.val)) 2 ||| 2
          else clearBits (d.val ||| (64 * t.val)) 2) ||| 1
      else
        clearBits (if dr then clearBits (d.val ||| (64 * t.val)) 2 ||| 2
          else clearBits (d.val ||| (64 * t.val)) 2) 1)
      = (d.val &&& 60) ||| (64 * t.val) ||| (if dr then 2 else 0) ||| (if m then 1 else 0) := by
  decide

theorem clearBits_type (c : Nat) : clearBits c FRAME_CONTROL_TYPE = c % 64 := by
  have h : (0xFF ^^^ FRAME_CONTROL_TYPE) = 2 ^ 6 - 1 := by decide
  unfold clearBits
  rw [h, Nat.and_pow_two_sub_one_eq_mod]

theorem and_reserved_eq (c : Nat) : c &&& 0x3C = (c % 64) &&& 60 := by
  have h1 : (c &&& 63) &&& 60 = c &&& 60 := by
    rw [Nat.and_assoc]
    rfl
  have h2 : c &&& 63 = c % 64 := Nat.and_pow_two_sub_one_eq_mod c 6
  rw [← h2, h1]

/-- The control byte FrameBuild leaves in the header, for every previous
content c of that byte. -/
theorem FrameBuild_control_eq (cfg : Config) (type : eFrameType) (dataRequest : Bool)
    (payload : List Nat) (length : Nat) (n : Node) :
    (FrameBuild cfg type dataRequest payload length n).gFrameScheduler.frame.header.control
      = (n.gFrameScheduler.frame.header.control &&& 0x3C) ||| type.toNat
          ||| (if dataRequest then FRAME_CONTROL_DATA_REQ else 0) ||| cfg.role.modeBit := by
  have hd : n.gFrameScheduler.frame.header.control % 64 < 64 := Nat.mod_lt _ (by decide)
  have key := fun t dr m =>
    control_bits_table ⟨n.gFrameScheduler.frame.header.control % 64, hd⟩ t dr m
  simp only [FrameBuild, clearBits_type]
  rw [and_reserved_eq]
  cases hr : cfg.role <;> cases type <;> cases dataRequest
  · simpa [FRAME_CONTROL_DATA_REQ, FRAME_CONTROL_MODE, Role.modeBit, eFrameType.toNat,
      FRAME_CONTROL_MODE_ENDPOINT] using key 0 false false
  · simpa [FRAME_CONTROL_DATA_REQ, FRAME_CONTROL_MODE, Role.modeBit, eFrameType.toNat,
      FRAME_CONTROL_MODE_ENDPOINT] using key 0 true false
  · simpa [FRAME_CONTROL_DATA_REQ, FRAME_CONTROL_MODE, Role.modeBit, eFrameType.toNat,
      FRAME_CONTROL_MODE_ENDPOINT] using key 1 false false
  · simpa [FRAME_CONTROL_DATA_REQ, FRAME_CONTROL_MODE, Role.modeBit, eFrameType.toNat,
      FRAME_CONTROL_MODE_ENDPOINT] using key 1 true false
  · simpa [FRAME_CONTROL_DATA_REQ, FRAME_CONTROL_MODE, Role.modeBit, eFrameType.toNat,
      FRAME_CONTROL_MODE_GATEWAY] using key 0 false true
  · simpa [FRAME_CONTROL_DATA_REQ, FRAME_CONTROL_MODE, Role.modeBit, eFrameType.toNat,
      FRAME_CONTROL_MODE_GATEWAY] using key 0 true true
  · simpa [FRAME_CONTROL_DATA_REQ, FRAME_CONTROL_MODE, Role.modeBit, eFrameType.toNat,
      FRAME_CONTROL_MODE_GATEWAY] using key 1 false true
  · simpa [FRAME_CONTROL_DATA_REQ, FRAME_CONTROL_MODE, Role.modeBit, eFrameType.toNat,
      FRAME_CONTROL_MODE_GATEWAY] using key 1 true true

theorem control_fields_table : ∀ d : Fin 64, ∀ t : Fin 2, ∀ dr m : Bool,
    ((d.val &&& 60) ||| (64 * t.val) ||| (if dr then 2 else 0) ||| (if m then 1 else 0)) &&& 192
        = 64 * t.val
    ∧ ((d.val &&& 60) ||| (64 * t.val) ||| (if dr then 2 else 0) ||| (if m then 1 else 0)) &&& 2
        = (if dr then 2 else 0)
    ∧ ((d.val &&& 60) ||| (64 * t.val) ||| (if dr then 2 else 0) ||| (if m then 1 else 0)) &&& 1
        = (if m then 1 else 0)
    ∧ ((d.val &&& 60) ||| (64 * t.val) ||| (if dr then 2 else 0) ||| (if m then 1 else 0)) &&& 60
        = (d.val &&& 60) := by
  decide

/-- The fields of the control byte FrameBuild leaves: type, data request and
mode are the ones asked for, the four bits between them are the previous ones. -/
theorem FrameBuild_control_fields (cfg : Config) (type : eFrameType) (dataRequest : Bool)
    (payload : List Nat) (length : Nat) (n : Node) :
    (FrameBuild cfg type dataRequest payload length n).gFrameScheduler.frame.header.control
        &&& FRAME_CONTROL_TYPE = type.toNat
    ∧ (FrameBuild cfg type dataRequest payload length n).gFrameScheduler.frame.header.control
        &&& FRAME_CONTROL_DATA_REQ = (if dataRequest then FRAME_CONTROL_DATA_REQ else 0)
    ∧ (FrameBuild cfg type dataRequest payload length n).gFrameScheduler.frame.header.control
        &&& FRAME_CONTROL_MODE = cfg.role.modeBit
    ∧ (FrameBuild cfg type dataRequest payload length n).gFrameScheduler.frame.header.control
        &&& 0x3C = n.gFrameScheduler.frame.header.control &&& 0x3C := by
  have hd : n.gFrameScheduler.frame.header.control % 64 < 64 := Nat.mod_lt _ (by decide)
  have key := fun t dr m =>
    control_fields_table ⟨n.gFrameScheduler.frame.header.control % 64, hd⟩ t dr m
  rw [FrameBuild_control_eq, and_reserved_eq]
  cases hr : cfg.role <;> cases type <;> cases dataRequest
  · simpa [FRAME_CONTROL_DATA_REQ, FRAME_CONTROL_MODE, FRAME_CONTROL_TYPE, Role.modeBit,
      eFrameType.toNat, FRAME_CONTROL_MODE_ENDPOINT] using key 0 false false
  · simpa [FRAME_CONTROL_DATA_REQ, FRAME_CONTROL_MODE, FRAME_CONTROL_TYPE, Role.modeBit,
      eFrameType.toNat, FRAME_CONTROL_MODE_ENDPOINT] using key 0 true false
  · simpa [FRAME_CONTROL_DATA_REQ, FRAME_CONTROL_MODE, FRAME_CONTROL_TYPE, Role.modeBit,
      eFrameType.toNat, FRAME_CONTROL_MODE_ENDPOINT] using key 1 false false
  · simpa [FRAME_CONTROL_DATA_REQ, FRAME_CONTROL_MODE, FRAME_CONTROL_TYPE, Role.modeBit,
      eFrameType.toNat, FRAME_CONTROL_MODE_ENDPOINT] using key 1 true false
  · simpa [FRAME_CONTROL_DATA_REQ, FRAME_CONTROL_MODE, FRAME_CONTROL_TYPE, Role.modeBit,
      eFrameType.toNat, FRAME_CONTROL_MODE_GATEWAY] using key 0 false true
  · simpa [FRAME_CONTROL_DATA_REQ, FRAME_CONTROL_MODE, FRAME_CONTROL_TYPE, Role.modeBit,
      eFrameType.toNat, FRAME_CONTROL_MODE_GATEWAY] using key 0 true true
  · simpa [FRAME_CONTROL_DATA_REQ, FRAME_CONTROL_MODE, FRAME_CONTROL_TYPE, Role.modeBit,
      eFrameType.toNat, FRAME_CONTROL_MODE_GATEWAY] using key 1 false true
  · simpa [FRAME_CONTROL_DATA_REQ, FRAME_CONTROL_MODE, FRAME_CONTROL_TYPE, Role.modeBit,
      eFrameType.toNat, FRAME_CONTROL_MODE_GATEWAY] using key 1 true true

/-- C6, as the code has it: FrameBuild sets the type, data request and mode
fields of the control byte to the type asked for, the data request flag and the
role mode, and keeps the four reserved bits (0x3C) of the byte the buffer held
before; the new byte is (previous & 0x3C) | type | data request | mode. -/
theorem FrameBuild_control_keeps_reserved (cfg : Config) (type : eFrameType)
    (dataRequest : Bool) (payload : List Nat) (length : Nat) (n : Node) :
    (FrameBuild cfg type dataRequest payload length n).gFrameScheduler.frame.header.control
      = (n.gFrameScheduler.frame.header.control &&& 0x3C) ||| type.toNat
          ||| (if dataRequest then FRAME_CONTROL_DATA_REQ else 0) ||| cfg.role.modeBit
    ∧ (FrameBuild cfg type dataRequest payload length n).gFrameScheduler.frame.header.control
        &&& FRAME_CONTROL_TYPE = type.toNat
    ∧ (FrameBuild cfg type dataRequest payload length n).gFrameScheduler.frame.header.control
        &&& FRAME_CONTROL_DATA_REQ = (if dataRequest then FRAME_CONTROL_DATA_REQ else 0)
    ∧ (FrameBuild cfg type dataRequest payload length n).gFrameScheduler.frame.header.control
        &&& FRAME_CONTROL_MODE = cfg.role.modeBit
    ∧ (FrameBuild cfg type dataRequest payload length n).gFrameScheduler.frame.header.control
        &&& (FRAME_CONTROL_SECURE ||| FRAME_CONTROL_PENDING ||| FRAME_CONTROL_ACK_REQ
              ||| FRAME_CONTROL_ACK)
        = n.gFrameScheduler.frame.header.control
            &&& (FRAME_CONTROL_SECURE ||| FRAME_CONTROL_PENDING ||| FRAME_CONTROL_ACK_REQ
              ||| FRAME_CONTROL_ACK) :=
  ⟨FrameBuild_control_eq cfg type dataRequest payload length n,
    FrameBuild_control_fields cfg type dataRequest payload length n⟩

/-- C6 as stated fails: a Gateway that builds a Data reply in the buffer that
holds a received frame whose secure bit (0x20) is set stamps the control byte
0x21, not type | data request | mode = 0x01; the secure bit survives. -/
theorem FrameBuild_control_counterexample :
    (FrameBuild shippedGateway eFrameType.eFrameTypeData false [] 0
        (sampleGateway.received sampleDataFrame 0x80)).gFrameScheduler.frame.header.control = 0x21
    ∧ (FrameBuild shippedGateway eFrameType.eFrameTypeData false [] 0
        (sampleGateway.received sampleDataFrame 0x80)).gFrameScheduler.frame.header.control
      ≠ (eFrameType.eFrameTypeData.toNat ||| 0x00 ||| shippedGateway.role.modeBit)
    ∧ (FrameBuild shippedGateway eFrameType.eFrameTypeData false [] 0
        (sampleGateway.received sampleDataFrame 0x80)).gFrameScheduler.frame.header.control
      &&& FRAME_CONTROL_SECURE ≠ 0 := by
  decide

theorem take_frame_bytes (A B C Q : List Nat) (x y L k : Nat)
    (hk : k = A.length + (B.length + (C.length + (L + 2)))) :
    (A ++ (B ++ (C ++ (x :: y :: Q)))).take k = A ++ (B ++ (C ++ (x :: y :: Q.take L))) := by
  subst hk
  simp [List.take_append]

theorem parse_frame_bytes (A B C Q : List Nat) (x y p a : Nat)
    (h1 : A.length = p) (h2 : B.length = a) (h3 : C.length = a) :
    (A ++ (B ++ (C ++ (x :: y :: Q)))).take p = A
    ∧ ((A ++ (B ++ (C ++ (x :: y :: Q)))).drop p).take a = B
    ∧ ((A ++ (B ++ (C ++ (x :: y :: Q)))).drop (p + a)).take a = C
    ∧ ((A ++ (B ++ (C ++ (x :: y :: Q)))).drop (p + a + a)).headD 0 = x
    ∧ ((A ++ (B ++ (C ++ (x :: y :: Q)))).drop (p + a + a + 1)).headD 0 = y
    ∧ (A ++ (B ++ (C ++ (x :: y :: Q)))).drop (p + a + a + 2) = Q := by
  subst h1
  refine ⟨by simp, ?_, ?_, ?_, ?_, ?_⟩
  · subst h2
    simp
  · have hd : (A ++ (B ++ (C ++ (x :: y :: Q)))).drop (A.length + a) = C ++ (x :: y :: Q) := by
      subst h2
      simp [List.drop_append]
    rw [hd]
    subst h3
    simp
  · have hd : (A ++ (B ++ (C ++ (x :: y :: Q)))).drop (A.length + a + a) = x :: y :: Q := by
      have e : A.length + a + a = A.length + (B.length + (C.length + 0)) := by omega
      rw [e]
      simp [List.drop_append]
    rw [hd]
    rfl
  · have hd : (A ++ (B ++ (C ++ (x :: y :: Q)))).drop (A.length + a + a + 1) = y :: Q := by
      have e : A.length + a + a + 1 = A.length + (B.length + (C.length + 1)) := by omega
      rw [e]
      simp [List.drop_append]
    rw [hd]
    rfl
  · have e : A.length + a + a + 2 = A.length + (B.length + (C.length + 2)) := by omega
    rw [e]
    simp [List.drop_append]

/-- Parsing the first L + FRAME_OVERHEAD_LENGTH bytes of a frame buffer through
the frame layout gives back its header and the first L payload bytes. -/
theorem ofBytes_take_toBytes (cfg : Config) (f : sFrame) (L : Nat)
    (h1 : f.header.panId.length = cfg.PROTOCOL_PHYADDRESS_PANID_SIZE)
    (h2 : f.header.destAddr.length = cfg.PROTOCOL_PHYADDRESS_ADDRESS_SIZE)
    (h3 : f.header.srcAddr.length = cfg.PROTOCOL_PHYADDRESS_ADDRESS_SIZE) :
    sFrame.ofBytes cfg (f.toBytes.take (L + FRAME_OVERHEAD_LENGTH cfg))
      = { header := f.header, payload := f.payload.take L } := by
  obtain ⟨⟨A, B, C, x, y⟩, Q⟩ := f
  simp only at h1 h2 h3
  have hk : L + FRAME_OVERHEAD_LENGTH cfg = A.length + (B.length + (C.length + (L + 2))) := by
    simp only [FRAME_OVERHEAD_LENGTH, FRAME_HEADER_LENGTH, FRAME_HEADER_ADDRESS_LENGTH,
      FRAME_FOOTER_LENGTH]
    omega
  have hb : sFrame.toBytes { header := ⟨A, B, C, x, y⟩, payload := Q }
      = A ++ (B ++ (C ++ (x :: y :: Q))) := by
    simp [sFrame.toBytes]
  rw [hb, take_frame_bytes A B C Q x y L _ hk]
  obtain ⟨e1, e2, e3, e4, e5, e6⟩ := parse_frame_bytes A B C (Q.take L) x y _ _ h1 h2 h3
  unfold sFrame.ofBytes
  simp only [e1, e2, e3, e4, e5, e6]

theorem FrameBuild_header_panId (cfg : Config) (type : eFrameType) (dataRequest : Bool)
    (payload : List Nat) (length : Nat) (n : Node) (hwf : n.WellFormed cfg) :
    (FrameBuild cfg type dataRequest payload length n).gFrameScheduler.frame.header.panId
      = n.gPhyAddressInfo.local_.panId := by
  obtain ⟨⟨hp, _, _⟩, ⟨fp, _, _, _⟩⟩ := hwf
  simp [FrameBuild, PhyAddressGetLocalInfo, PhyAddressCopy, memcpy_exact _ _ _ fp hp]

theorem FrameBuild_header_srcAddr (cfg : Config) (type : eFrameType) (dataRequest : Bool)
    (payload : List Nat) (length : Nat) (n : Node) (hwf : n.WellFormed cfg) :
    (FrameBuild cfg type dataRequest payload length n).gFrameScheduler.frame.header.srcAddr
      = n.gPhyAddressInfo.local_.address := by
  obtain ⟨⟨_, ha, _⟩, ⟨_, _, fs, _⟩⟩ := hwf
  simp [FrameBuild, PhyAddressGetLocalInfo, PhyAddressCopy, memcpy_exact _ _ _ fs ha]

theorem FrameBuild_header_destAddr (cfg : Config) (type : eFrameType) (dataRequest : Bool)
    (payload : List Nat) (length : Nat) (n : Node) (hwf : n.WellFormed cfg) :
    (FrameBuild cfg type dataRequest payload length n).gFrameScheduler.frame.header.destAddr
      = (match cfg.role with
          | Role.endPoint => n.gPhyAddressInfo.local_.remote
          | Role.gateway => n.gFrameScheduler.frame.header.srcAddr) := by
  obtain ⟨⟨_, _, hr⟩, ⟨_, fd, fs, _⟩⟩ := hwf
  cases hrole : cfg.role <;>
    simp [FrameBuild, PhyAddressGetLocalInfo, PhyAddressCopy, hrole, memcpy_exact _ _ _ fd hr,
      memcpy_exact _ _ _ fd fs]

theorem FrameBuild_payload (cfg : Config) (type : eFrameType) (dataRequest : Bool)
    (payload : List Nat) (length : Nat) (n : Node) :
    (FrameBuild cfg type dataRequest payload length n).gFrameScheduler.frame.payload
      = memcpy n.gFrameScheduler.frame.payload payload length := rfl

theorem FrameBuild_length (cfg : Config) (type : eFrameType) (dataRequest : Bool)
    (payload : List Nat) (length : Nat) (n : Node) :
    (FrameBuild cfg type dataRequest payload length n).gFrameScheduler.length = length := rfl

/-- C7: round trip.  After FrameBuild(eFrameTypeData, false, P, L) with
L at most PROTOCOL_FRAME_MAX_PAYLOAD_LENGTH, the first L + FRAME_OVERHEAD_LENGTH
bytes of the shared buffer, read through the frame layout, give the header
that was built, with type bits Data and data request bit 0, and the payload P;
the stored length is L and the buffer keeps its size. -/
theorem FrameBuild_roundtrip (cfg : Config) (P : List Nat) (L : Nat) (n : Node)
    (hwf : n.WellFormed cfg) (hP : P.length = L)
    (hL : L ≤ cfg.PROTOCOL_FRAME_MAX_PAYLOAD_LENGTH) :
    (sFrame.ofBytes cfg
        ((FrameBuild cfg eFrameType.eFrameTypeData false P L n).gFrameScheduler.frame.toBytes.take
          (L + FRAME_OVERHEAD_LENGTH cfg))).header
      = (FrameBuild cfg eFrameType.eFrameTypeData false P L n).gFrameScheduler.frame.header
    ∧ (sFrame.ofBytes cfg
        ((FrameBuild cfg eFrameType.eFrameTypeData false P L n).gFrameScheduler.frame.toBytes.take
          (L + FRAME_OVERHEAD_LENGTH cfg))).header.control &&& 0xC0
      = eFrameType.eFrameTypeData.toNat
    ∧ (sFrame.ofBytes cfg
        ((FrameBuild cfg eFrameType.eFrameTypeData false P L n).gFrameScheduler.frame.toBytes.take
          (L + FRAME_OVERHEAD_LENGTH cfg))).header.control &&& 0x02 = 0
    ∧ (sFrame.ofBytes cfg
        ((FrameBuild cfg eFrameType.eFrameTypeData false P L n).gFrameScheduler.frame.toBytes.take
          (L + FRAME_OVERHEAD_LENGTH cfg))).payload = P
    ∧ (FrameBuild cfg eFrameType.eFrameTypeData false P L n).gFrameScheduler.length = L
    ∧ (FrameBuild cfg eFrameType.eFrameTypeData false P L n).gFrameScheduler.frame.payload.length
      = cfg.PROTOCOL_FRAME_MAX_PAYLOAD_LENGTH := by
  have hwf2 := hwf
  obtain ⟨⟨hp, ha, hr⟩, ⟨fp, fd, fs, fq⟩⟩ := hwf2
  have hpan := FrameBuild_header_panId cfg eFrameType.eFrameTypeData false P L n hwf
  have hsrc := FrameBuild_header_srcAddr cfg eFrameType.eFrameTypeData false P L n hwf
  have hdst := FrameBuild_header_destAddr cfg eFrameType.eFrameTypeData false P L n hwf
  have hdl : (FrameBuild cfg eFrameType.eFrameTypeData false P L
      n).gFrameScheduler.frame.header.destAddr.length = cfg.PROTOCOL_PHYADDRESS_ADDRESS_SIZE := by
    rw [hdst]
    cases cfg.role
    · exact hr
    · exact fs
  have hparse := ofBytes_take_toBytes cfg
    (FrameBuild cfg eFrameType.eFrameTypeData false P L n).gFrameScheduler.frame L
    (by rw [hpan]; exact hp) hdl (by rw [hsrc]; exact ha)
  have hfields := FrameBuild_control_fields cfg eFrameType.eFrameTypeData false P L n
  have htake : (memcpy n.gFrameScheduler.frame.payload P L).take L = P := by
    subst hP
    simp [memcpy]
  have hlen : (memcpy n.gFrameScheduler.frame.payload P L).length
      = cfg.PROTOCOL_FRAME_MAX_PAYLOAD_LENGTH := by
    subst hP
    simp only [memcpy, List.take_length, List.length_append, List.length_drop]
    omega
  rw [hparse]
  refine ⟨rfl, hfields.1, ?_, ?_, rfl, ?_⟩
  · simpa using hfields.2.1
  · simpa [FrameBuild_payload] using htake
  · simpa [FrameBuild_payload] using hlen

/-- C8: FrameBuild stamps the addressing header from the registry: PAN id and
source are the local PAN id and address; the destination is, on an End Point,
the registry remote address (the broadcast address while no link exists) and,
on a Gateway, the source address the buffer held before the call.  The
registry itself is left as it was. -/
theorem FrameBuild_addressing (cfg : Config) (type : eFrameType) (dataRequest : Bool)
    (payload : List Nat) (length : Nat) (n : Node) (hwf : n.WellFormed cfg) :
    (FrameBuild cfg type dataRequest payload length n).gFrameScheduler.frame.header.panId
      = n.gPhyAddressInfo.local_.panId
    ∧ (FrameBuild cfg type dataRequest payload length n).gFrameScheduler.frame.header.srcAddr
      = n.gPhyAddressInfo.local_.address
    ∧ (cfg.role = Role.endPoint →
        (FrameBuild cfg type dataRequest payload length n).gFrameScheduler.frame.header.destAddr
          = n.gPhyAddressInfo.local_.remote
        ∧ (PhyAddressLinkExists cfg n = false →
            (FrameBuild cfg type dataRequest payload length n).gFrameScheduler.frame.header.destAddr
              = List.replicate cfg.PROTOCOL_PHYADDRESS_ADDRESS_SIZE PHY_ADDRESS_BROADCAST))
    ∧ (cfg.role = Role.gateway →
        (FrameBuild cfg type dataRequest payload length n).gFrameScheduler.frame.header.destAddr
          = n.gFrameScheduler.frame.header.srcAddr)
    ∧ (FrameBuild cfg type dataRequest payload length n).gPhyAddressInfo = n.gPhyAddressInfo := by
  have hdst := FrameBuild_header_destAddr cfg type dataRequest payload length n hwf
  refine ⟨FrameBuild_header_panId cfg type dataRequest payload length n hwf,
    FrameBuild_header_srcAddr cfg type dataRequest payload length n hwf, ?_, ?_, rfl⟩
  · intro hrole
    rw [hrole] at hdst
    refine ⟨hdst, ?_⟩
    intro hlink
    rw [hdst]
    have hb : PhyAddressIsBroadcast n.gPhyAddressInfo.local_.remote
        cfg.PROTOCOL_PHYADDRESS_ADDRESS_SIZE = true := by
      cases h : PhyAddressIsBroadcast n.gPhyAddressInfo.local_.remote
          cfg.PROTOCOL_PHYADDRESS_ADDRESS_SIZE
      · simp [PhyAddressLinkExists, PHY_ADDRESS_ADDRESS_SIZE, h] at hlink
      · rfl
    exact (PhyAddressIsBroadcast_iff _ _ hwf.1.2.2).mp hb
  · intro hrole
    rw [hrole] at hdst
    exact hdst

/-- Witness of C7: the payload 1, 2, 3 built by the sample End Point. -/
theorem FrameBuild_roundtrip_witness :
    (sampleEndPoint.WellFormed shippedEndPoint ∧ [1, 2, 3].length = 3
      ∧ 3 ≤ shippedEndPoint.PROTOCOL_FRAME_MAX_PAYLOAD_LENGTH)
    ∧ (sFrame.ofBytes shippedEndPoint
        ((FrameBuild shippedEndPoint eFrameType.eFrameTypeData false [1, 2, 3] 3
            sampleEndPoint).gFrameScheduler.frame.toBytes.take
          (3 + FRAME_OVERHEAD_LENGTH shippedEndPoint))).payload = [1, 2, 3] :=
  ⟨⟨by decide, by decide, by decide⟩,
    (FrameBuild_roundtrip shippedEndPoint [1, 2, 3] 3 sampleEndPoint
      (by decide) (by decide) (by decide)).2.2.2.1⟩

/-- Witness of C8: the sample Gateway answers the source of the Data frame it
holds. -/
theorem FrameBuild_addressing_witness :
    (sampleGateway.received sampleDataFrame 0x80).WellFormed shippedGateway
    ∧ (FrameBuild shippedGateway eFrameType.eFrameTypeData false [7] 1
        (sampleGateway.received sampleDataFrame 0x80)).gFrameScheduler.frame.header.destAddr
      = sampleDataFrame.header.srcAddr :=
  ⟨by decide,
    (FrameBuild_addressing shippedGateway eFrameType.eFrameTypeData false [7] 1
      (sampleGateway.received sampleDataFrame 0x80) (by decide)).2.2.2.1 rfl⟩

/-- C9 fails on the code.  Under the shipped configuration (payload field of 8
bytes, 64 byte FIFO) an idle End Point asked to send 9 bytes builds the frame
before any size check: 9 bytes are copied into the 8 byte payload field, the
only check made afterwards is 9 + 5 ≤ 64, and 14 bytes are handed to the
radio. -/
theorem FrameSend_copies_overlong_payload :
    shippedEndPoint.PROTOCOL_FRAME_MAX_PAYLOAD_LENGTH < 9
    ∧ sampleEndPoint.gFrameScheduler.frame.payload.length
        = shippedEndPoint.PROTOCOL_FRAME_MAX_PAYLOAD_LENGTH
    ∧ (FrameSend shippedEndPoint eFrameType.eFrameTypeData false [1, 2, 3, 4, 5, 6, 7, 8, 9] 9
        sampleEndPoint).1 = true
    ∧ (FrameSend shippedEndPoint eFrameType.eFrameTypeData false [1, 2, 3, 4, 5, 6, 7, 8, 9] 9
        sampleEndPoint).2.gFrameScheduler.frame.payload = [1, 2, 3, 4, 5, 6, 7, 8, 9]
    ∧ (FrameSend shippedEndPoint eFrameType.eFrameTypeData false [1, 2, 3, 4, 5, 6, 7, 8, 9] 9
        sampleEndPoint).2.trace
      = sampleEndPoint.trace
          ++ [Event.phyTransmit [0, 0, 2, 0, 0, 1, 2, 3, 4, 5, 6, 7, 8, 9] 14] := by
  decide

/-! ## Receive completion -/

theorem FrameListen_not_busy (cfg : Config) (n : Node) (h : n.gFrameScheduler.busy = false) :
    (FrameListen cfg n).2.gFrameScheduler.busy = true
    ∧ (FrameListen cfg n).2.trace = n.trace ++ [Event.phyReceiverOn]
    ∧ (FrameListen cfg n).2.gPhyAddressInfo = n.gPhyAddressInfo
    ∧ (FrameListen cfg n).2.seqNumber = n.seqNumber := by
  unfold FrameListen PhyReceiverOn
  by_cases ht : cfg.role = Role.endPoint ∧ cfg.PROTOCOL_USE_RX_TIMEOUT = true
  · cases hr : n.gPhyDevice.timerRunning <;>
      simp [h, ht, PhyTimerEnableRxTimeout, PhyTimerStart, Node.emit, hr]
  · simp [h, ht, Node.emit]

/-- The idle policy on a node whose busy flag is clear: an End Point puts the
radio in low power and stays not busy; a Gateway disables the radio and arms
the receiver again, which sets busy. -/
theorem FrameIdle_not_busy (cfg : Config) (n : Node) (h : n.gFrameScheduler.busy = false) :
    (FrameIdle cfg n).gPhyAddressInfo = n.gPhyAddressInfo
    ∧ (FrameIdle cfg n).seqNumber = n.seqNumber
    ∧ (cfg.role = Role.endPoint →
        (FrameIdle cfg n).gFrameScheduler.busy = false
        ∧ (FrameIdle cfg n).trace = n.trace ++ [Event.phyLowPowerMode])
    ∧ (cfg.role = Role.gateway →
        (FrameIdle cfg n).gFrameScheduler.busy = true
        ∧ (FrameIdle cfg n).trace = n.trace ++ [Event.phyDisable, Event.phyReceiverOn]) := by
  cases hrole : cfg.role
  · simp [FrameIdle, hrole, PhyLowPowerMode, Node.emit, h]
  · have hl := FrameListen_not_busy cfg (PhyDisable n) h
    simp only [FrameIdle, hrole]
    refine ⟨hl.2.2.1, hl.2.2.2, ?_, ?_⟩
    · intro hc
      cases hc
    · intro _
      refine ⟨hl.1, ?_⟩
      rw [hl.2.1]
      simp [PhyDisable, Node.emit]

/-- C10: silent rejection.  When the received length is below
FRAME_OVERHEAD_LENGTH, or the CRC bit of the status byte is clear, or the
validator of the role rejects the header, FrameAssemble returns 0, leaves the
registry and the sequence counter alone, and ends in the idle policy state
with nothing else done: on an End Point busy is false and the only effect is
the low power command; on a Gateway busy is true and the only effects are the
radio disable and the receiver being armed again.  No callback runs and no
frame is transmitted. -/
theorem FrameAssemble_rejects_silently (cfg : Config) (payload : List Nat) (length : Nat)
    (n : Node)
    (hrej : length < FRAME_OVERHEAD_LENGTH cfg
      ∨ n.gPhyDevice.footerStatus &&& PROTOCOL_DATASTREAM_FOOTER_CRC = 0
      ∨ (cfg.role = Role.endPoint
          ∧ FrameEndPointValidate cfg n.gFrameScheduler.frame.header.panId
              n.gFrameScheduler.frame.header.destAddr n = false)
      ∨ (cfg.role = Role.gateway
          ∧ FrameGatewayValidate cfg n.gFrameScheduler.frame.header.panId
              n.gFrameScheduler.frame.header.destAddr n = false)) :
    (FrameAssemble cfg payload length n).1 = 0
    ∧ (FrameAssemble cfg payload length n).2.gPhyAddressInfo = n.gPhyAddressInfo
    ∧ (FrameAssemble cfg payload length n).2.seqNumber = n.seqNumber
    ∧ (cfg.role = Role.endPoint →
        (FrameAssemble cfg payload length n).2.gFrameScheduler.busy = false
        ∧ (FrameAssemble cfg payload length n).2.trace = n.trace ++ [Event.phyLowPowerMode])
    ∧ (cfg.role = Role.gateway →
        (FrameAssemble cfg payload length n).2.gFrameScheduler.busy = true
        ∧ (FrameAssemble cfg payload length n).2.trace
          = n.trace ++ [Event.phyDisable, Event.phyReceiverOn]) := by
  have hidle : ∀ m : Node, m.gFrameScheduler.busy = false →
      m.gPhyAddressInfo = n.gPhyAddressInfo → m.seqNumber = n.seqNumber → m.trace = n.trace →
      (FrameIdle cfg m).gPhyAddressInfo = n.gPhyAddressInfo
      ∧ (FrameIdle cfg m).seqNumber = n.seqNumber
      ∧ (cfg.role = Role.endPoint →
          (FrameIdle cfg m).gFrameScheduler.busy = false
          ∧ (FrameIdle cfg m).trace = n.trace ++ [Event.phyLowPowerMode])
      ∧ (cfg.role = Role.gateway →
          (FrameIdle cfg m).gFrameScheduler.busy = true
          ∧ (FrameIdle cfg m).trace = n.trace ++ [Event.phyDisable, Event.phyReceiverOn]) := by
    intro m hb ha hs ht
    have h := FrameIdle_not_busy cfg m hb
    rw [ha, hs, ht] at h
    exact h
  by_cases hok : length ≥ FRAME_OVERHEAD_LENGTH cfg
      ∧ n.gPhyDevice.footerStatus &&& PROTOCOL_DATASTREAM_FOOTER_CRC ≠ 0
  · have hval : (cfg.role = Role.endPoint
          ∧ FrameEndPointValidate cfg n.gFrameScheduler.frame.header.panId
              n.gFrameScheduler.frame.header.destAddr n = false)
        ∨ (cfg.role = Role.gateway
          ∧ FrameGatewayValidate cfg n.gFrameScheduler.frame.header.panId
              n.gFrameScheduler.frame.header.destAddr n = false) := by
      rcases hrej with h | h | h
      · omega
      · exact absurd h hok.2
      · exact h
    rcases hval with ⟨hrole, hv⟩ | ⟨hrole, hv⟩
    · have hv2 : FrameEndPointValidate cfg n.gFrameScheduler.frame.header.panId
          n.gFrameScheduler.frame.header.destAddr
          { n with gFrameScheduler :=
              { n.gFrameScheduler with
                busy := false, length := (length - FRAME_OVERHEAD_LENGTH cfg) % 256 } } = false := hv
      have hres : FrameAssemble cfg payload length n
          = (0, FrameIdle cfg
              { n with gFrameScheduler :=
                  { n.gFrameScheduler with
                    busy := false, length := (length - FRAME_OVERHEAD_LENGTH cfg) % 256 } }) := by
        simp [FrameAssemble, hrole, hok, hv2]
      rw [hres]
      exact ⟨rfl, hidle _ rfl rfl rfl rfl⟩
    · have hv2 : FrameGatewayValidate cfg n.gFrameScheduler.frame.header.panId
          n.gFrameScheduler.frame.header.destAddr
          { n with gFrameScheduler :=
              { n.gFrameScheduler with
                busy := false, length := (length - FRAME_OVERHEAD_LENGTH cfg) % 256,
                dataResponse := { payload := [], length := 0 } } } = false := hv
      have hres : FrameAssemble cfg payload length n
          = (0, FrameIdle cfg
              { n with gFrameScheduler :=
                  { n.gFrameScheduler with
                    busy := false, length := (length - FRAME_OVERHEAD_LENGTH cfg) % 256,
                    dataResponse := { payload := [], length := 0 } } }) := by
        simp [FrameAssemble, hrole, hok, hv2, FrameSetDataResponse]
      rw [hres]
      exact ⟨rfl, hidle _ rfl rfl rfl rfl⟩
  · cases hrole : cfg.role
    · have hres : FrameAssemble cfg payload length n
          = (0, FrameIdle cfg
              { n with gFrameScheduler := { n.gFrameScheduler with busy := false, length := 0 } }) := by
        simp only [FrameAssemble, hrole]
        rw [if_neg hok]
      rw [hres]
      have h := hidle { n with gFrameScheduler :=
        { n.gFrameScheduler with busy := false, length := 0 } } rfl rfl rfl rfl
      rw [hrole] at h
      exact ⟨rfl, h⟩
    · have hres : FrameAssemble cfg payload length n
          = (0, FrameIdle cfg
              (FrameSetDataResponse [] 0
                { n with gFrameScheduler :=
                    { n.gFrameScheduler with busy := false, length := 0 } })) := by
        simp only [FrameAssemble, hrole, FrameSetDataResponse]
        rw [if_neg hok]
      rw [hres]
      have h := hidle (FrameSetDataResponse [] 0 { n with gFrameScheduler :=
        { n.gFrameScheduler with busy := false, length := 0 } }) rfl rfl rfl rfl
      rw [hrole] at h
      exact ⟨rfl, h⟩

/-- Witness of C10: the sample End Point holding a Data frame sent by another
End Point (mode bit 0). -/
theorem FrameAssemble_rejects_silently_witness :
    (shippedEndPoint.role = Role.endPoint
      ∧ FrameEndPointValidate shippedEndPoint
          (sampleEndPoint.received sampleDataFrame 0x80).gFrameScheduler.frame.header.panId
          (sampleEndPoint.received sampleDataFrame 0x80).gFrameScheduler.frame.header.destAddr
          (sampleEndPoint.received sampleDataFrame 0x80) = false)
    ∧ (FrameAssemble shippedEndPoint [] 7 (sampleEndPoint.received sampleDataFrame 0x80)).1 = 0
    ∧ (FrameAssemble shippedEndPoint [] 7
        (sampleEndPoint.received sampleDataFrame 0x80)).2.gFrameScheduler.busy = false
    ∧ (FrameAssemble shippedEndPoint [] 7 (sampleEndPoint.received sampleDataFrame 0x80)).2.trace
      = (sampleEndPoint.received sampleDataFrame 0x80).trace ++ [Event.phyLowPowerMode] :=
  ⟨⟨by decide, by decide⟩,
    (FrameAssemble_rejects_silently shippedEndPoint [] 7
      (sampleEndPoint.received sampleDataFrame 0x80)
      (Or.inr (Or.inr (Or.inl ⟨by decide, by decide⟩)))).1,
    ((FrameAssemble_rejects_silently shippedEndPoint [] 7
      (sampleEndPoint.received sampleDataFrame 0x80)
      (Or.inr (Or.inr (Or.inl ⟨by decide, by decide⟩)))).2.2.2.1 rfl).1,
    ((FrameAssemble_rejects_silently shippedEndPoint [] 7
      (sampleEndPoint.received sampleDataFrame 0x80)
      (Or.inr (Or.inr (Or.inl ⟨by decide, by decide⟩)))).2.2.2.1 rfl).2⟩

/-! ## The sequence counter -/

theorem sendAll_busy (cfg : Config) (calls : List SendCall) (n : Node)
    (hbusy : n.gFrameScheduler.busy = true) : sendAll cfg calls n = n := by
  induction calls with
  | nil => rfl
  | cons c cs ih =>
    have h : (c.run cfg n).2 = n := by
      simp [SendCall.run, FrameSend, hbusy]
    simp only [sendAll, List.foldl_cons] at ih ⊢
    rw [h]
    exact ih

theorem PhyAddressIsBroadcast_replicate (k : Nat) :
    PhyAddressIsBroadcast (List.replicate k PHY_ADDRESS_BROADCAST) k = true :=
  (PhyAddressIsBroadcast_iff _ k (List.length_replicate k PHY_ADDRESS_BROADCAST)).mpr rfl

theorem PhyAddressToBroadcast_exact (addr : List Nat) (size : Nat) (h : addr.length = size) :
    PhyAddressToBroadcast addr size = List.replicate size PHY_ADDRESS_BROADCAST := by
  unfold PhyAddressToBroadcast
  rw [List.drop_of_length_le (by omega)]
  simp

theorem PhyAddressToBroadcast_twice (addr : List Nat) (size : Nat) :
    PhyAddressToBroadcast (PhyAddressToBroadcast addr size) size
      = PhyAddressToBroadcast addr size := by
  unfold PhyAddressToBroadcast
  have h : (List.replicate size PHY_ADDRESS_BROADCAST ++ List.drop size addr).drop size
      = List.drop size addr := by
    have hl : (List.replicate size PHY_ADDRESS_BROADCAST).length = size :=
      List.length_replicate size PHY_ADDRESS_BROADCAST
    conv => lhs; arg 1; rw [← hl]
    exact List.drop_left _ _
  rw [h]

theorem PhyAddressLinkExists_eq_false_iff (cfg : Config) (n : Node)
    (h : n.gPhyAddressInfo.local_.remote.length = cfg.PROTOCOL_PHYADDRESS_ADDRESS_SIZE) :
    PhyAddressLinkExists cfg n = false ↔
      n.gPhyAddressInfo.local_.remote
        = List.replicate cfg.PROTOCOL_PHYADDRESS_ADDRESS_SIZE PHY_ADDRESS_BROADCAST := by
  rw [← PhyAddressIsBroadcast_iff _ _ h]
  unfold PhyAddressLinkExists PHY_ADDRESS_ADDRESS_SIZE
  by_cases hb : PhyAddressIsBroadcast n.gPhyAddressInfo.local_.remote
      cfg.PROTOCOL_PHYADDRESS_ADDRESS_SIZE = true
  · simp [hb]
  · simp [hb]

theorem PhyAddressInit_local (cfg : Config) (panId address : List Nat) (Backup : Bool) (n : Node)
    (hrole : cfg.role = Role.endPoint) :
    (PhyAddressInit cfg panId address Backup n).gPhyAddressInfo.local_
      = { fixed := !PhyAddressIsBroadcast panId cfg.PROTOCOL_PHYADDRESS_PANID_SIZE
          panId := PhyAddressCopy n.gPhyAddressInfo.local_.panId panId
            cfg.PROTOCOL_PHYADDRESS_PANID_SIZE
          address := PhyAddressCopy n.gPhyAddressInfo.local_.address address
            cfg.PROTOCOL_PHYADDRESS_ADDRESS_SIZE
          remote := n.gPhyAddressInfo.local_.remote } := by
  unfold PhyAddressInit
  simp only [hrole, PHY_ADDRESS_PANID_SIZE, PHY_ADDRESS_ADDRESS_SIZE]
  split <;> rfl

/-- C18 as stated fails: PhyAddressInit on the End Point that is linked to the
Gateway at address 9 leaves that remote address in place, and
PhyAddressLinkExists right after it returns true. -/
theorem PhyAddressInit_keeps_link_counterexample :
    linkedEndPoint.gPhyAddressInfo.local_.remote = [9]
    ∧ (PhyAddressInit shippedEndPoint [1] [2] false
        linkedEndPoint).gPhyAddressInfo.local_.remote = [9]
    ∧ PhyAddressLinkExists shippedEndPoint
        (PhyAddressInit shippedEndPoint [1] [2] false linkedEndPoint) = true := by
  decide

/-- C18, as the code has it: on an End Point PhyAddressInit stores panId and
localAddress as given, sets fixed exactly when panId is not the broadcast
value, and does not touch the remote address: PhyAddressLinkExists right after
it returns what it returned before, false exactly when the remote address held
before the call is the broadcast value, as it is in the zeroed registry of
startup. -/
theorem PhyAddressInit_endPoint (cfg : Config) (panId address : List Nat) (Backup : Bool)
    (n : Node) (hrole : cfg.role = Role.endPoint)
    (hp : panId.length = cfg.PROTOCOL_PHYADDRESS_PANID_SIZE)
    (ha : address.length = cfg.PROTOCOL_PHYADDRESS_ADDRESS_SIZE)
    (hwf : n.gPhyAddressInfo.local_.WellFormed cfg) :
    (PhyAddressInit cfg panId address Backup n).gPhyAddressInfo.local_.panId = panId
    ∧ (PhyAddressInit cfg panId address Backup n).gPhyAddressInfo.local_.address = address
    ∧ ((PhyAddressInit cfg panId address Backup n).gPhyAddressInfo.local_.fixed = true ↔
        panId ≠ List.replicate cfg.PROTOCOL_PHYADDRESS_PANID_SIZE PHY_ADDRESS_BROADCAST)
    ∧ (PhyAddressInit cfg panId address Backup n).gPhyAddressInfo.local_.remote
        = n.gPhyAddressInfo.local_.remote
    ∧ PhyAddressLinkExists cfg (PhyAddressInit cfg panId address Backup n)
        = PhyAddressLinkExists cfg n
    ∧ (PhyAddressLinkExists cfg (PhyAddressInit cfg panId address Backup n) = false ↔
        n.gPhyAddressInfo.local_.remote
          = List.replicate cfg.PROTOCOL_PHYADDRESS_ADDRESS_SIZE PHY_ADDRESS_BROADCAST)
    ∧ PhyAddressLinkExists cfg (PhyAddressInit cfg panId address Backup (Node.zero cfg))
        = false := by
  obtain ⟨wp, wa, wr⟩ := hwf
  have hl := PhyAddressInit_local cfg panId address Backup n hrole
  have hz := PhyAddressInit_local cfg panId address Backup (Node.zero cfg) hrole
  have hlink : PhyAddressLinkExists cfg (PhyAddressInit cfg panId address Backup n)
      = PhyAddressLinkExists cfg n := by
    unfold PhyAddressLinkExists
    rw [hl]
  refine ⟨?_, ?_, ?_, ?_, hlink, ?_, ?_⟩
  · rw [hl]
    exact memcpy_exact _ _ _ wp hp
  · rw [hl]
    exact memcpy_exact _ _ _ wa ha
  · rw [hl]
    have hb := PhyAddressIsBroadcast_iff panId _ hp
    cases hv : PhyAddressIsBroadcast panId cfg.PROTOCOL_PHYADDRESS_PANID_SIZE
    · have hne : panId
          ≠ List.replicate cfg.PROTOCOL_PHYADDRESS_PANID_SIZE PHY_ADDRESS_BROADCAST := by
        intro he
        rw [hb.mpr he] at hv
        cases hv
      simp [hne]
    · simp [hb.mp hv]
  · rw [hl]
  · rw [hlink]
    exact PhyAddressLinkExists_eq_false_iff cfg n wr
  · unfold PhyAddressLinkExists PHY_ADDRESS_ADDRESS_SIZE
    rw [hz]
    have hb := PhyAddressIsBroadcast_replicate cfg.PROTOCOL_PHYADDRESS_ADDRESS_SIZE
    simp [Node.zero, PHY_ADDRESS_BROADCAST] at hb ⊢
    exact hb

/-- Witness of C18: PhyAddressInit with PAN id 1 and address 2 on the zeroed
End Point registry. -/
theorem PhyAddressInit_endPoint_witness :
    (shippedEndPoint.role = Role.endPoint
      ∧ [1].length = shippedEndPoint.PROTOCOL_PHYADDRESS_PANID_SIZE
      ∧ [2].length = shippedEndPoint.PROTOCOL_PHYADDRESS_ADDRESS_SIZE
      ∧ (Node.zero shippedEndPoint).gPhyAddressInfo.local_.WellFormed shippedEndPoint)
    ∧ (PhyAddressInit shippedEndPoint [1] [2] false
        (Node.zero shippedEndPoint)).gPhyAddressInfo.local_.panId = [1]
    ∧ PhyAddressLinkExists shippedEndPoint
        (PhyAddressInit shippedEndPoint [1] [2] false (Node.zero shippedEndPoint))
      = PhyAddressLinkExists shippedEndPoint (Node.zero shippedEndPoint) :=
  ⟨⟨by decide, by decide, by decide, by decide⟩,
    (PhyAddressInit_endPoint shippedEndPoint [1] [2] false (Node.zero shippedEndPoint)
      (by decide) (by decide) (by decide) (by decide)).1,
    (PhyAddressInit_endPoint shippedEndPoint [1] [2] false (Node.zero shippedEndPoint)
      (by decide) (by decide) (by decide) (by decide)).2.2.2.2.1⟩

theorem PhyAddressBackupWrite_keeps (cfg : Config) (n : Node) :
    (PhyAddressBackupWrite cfg n).gPhyAddressInfo = n.gPhyAddressInfo
    ∧ (PhyAddressBackupWrite cfg n).gFrameScheduler = n.gFrameScheduler
    ∧ (PhyAddressBackupWrite cfg n).seqNumber = n.seqNumber
    ∧ (PhyAddressBackupWrite cfg n).gPhyDevice = n.gPhyDevice := by
  unfold PhyAddressBackupWrite
  split <;> exact ⟨rfl, rfl, rfl, rfl⟩

/-- The registry record PhyAddressLinkEstablish leaves on an End Point. -/
theorem PhyAddressLinkEstablish_local (cfg : Config) (panId remote : List Nat) (n : Node)
    (hrole : cfg.role = Role.endPoint) :
    (PhyAddressLinkEstablish cfg panId remote n).gPhyAddressInfo.local_
      = { fixed := n.gPhyAddressInfo.local_.fixed
          panId :=
            if n.gPhyAddressInfo.local_.fixed then n.gPhyAddressInfo.local_.panId
            else PhyAddressCopy n.gPhyAddressInfo.local_.panId panId
              cfg.PROTOCOL_PHYADDRESS_PANID_SIZE
          address := n.gPhyAddressInfo.local_.address
          remote := PhyAddressCopy n.gPhyAddressInfo.local_.remote remote
            cfg.PROTOCOL_PHYADDRESS_ADDRESS_SIZE } := by
  unfold PhyAddressLinkEstablish
  simp only [hrole, (PhyAddressBackupWrite_keeps cfg _).1, PHY_ADDRESS_PANID_SIZE,
    PHY_ADDRESS_ADDRESS_SIZE]
  cases hf : n.gPhyAddressInfo.local_.fixed <;> simp [PhyEnableAddressFilter, Node.emit, hf]

/-- PhyAddressLinkEstablish touches neither the scheduler, nor the sequence
counter, nor the physical device record. -/
theorem PhyAddressLinkEstablish_keeps (cfg : Config) (panId remote : List Nat) (n : Node) :
    (PhyAddressLinkEstablish cfg panId remote n).gFrameScheduler = n.gFrameScheduler
    ∧ (PhyAddressLinkEstablish cfg panId remote n).seqNumber = n.seqNumber
    ∧ (PhyAddressLinkEstablish cfg panId remote n).gPhyDevice = n.gPhyDevice := by
  unfold PhyAddressLinkEstablish
  cases cfg.role
  · simp only [(PhyAddressBackupWrite_keeps cfg _).2.1, (PhyAddressBackupWrite_keeps cfg _).2.2.1,
      (PhyAddressBackupWrite_keeps cfg _).2.2.2]
    cases n.gPhyAddressInfo.local_.fixed <;> exact ⟨rfl, rfl, rfl⟩
  · exact ⟨rfl, rfl, rfl⟩

/-- C19 as stated fails for the broadcast remote address: after
PhyAddressLinkEstablish(p, r) with r all broadcast bytes the remote address is
r and PhyAddressLinkExists returns false. -/
theorem PhyAddressLinkEstablish_broadcast_counterexample :
    (PhyAddressLinkEstablish shippedEndPoint [7] [PHY_ADDRESS_BROADCAST]
        sampleEndPoint).gPhyAddressInfo.local_.remote = [PHY_ADDRESS_BROADCAST]
    ∧ PhyAddressLinkExists shippedEndPoint
        (PhyAddressLinkEstablish shippedEndPoint [7] [PHY_ADDRESS_BROADCAST] sampleEndPoint)
      = false := by
  decide

/-- C19, as the code has it: on an End Point, for every PAN id p and every
remote address r, after PhyAddressLinkEstablish(p, r) the remote address of the
registry equals r, and PhyAddressLinkExists returns true exactly when r is not
the broadcast address. -/
theorem PhyAddressLinkEstablish_link (cfg : Config) (p r : List Nat) (n : Node)
    (hrole : cfg.role = Role.endPoint)
    (hr : r.length = cfg.PROTOCOL_PHYADDRESS_ADDRESS_SIZE)
    (hwf : n.gPhyAddressInfo.local_.WellFormed cfg) :
    (PhyAddressLinkEstablish cfg p r n).gPhyAddressInfo.local_.remote = r
    ∧ (PhyAddressLinkExists cfg (PhyAddressLinkEstablish cfg p r n) = true ↔
        r ≠ List.replicate cfg.PROTOCOL_PHYADDRESS_ADDRESS_SIZE PHY_ADDRESS_BROADCAST) := by
  obtain ⟨_, _, wr⟩ := hwf
  have hl := PhyAddressLinkEstablish_local cfg p r n hrole
  have hrem : (PhyAddressLinkEstablish cfg p r n).gPhyAddressInfo.local_.remote = r := by
    rw [hl]
    exact memcpy_exact _ _ _ wr hr
  refine ⟨hrem, ?_⟩
  have hf := PhyAddressLinkExists_eq_false_iff cfg (PhyAddressLinkEstablish cfg p r n)
    (by rw [hrem]; exact hr)
  rw [hrem] at hf
  cases hv : PhyAddressLinkExists cfg (PhyAddressLinkEstablish cfg p r n)
  · simp [hf.mp hv]
  · have hne : r ≠ List.replicate cfg.PROTOCOL_PHYADDRESS_ADDRESS_SIZE PHY_ADDRESS_BROADCAST := by
      intro he
      rw [hf.mpr he] at hv
      cases hv
    simp [hne]

/-- Witness of C19: the sample End Point linked to address 9 in PAN 7. -/
theorem PhyAddressLinkEstablish_link_witness :
    (shippedEndPoint.role = Role.endPoint
      ∧ [9].length = shippedEndPoint.PROTOCOL_PHYADDRESS_ADDRESS_SIZE
      ∧ sampleEndPoint.gPhyAddressInfo.local_.WellFormed shippedEndPoint)
    ∧ (PhyAddressLinkEstablish shippedEndPoint [7] [9]
        sampleEndPoint).gPhyAddressInfo.local_.remote = [9]
    ∧ PhyAddressLinkExists shippedEndPoint
        (PhyAddressLinkEstablish shippedEndPoint [7] [9] sampleEndPoint) = true :=
  ⟨⟨by decide, by decide, by decide⟩,
    (PhyAddressLinkEstablish_link shippedEndPoint [7] [9] sampleEndPoint
      (by decide) (by decide) (by decide)).1,
    (PhyAddressLinkEstablish_link shippedEndPoint [7] [9] sampleEndPoint
      (by decide) (by decide) (by decide)).2.mpr (by decide)⟩

/-- The registry record PhyAddressLinkDestroy leaves on an End Point. -/
theorem PhyAddressLinkDestroy_local (cfg : Config) (n : Node)
    (hrole : cfg.role = Role.endPoint) :
    (PhyAddressLinkDestroy cfg n).gPhyAddressInfo
      = { local_ :=
            { fixed := n.gPhyAddressInfo.local_.fixed
              panId :=
                if n.gPhyAddressInfo.local_.fixed then n.gPhyAddressInfo.local_.panId
                else PhyAddressToBroadcast n.gPhyAddressInfo.local_.panId
                  cfg.PROTOCOL_PHYADDRESS_PANID_SIZE
              address := n.gPhyAddressInfo.local_.address
              remote := PhyAddressToBroadcast n.gPhyAddressInfo.local_.remote
                cfg.PROTOCOL_PHYADDRESS_ADDRESS_SIZE }
          Backup := n.gPhyAddressInfo.Backup } := by
  unfold PhyAddressLinkDestroy
  simp only [hrole, (PhyAddressBackupWrite_keeps cfg _).1, PHY_ADDRESS_PANID_SIZE,
    PHY_ADDRESS_ADDRESS_SIZE]
  cases hf : n.gPhyAddressInfo.local_.fixed <;> simp [PhyDisableAddressFilter, Node.emit, hf]

/-- C20: on an End Point, from every registry state PhyAddressLinkDestroy
leaves no link: the remote address is all broadcast bytes, the PAN id is all
broadcast bytes when fixed is false and unchanged when it is true, fixed and
the local address are unchanged; a second PhyAddressLinkDestroy leaves the
registry exactly as the first one did. -/
theorem PhyAddressLinkDestroy_resets (cfg : Config) (n : Node)
    (hrole : cfg.role = Role.endPoint)
    (hwf : n.gPhyAddressInfo.local_.WellFormed cfg) :
    PhyAddressLinkExists cfg (PhyAddressLinkDestroy cfg n) = false
    ∧ (PhyAddressLinkDestroy cfg n).gPhyAddressInfo.local_.remote
        = List.replicate cfg.PROTOCOL_PHYADDRESS_ADDRESS_SIZE PHY_ADDRESS_BROADCAST
    ∧ (n.gPhyAddressInfo.local_.fixed = false →
        (PhyAddressLinkDestroy cfg n).gPhyAddressInfo.local_.panId
          = List.replicate cfg.PROTOCOL_PHYADDRESS_PANID_SIZE PHY_ADDRESS_BROADCAST)
    ∧ (n.gPhyAddressInfo.local_.fixed = true →
        (PhyAddressLinkDestroy cfg n).gPhyAddressInfo.local_.panId
          = n.gPhyAddressInfo.local_.panId)
    ∧ (PhyAddressLinkDestroy cfg n).gPhyAddressInfo.local_.fixed
        = n.gPhyAddressInfo.local_.fixed
    ∧ (PhyAddressLinkDestroy cfg n).gPhyAddressInfo.local_.address
        = n.gPhyAddressInfo.local_.address
    ∧ (PhyAddressLinkDestroy cfg (PhyAddressLinkDestroy cfg n)).gPhyAddressInfo
        = (PhyAddressLinkDestroy cfg n).gPhyAddressInfo := by
  obtain ⟨wp, _, wr⟩ := hwf
  have hl := PhyAddressLinkDestroy_local cfg n hrole
  have hl2 := PhyAddressLinkDestroy_local cfg (PhyAddressLinkDestroy cfg n) hrole
  have hrem : (PhyAddressLinkDestroy cfg n).gPhyAddressInfo.local_.remote
      = List.replicate cfg.PROTOCOL_PHYADDRESS_ADDRESS_SIZE PHY_ADDRESS_BROADCAST := by
    rw [hl]
    exact PhyAddressToBroadcast_exact _ _ wr
  refine ⟨?_, hrem, ?_, ?_, ?_, ?_, ?_⟩
  · exact (PhyAddressLinkExists_eq_false_iff cfg _
      (by rw [hrem]; exact List.length_replicate _ _)).mpr hrem
  · intro hf
    rw [hl]
    simp only [hf]
    exact PhyAddressToBroadcast_exact _ _ wp
  · intro hf
    rw [hl]
    simp [hf]
  · rw [hl]
  · rw [hl]
  · rw [hl2, hl]
    cases hf : n.gPhyAddressInfo.local_.fixed <;> simp [hf, PhyAddressToBroadcast_twice]

/-- Witness of C20: PhyAddressLinkDestroy on the linked sample End Point. -/
theorem PhyAddressLinkDestroy_resets_witness :
    (shippedEndPoint.role = Role.endPoint
      ∧ linkedEndPoint.gPhyAddressInfo.local_.WellFormed shippedEndPoint)
    ∧ PhyAddressLinkExists shippedEndPoint linkedEndPoint = true
    ∧ PhyAddressLinkExists shippedEndPoint
        (PhyAddressLinkDestroy shippedEndPoint linkedEndPoint) = false :=
  ⟨⟨by decide, by decide⟩, by decide,
    (PhyAddressLinkDestroy_resets shippedEndPoint linkedEndPoint (by decide) (by decide)).1⟩

/-! ## Transmit completion -/

theorem PhyReceiverOn_keeps (cfg : Config) (n : Node) :
    (PhyReceiverOn cfg n).gFrameScheduler = n.gFrameScheduler
    ∧ (PhyReceiverOn cfg n).gPhyAddressInfo = n.gPhyAddressInfo
    ∧ (PhyReceiverOn cfg n).seqNumber = n.seqNumber
    ∧ (PhyReceiverOn cfg n).trace = n.trace ++ [Event.phyReceiverOn]
    ∧ (PhyReceiverOn cfg n).gPhyDevice.transmitting = n.gPhyDevice.transmitting := by
  unfold PhyReceiverOn
  by_cases ht : cfg.role = Role.endPoint ∧ cfg.PROTOCOL_USE_RX_TIMEOUT = true
  · cases hr : n.gPhyDevice.timerRunning <;>
      simp [ht, PhyTimerEnableRxTimeout, PhyTimerStart, Node.emit, hr]
  · simp [ht, Node.emit]

/-- FrameListen on a node that is not busy: busy is set, the receiver is armed
and nothing else of the scheduler changes. -/
theorem FrameListen_arms (cfg : Config) (n : Node) (h : n.gFrameScheduler.busy = false) :
    (FrameListen cfg n).1 = true
    ∧ (FrameListen cfg n).2.gFrameScheduler = { n.gFrameScheduler with busy := true }
    ∧ (FrameListen cfg n).2.gPhyAddressInfo = n.gPhyAddressInfo
    ∧ (FrameListen cfg n).2.seqNumber = n.seqNumber
    ∧ (FrameListen cfg n).2.trace = n.trace ++ [Event.phyReceiverOn]
    ∧ (FrameListen cfg n).2.gPhyDevice.transmitting = n.gPhyDevice.transmitting := by
  have hk := PhyReceiverOn_keeps cfg
    { n with gFrameScheduler := { n.gFrameScheduler with busy := true } }
  unfold FrameListen
  simp only [h, Bool.not_false, if_true]
  exact ⟨trivial, hk.1, hk.2.1, hk.2.2.1, hk.2.2.2.1, hk.2.2.2.2⟩

/-- The idle policy on a node that is not busy. -/
theorem FrameIdle_idle (cfg : Config) (n : Node) (h : n.gFrameScheduler.busy = false) :
    (FrameIdle cfg n).gFrameScheduler = { n.gFrameScheduler with busy := idleBusy cfg.role }
    ∧ (FrameIdle cfg n).gPhyAddressInfo = n.gPhyAddressInfo
    ∧ (FrameIdle cfg n).seqNumber = n.seqNumber
    ∧ (FrameIdle cfg n).trace = n.trace ++ idleEvents cfg.role
    ∧ (FrameIdle cfg n).gPhyDevice.transmitting = n.gPhyDevice.transmitting := by
  unfold FrameIdle
  cases hrole : cfg.role
  · have hs : n.gFrameScheduler = { n.gFrameScheduler with busy := false } := by
      rw [← h]
    exact ⟨hs, rfl, rfl, rfl, rfl⟩
  · have hl := FrameListen_arms cfg (PhyDisable n) h
    refine ⟨hl.2.1, hl.2.2.1, hl.2.2.2.1, ?_, hl.2.2.2.2.2⟩
    rw [hl.2.2.2.2.1]
    simp [PhyDisable, Node.emit, idleEvents]

theorem applyLoad_keeps (cfg : Config) (r : CallbackResult) (n : Node) :
    (applyLoad cfg r n).gFrameScheduler.busy = n.gFrameScheduler.busy
    ∧ (applyLoad cfg r n).gFrameScheduler.length = n.gFrameScheduler.length
    ∧ (applyLoad cfg r n).gFrameScheduler.frame = n.gFrameScheduler.frame
    ∧ (applyLoad cfg r n).gPhyAddressInfo = n.gPhyAddressInfo
    ∧ (applyLoad cfg r n).trace = n.trace
    ∧ (applyLoad cfg r n).gPhyDevice = n.gPhyDevice := by
  unfold applyLoad
  split <;> exact ⟨rfl, rfl, rfl, rfl, rfl, rfl⟩

/-- C11: transmit completion.  When the data request bit of the control byte
in the buffer is set, FrameDisassemble arms the receiver again (busy true, one
receiver-on command) and calls no callback.  Otherwise the stored length is
reset to 0, the completion callback, when registered, is called once with a
null payload and length 0 and its status is returned, and the idle policy
follows: not busy and low power on an End Point, listening again on a
Gateway. -/
theorem FrameDisassemble_completion (cfg : Config) (n : Node) :
    (n.gFrameScheduler.frame.header.control &&& FRAME_CONTROL_DATA_REQ ≠ 0 →
      (FrameDisassemble cfg n).1 = 0
      ∧ (FrameDisassemble cfg n).2.gFrameScheduler.busy = true
      ∧ (FrameDisassemble cfg n).2.trace = n.trace ++ [Event.phyReceiverOn])
    ∧ (n.gFrameScheduler.frame.header.control &&& FRAME_CONTROL_DATA_REQ = 0 →
      (FrameDisassemble cfg n).2.gFrameScheduler.length = 0
      ∧ (FrameDisassemble cfg n).2.gFrameScheduler.busy = idleBusy cfg.role
      ∧ (∀ cb, n.gFrameScheduler.FrameComplete = some cb →
          (FrameDisassemble cfg n).1 = (cb (sentDataRequest cfg.role) none 0).statusMessage
          ∧ (FrameDisassemble cfg n).2.trace
            = n.trace ++ [Event.frameComplete (sentDataRequest cfg.role) none 0]
                ++ idleEvents cfg.role)
      ∧ (n.gFrameScheduler.FrameComplete = none →
          (FrameDisassemble cfg n).1 = 0
          ∧ (FrameDisassemble cfg n).2.trace = n.trace ++ idleEvents cfg.role)) := by
  constructor
  · intro hreq
    have hl := FrameListen_arms cfg
      { n with gFrameScheduler := { n.gFrameScheduler with busy := false } } rfl
    have hres : FrameDisassemble cfg n
        = (0, (FrameListen cfg
            { n with gFrameScheduler := { n.gFrameScheduler with busy := false } }).2) := by
      unfold FrameDisassemble
      simp only
      rw [if_pos hreq]
    rw [hres]
    refine ⟨rfl, ?_, hl.2.2.2.2.1⟩
    show (FrameListen cfg _).2.gFrameScheduler.busy = true
    rw [hl.2.1]
  · intro hreq
    have hn : ¬ (n.gFrameScheduler.frame.header.control &&& FRAME_CONTROL_DATA_REQ ≠ 0) := by
      simp [hreq]
    cases hcb : n.gFrameScheduler.FrameComplete with
    | none =>
      have hres : FrameDisassemble cfg n
          = (0, FrameIdle cfg
              { n with gFrameScheduler :=
                  { n.gFrameScheduler with busy := false, length := 0 } }) := by
        unfold FrameDisassemble
        simp only
        rw [if_neg hn]
        simp only [hcb]
      have hi := FrameIdle_idle cfg
        { n with gFrameScheduler := { n.gFrameScheduler with busy := false, length := 0 } } rfl
      rw [hres]
      refine ⟨?_, ?_, ?_, ?_⟩
      · show (FrameIdle cfg _).gFrameScheduler.length = 0
        rw [hi.1]
      · show (FrameIdle cfg _).gFrameScheduler.busy = idleBusy cfg.role
        rw [hi.1]
      · intro cb hc
        cases hc
      · intro _
        exact ⟨rfl, hi.2.2.2.1⟩
    | some cb0 =>
      have hsd : (match cfg.role with
          | Role.endPoint => (none : Option Bool)
          | Role.gateway => some false) = sentDataRequest cfg.role := by
        cases cfg.role <;> rfl
      have hres : FrameDisassemble cfg n
          = ((cb0 (sentDataRequest cfg.role) none 0).statusMessage,
              FrameIdle cfg (applyLoad cfg (cb0 (sentDataRequest cfg.role) none 0)
                (Node.emit
                  { n with gFrameScheduler :=
                      { n.gFrameScheduler with busy := false, length := 0 } }
                  (Event.frameComplete (sentDataRequest cfg.role) none 0)))) := by
        unfold FrameDisassemble
        simp only
        rw [if_neg hn]
        simp only [hcb, hsd]
      have ha := applyLoad_keeps cfg (cb0 (sentDataRequest cfg.role) none 0)
        (Node.emit
          { n with gFrameScheduler := { n.gFrameScheduler with busy := false, length := 0 } }
          (Event.frameComplete (sentDataRequest cfg.role) none 0))
      have hi := FrameIdle_idle cfg _ (ha.1.trans rfl)
      rw [hres]
      refine ⟨?_, ?_, ?_, ?_⟩
      · show (FrameIdle cfg _).gFrameScheduler.length = 0
        rw [hi.1]
        exact ha.2.1
      · show (FrameIdle cfg _).gFrameScheduler.busy = idleBusy cfg.role
        rw [hi.1]
      · intro cb hc
        cases hc
        refine ⟨rfl, ?_⟩
        show (FrameIdle cfg _).trace = _
        rw [hi.2.2.2.1, ha.2.2.2.2.1]
        rfl
      · intro hc
        cases hc

/-- Witness of C11: the staging Gateway completes the transmission of a frame
whose data request bit is clear. -/
theorem FrameDisassemble_completion_witness :
    ((stagingGateway.received sampleDataFrame 0x80).gFrameScheduler.frame.header.control
        &&& FRAME_CONTROL_DATA_REQ = 0
      ∧ (stagingGateway.received sampleDataFrame 0x80).gFrameScheduler.FrameComplete
        = some stagingCallback)
    ∧ (FrameDisassemble shippedGateway (stagingGateway.received sampleDataFrame 0x80)).2.trace
      = (stagingGateway.received sampleDataFrame 0x80).trace
          ++ [Event.frameComplete (some false) none 0] ++ [Event.phyDisable, Event.phyReceiverOn] :=
  ⟨⟨by decide, rfl⟩,
    (((FrameDisassemble_completion shippedGateway
      (stagingGateway.received sampleDataFrame 0x80)).2 (by decide)).2.2.1
        stagingCallback rfl).2⟩

/-! ## Dispatch of accepted frames -/

theorem FrameValidate_atDispatch (cfg : Config) (length : Nat) (n : Node) :
    FrameValidate cfg (atDispatch cfg length n) = FrameValidate cfg n := by
  unfold FrameValidate atDispatch
  cases cfg.role <;> rfl

/-- FrameAssemble on a frame of sufficient length, with the CRC bit set, that
the validator accepts: the frame is dispatched on its type bits from the node
atDispatch, and the idle policy follows unless the dispatch left the scheduler
busy. -/
theorem FrameAssemble_accepted (cfg : Config) (payload : List Nat) (length : Nat) (n : Node)
    (hlen : FRAME_OVERHEAD_LENGTH cfg ≤ length)
    (hcrc : n.gPhyDevice.footerStatus &&& PROTOCOL_DATASTREAM_FOOTER_CRC ≠ 0)
    (hvalid : FrameValidate cfg n = true) :
    FrameAssemble cfg payload length n
      = (if !(if (n.gFrameScheduler.frame.header.control &&& FRAME_CONTROL_TYPE)
                = eFrameType.eFrameTypeData.toNat then
              FrameSchedulerData cfg (atDispatch cfg length n)
            else if (n.gFrameScheduler.frame.header.control &&& FRAME_CONTROL_TYPE)
                = eFrameType.eFrameTypeLinkRequest.toNat then
              FrameSchedulerLinkRequest cfg (atDispatch cfg length n)
            else (0, atDispatch cfg length n)).2.gFrameScheduler.busy then
          ((if (n.gFrameScheduler.frame.header.control &&& FRAME_CONTROL_TYPE)
                = eFrameType.eFrameTypeData.toNat then
              FrameSchedulerData cfg (atDispatch cfg length n)
            else if (n.gFrameScheduler.frame.header.control &&& FRAME_CONTROL_TYPE)
                = eFrameType.eFrameTypeLinkRequest.toNat then
              FrameSchedulerLinkRequest cfg (atDispatch cfg length n)
            else (0, atDispatch cfg length n)).1,
            FrameIdle cfg
              (if (n.gFrameScheduler.frame.header.control &&& FRAME_CONTROL_TYPE)
                  = eFrameType.eFrameTypeData.toNat then
                FrameSchedulerData cfg (atDispatch cfg length n)
              else if (n.gFrameScheduler.frame.header.control &&& FRAME_CONTROL_TYPE)
                  = eFrameType.eFrameTypeLinkRequest.toNat then
                FrameSchedulerLinkRequest cfg (atDispatch cfg length n)
              else (0, atDispatch cfg length n)).2)
        else
          (if (n.gFrameScheduler.frame.header.control &&& FRAME_CONTROL_TYPE)
              = eFrameType.eFrameTypeData.toNat then
            FrameSchedulerData cfg (atDispatch cfg length n)
          else if (n.gFrameScheduler.frame.header.control &&& FRAME_CONTROL_TYPE)
              = eFrameType.eFrameTypeLinkRequest.toNat then
            FrameSchedulerLinkRequest cfg (atDispatch cfg length n)
          else (0, atDispatch cfg length n))) := by
  have hv := hvalid
  rw [← FrameValidate_atDispatch cfg length n] at hv
  revert hv
  unfold FrameAssemble FrameValidate atDispatch
  cases cfg.role
  · intro hv
    simp only [FrameSetDataResponse] at hv ⊢
    rw [if_pos ⟨hlen, hcrc⟩, if_pos hv]
  · intro hv
    simp only [FrameSetDataResponse] at hv ⊢
    rw [if_pos ⟨hlen, hcrc⟩, if_pos hv]

/-- FrameAssemble on an accepted Data frame. -/
theorem FrameAssemble_data (cfg : Config) (payload : List Nat) (length : Nat) (n : Node)
    (hlen : FRAME_OVERHEAD_LENGTH cfg ≤ length)
    (hcrc : n.gPhyDevice.footerStatus &&& PROTOCOL_DATASTREAM_FOOTER_CRC ≠ 0)
    (hvalid : FrameValidate cfg n = true)
    (htype : n.gFrameScheduler.frame.header.control &&& FRAME_CONTROL_TYPE
      = eFrameType.eFrameTypeData.toNat) :
    FrameAssemble cfg payload length n
      = (if !(FrameSchedulerData cfg (atDispatch cfg length n)).2.gFrameScheduler.busy then
          ((FrameSchedulerData cfg (atDispatch cfg length n)).1,
            FrameIdle cfg (FrameSchedulerData cfg (atDispatch cfg length n)).2)
        else FrameSchedulerData cfg (atDispatch cfg length n)) := by
  rw [FrameAssemble_accepted cfg payload length n hlen hcrc hvalid]
  simp only [if_pos htype]

/-- FrameAssemble on an accepted Link Request frame. -/
theorem FrameAssemble_linkRequest (cfg : Config) (payload : List Nat) (length : Nat) (n : Node)
    (hlen : FRAME_OVERHEAD_LENGTH cfg ≤ length)
    (hcrc : n.gPhyDevice.footerStatus &&& PROTOCOL_DATASTREAM_FOOTER_CRC ≠ 0)
    (hvalid : FrameValidate cfg n = true)
    (htype : n.gFrameScheduler.frame.header.control &&& FRAME_CONTROL_TYPE
      = eFrameType.eFrameTypeLinkRequest.toNat) :
    FrameAssemble cfg payload length n
      = (if !(FrameSchedulerLinkRequest cfg (atDispatch cfg length n)).2.gFrameScheduler.busy then
          ((FrameSchedulerLinkRequest cfg (atDispatch cfg length n)).1,
            FrameIdle cfg (FrameSchedulerLinkRequest cfg (atDispatch cfg length n)).2)
        else FrameSchedulerLinkRequest cfg (atDispatch cfg length n)) := by
  have hne : ¬ (n.gFrameScheduler.frame.header.control &&& FRAME_CONTROL_TYPE
      = eFrameType.eFrameTypeData.toNat) := by
    rw [htype]
    decide
  rw [FrameAssemble_accepted cfg payload length n hlen hcrc hvalid]
  simp only [if_neg hne, if_pos htype]

theorem atDispatch_fields (cfg : Config) (length : Nat) (n : Node) :
    (atDispatch cfg length n).gPhyAddressInfo = n.gPhyAddressInfo
    ∧ (atDispatch cfg length n).gFrameScheduler.frame = n.gFrameScheduler.frame
    ∧ (atDispatch cfg length n).gFrameScheduler.busy = false
    ∧ (atDispatch cfg length n).gFrameScheduler.length
      = (length - FRAME_OVERHEAD_LENGTH cfg) % 256
    ∧ (atDispatch cfg length n).gFrameScheduler.FrameComplete = n.gFrameScheduler.FrameComplete
    ∧ (atDispatch cfg length n).gFrameScheduler.LinkRequest = n.gFrameScheduler.LinkRequest
    ∧ (atDispatch cfg length n).seqNumber = n.seqNumber
    ∧ (atDispatch cfg length n).gPhyDevice = n.gPhyDevice
    ∧ (atDispatch cfg length n).trace = n.trace := by
  unfold atDispatch
  cases cfg.role <;> exact ⟨rfl, rfl, rfl, rfl, rfl, rfl, rfl, rfl, rfl⟩

/-- What PhyAddressLinkEstablish does to its surroundings on an End Point: the
address filter is set on the new PAN id unless the PAN id is fixed, then the
backup hook, when registered, is called in write mode. -/
theorem PhyAddressLinkEstablish_trace (cfg : Config) (panId remote : List Nat) (n : Node)
    (hrole : cfg.role = Role.endPoint) :
    (PhyAddressLinkEstablish cfg panId remote n).trace
      = n.trace
        ++ (if n.gPhyAddressInfo.local_.fixed then []
            else [Event.phyEnableAddressFilter
              ((PhyAddressCopy n.gPhyAddressInfo.local_.panId panId
                cfg.PROTOCOL_PHYADDRESS_PANID_SIZE).headD 0)])
        ++ (if n.gPhyAddressInfo.Backup then
              [Event.backup false
                (PhyAddressLinkEstablish cfg panId remote n).gPhyAddressInfo.local_.toBytes
                ((sizeofPhyAddressLocal cfg / sizeofPhyAddressInfo cfg) % 256)]
            else []) := by
  rw [PhyAddressLinkEstablish_local cfg panId remote n hrole]
  unfold PhyAddressLinkEstablish PhyAddressBackupWrite
  simp only [hrole, PHY_ADDRESS_PANID_SIZE, PHY_ADDRESS_ADDRESS_SIZE]
  cases hf : n.gPhyAddressInfo.local_.fixed <;> cases hb : n.gPhyAddressInfo.Backup <;>
    simp [PhyEnableAddressFilter, Node.emit, hf, hb]

/-- C16: when FrameAssemble on an End Point accepts a Link Request frame, the
link is established from that frame without further condition: the remote
address becomes the source address of the frame, the PAN id becomes that of
the frame unless it is fixed, in which case it stays, the completion callback
is not called (the only effects are the address filter, the backup hook when
registered and the low power command), the status is 0 and the scheduler ends
not busy. -/
theorem FrameAssemble_endPoint_linkRequest (cfg : Config) (payload : List Nat) (length : Nat)
    (n : Node) (hrole : cfg.role = Role.endPoint)
    (hlen : FRAME_OVERHEAD_LENGTH cfg ≤ length)
    (hcrc : n.gPhyDevice.footerStatus &&& PROTOCOL_DATASTREAM_FOOTER_CRC ≠ 0)
    (hvalid : FrameEndPointValidate cfg n.gFrameScheduler.frame.header.panId
      n.gFrameScheduler.frame.header.destAddr n = true)
    (htype : n.gFrameScheduler.frame.header.control &&& FRAME_CONTROL_TYPE
      = eFrameType.eFrameTypeLinkRequest.toNat)
    (hwf : n.WellFormed cfg) :
    (FrameAssemble cfg payload length n).1 = 0
    ∧ (FrameAssemble cfg payload length n).2.gPhyAddressInfo.local_.remote
        = n.gFrameScheduler.frame.header.srcAddr
    ∧ (n.gPhyAddressInfo.local_.fixed = false →
        (FrameAssemble cfg payload length n).2.gPhyAddressInfo.local_.panId
          = n.gFrameScheduler.frame.header.panId)
    ∧ (n.gPhyAddressInfo.local_.fixed = true →
        (FrameAssemble cfg payload length n).2.gPhyAddressInfo.local_.panId
          = n.gPhyAddressInfo.local_.panId)
    ∧ (FrameAssemble cfg payload length n).2.gFrameScheduler.busy = false
    ∧ (FrameAssemble cfg payload length n).2.trace
        = n.trace
          ++ (if n.gPhyAddressInfo.local_.fixed then []
              else [Event.phyEnableAddressFilter
                (n.gFrameScheduler.frame.header.panId.headD 0)])
          ++ (if n.gPhyAddressInfo.Backup then
                [Event.backup false
                  (FrameAssemble cfg payload length n).2.gPhyAddressInfo.local_.toBytes
                  ((sizeofPhyAddressLocal cfg / sizeofPhyAddressInfo cfg) % 256)]
              else [])
          ++ [Event.phyLowPowerMode] := by
  obtain ⟨⟨wp, wa, wr⟩, ⟨fp, fd, fs, fq⟩⟩ := hwf
  have hv : FrameValidate cfg n = true := by
    unfold FrameValidate
    rw [hrole]
    exact hvalid
  have had := atDispatch_fields cfg length n
  have hk := PhyAddressLinkEstablish_keeps cfg n.gFrameScheduler.frame.header.panId
    n.gFrameScheduler.frame.header.srcAddr (atDispatch cfg length n)
  have hl := PhyAddressLinkEstablish_local cfg n.gFrameScheduler.frame.header.panId
    n.gFrameScheduler.frame.header.srcAddr (atDispatch cfg length n) hrole
  have ht := PhyAddressLinkEstablish_trace cfg n.gFrameScheduler.frame.header.panId
    n.gFrameScheduler.frame.header.srcAddr (atDispatch cfg length n) hrole
  have hdisp : FrameSchedulerLinkRequest cfg (atDispatch cfg length n)
      = (0, PhyAddressLinkEstablish cfg n.gFrameScheduler.frame.header.panId
          n.gFrameScheduler.frame.header.srcAddr (atDispatch cfg length n)) := by
    unfold FrameSchedulerLinkRequest
    simp only [hrole, had.2.1]
  have hbusy : (PhyAddressLinkEstablish cfg n.gFrameScheduler.frame.header.panId
      n.gFrameScheduler.frame.header.srcAddr
      (atDispatch cfg length n)).gFrameScheduler.busy = false := by
    rw [hk.1]
    exact had.2.2.1
  have hi := FrameIdle_idle cfg _ hbusy
  have hres : FrameAssemble cfg payload length n
      = (0, FrameIdle cfg (PhyAddressLinkEstablish cfg n.gFrameScheduler.frame.header.panId
          n.gFrameScheduler.frame.header.srcAddr (atDispatch cfg length n))) := by
    rw [FrameAssemble_linkRequest cfg payload length n hlen hcrc hv htype]
    simp only [hdisp, hbusy, Bool.not_false, if_true]
  rw [had.1] at hl ht
  rw [had.2.2.2.2.2.2.2.2] at ht
  rw [hres]
  refine ⟨rfl, ?_, ?_, ?_, ?_, ?_⟩
  · show (FrameIdle cfg _).gPhyAddressInfo.local_.remote = _
    rw [hi.2.1, hl]
    exact memcpy_exact _ _ _ wr fs
  · intro hf
    show (FrameIdle cfg _).gPhyAddressInfo.local_.panId = _
    rw [hi.2.1, hl]
    simp only [hf]
    exact memcpy_exact _ _ _ wp fp
  · intro hf
    show (FrameIdle cfg _).gPhyAddressInfo.local_.panId = _
    rw [hi.2.1, hl]
    simp [hf]
  · show (FrameIdle cfg _).gFrameScheduler.busy = false
    rw [hi.1, hrole]
    rfl
  · show (FrameIdle cfg _).trace = _
    rw [hi.2.2.2.1, ht, hrole]
    show _ = _ ++ (if n.gPhyAddressInfo.Backup then
        [Event.backup false (FrameIdle cfg _).gPhyAddressInfo.local_.toBytes _] else [])
      ++ [Event.phyLowPowerMode]
    rw [hi.2.1, PhyAddressCopy, memcpy_exact _ _ _ wp fp]
    rfl

/-- Witness of C16: the unlinked sample End Point holding the Link Request
answer of the Gateway at address 9 in PAN 7. -/
theorem FrameAssemble_endPoint_linkRequest_witness :
    (shippedEndPoint.role = Role.endPoint
      ∧ FRAME_OVERHEAD_LENGTH shippedEndPoint ≤ 5
      ∧ (sampleEndPoint.received sampleLinkResponse 0x80).gPhyDevice.footerStatus
          &&& PROTOCOL_DATASTREAM_FOOTER_CRC ≠ 0
      ∧ FrameEndPointValidate shippedEndPoint [7] [2]
          (sampleEndPoint.received sampleLinkResponse 0x80) = true
      ∧ (sampleEndPoint.received sampleLinkResponse 0x80).gFrameScheduler.frame.header.control
          &&& FRAME_CONTROL_TYPE = eFrameType.eFrameTypeLinkRequest.toNat
      ∧ (sampleEndPoint.received sampleLinkResponse 0x80).WellFormed shippedEndPoint)
    ∧ (FrameAssemble shippedEndPoint [] 5
        (sampleEndPoint.received sampleLinkResponse 0x80)).2.gPhyAddressInfo.local_.remote = [9]
    ∧ (FrameAssemble shippedEndPoint [] 5
        (sampleEndPoint.received sampleLinkResponse 0x80)).2.gFrameScheduler.busy = false :=
  ⟨⟨by decide, by decide, by decide, by decide, by decide, by decide⟩,
    (FrameAssemble_endPoint_linkRequest shippedEndPoint [] 5
      (sampleEndPoint.received sampleLinkResponse 0x80)
      (by decide) (by decide) (by decide) (by decide) (by decide) (by decide)).2.1,
    (FrameAssemble_endPoint_linkRequest shippedEndPoint [] 5
      (sampleEndPoint.received sampleLinkResponse 0x80)
      (by decide) (by decide) (by decide) (by decide) (by decide) (by decide)).2.2.2.2.1⟩

/-- C15 fails on the code.  The End Point at address 2 is linked to the Gateway
at address 9 in PAN 7.  A Link Request frame of that PAN, addressed to it by a
sender at address 5 in Gateway mode, passes FrameEndPointValidate, whose test
for an existing link sits only in the branch of a foreign PAN id, and
FrameSchedulerLinkRequest establishes the link again: the remote address
becomes 5.  The PAN id stays 7. -/
theorem linked_endPoint_relinks :
    PhyAddressLinkExists shippedEndPoint linkedEndPoint = true
    ∧ linkedEndPoint.gPhyAddressInfo.local_.remote = [9]
    ∧ linkedEndPoint.gPhyAddressInfo.local_.panId = [7]
    ∧ FrameEndPointValidate shippedEndPoint otherLinkResponse.header.panId
        otherLinkResponse.header.destAddr (linkedEndPoint.received otherLinkResponse 0x80) = true
    ∧ (FrameAssemble shippedEndPoint [] 5
        (linkedEndPoint.received otherLinkResponse 0x80)).2.gPhyAddressInfo.local_.remote = [5]
    ∧ (FrameAssemble shippedEndPoint [] 5
        (linkedEndPoint.received otherLinkResponse 0x80)).2.gPhyAddressInfo.local_.panId = [7] := by
  decide

/-! ## Gateway data requests -/

theorem and_two_cases (c : Nat) : c &&& 2 = 0 ∨ c &&& 2 = 2 := by
  have h1 : (c &&& 3) &&& 2 = c &&& 2 := by
    rw [Nat.and_assoc]
    rfl
  have h2 : c &&& 3 = c % 4 := Nat.and_pow_two_sub_one_eq_mod c 2
  have h3 : c % 4 < 4 := Nat.mod_lt _ (by decide)
  rw [← h1, h2]
  generalize c % 4 = d at h3
  interval_cases d <;> decide

theorem dataRequest_flag (c : Nat) (h : c &&& FRAME_CONTROL_DATA_REQ ≠ 0) :
    decide (((c &&& FRAME_CONTROL_DATA_REQ) >>> 1) ≠ 0) = true := by
  have h2 : c &&& 2 = 2 := by
    rcases and_two_cases c with h0 | h0
    · exact absurd h0 h
    · exact h0
  simp only [FRAME_CONTROL_DATA_REQ, h2]
  decide

/-- FrameSchedulerData on a Gateway with a completion callback registered, for
a frame whose data request bit is set. -/
theorem FrameSchedulerData_gateway (cfg : Config) (d : Node)
    (cb : Option Bool → Option (List Nat) → Nat → CallbackResult)
    (hrole : cfg.role = Role.gateway) (hcb : d.gFrameScheduler.FrameComplete = some cb)
    (hreq : d.gFrameScheduler.frame.header.control &&& FRAME_CONTROL_DATA_REQ ≠ 0) :
    FrameSchedulerData cfg d
      = (if (afterDataCallback cfg d cb).gFrameScheduler.dataResponse.length > 0 then
          ((cb (some true) (some d.gFrameScheduler.frame.payload)
              d.gFrameScheduler.length).statusMessage,
            (FrameSend cfg eFrameType.eFrameTypeData true
              (afterDataCallback cfg d cb).gFrameScheduler.dataResponse.payload
              (afterDataCallback cfg d cb).gFrameScheduler.dataResponse.length
              (PhyEnable (afterDataCallback cfg d cb))).2)
        else
          ((cb (some true) (some d.gFrameScheduler.frame.payload)
              d.gFrameScheduler.length).statusMessage,
            afterDataCallback cfg d cb)) := by
  have hdr := dataRequest_flag _ hreq
  unfold FrameSchedulerData afterDataCallback
  simp only [hcb, hrole, hdr, true_and]
  rfl

theorem afterDataCallback_fields (cfg : Config) (d : Node)
    (cb : Option Bool → Option (List Nat) → Nat → CallbackResult) :
    (afterDataCallback cfg d cb).gPhyAddressInfo = d.gPhyAddressInfo
    ∧ (afterDataCallback cfg d cb).gFrameScheduler.frame
      = { d.gFrameScheduler.frame with header :=
            { d.gFrameScheduler.frame.header with
              control := clearBits d.gFrameScheduler.frame.header.control
                FRAME_CONTROL_DATA_REQ } }
    ∧ (afterDataCallback cfg d cb).gFrameScheduler.busy = d.gFrameScheduler.busy
    ∧ (afterDataCallback cfg d cb).gFrameScheduler.length = d.gFrameScheduler.length
    ∧ (afterDataCallback cfg d cb).gPhyDevice = d.gPhyDevice
    ∧ (afterDataCallback cfg d cb).trace
      = d.trace ++ [Event.frameComplete (some true) (some d.gFrameScheduler.frame.payload)
          d.gFrameScheduler.length] := by
  have ha := applyLoad_keeps cfg
    (cb (some true) (some d.gFrameScheduler.frame.payload) d.gFrameScheduler.length)
    (Node.emit
      { d with gFrameScheduler :=
          { d.gFrameScheduler with frame :=
              { d.gFrameScheduler.frame with header :=
                  { d.gFrameScheduler.frame.header with
                    control := clearBits d.gFrameScheduler.frame.header.control
                      FRAME_CONTROL_DATA_REQ } } } }
      (Event.frameComplete (some true) (some d.gFrameScheduler.frame.payload)
        d.gFrameScheduler.length))
  exact ⟨ha.2.2.2.1, ha.2.2.1, ha.1, ha.2.1, ha.2.2.2.2.2, ha.2.2.2.2.1⟩

theorem afterDataCallback_dataResponse (cfg : Config) (d : Node)
    (cb : Option Bool → Option (List Nat) → Nat → CallbackResult)
    (hrole : cfg.role = Role.gateway) :
    (afterDataCallback cfg d cb).gFrameScheduler.dataResponse
      = (match (cb (some true) (some d.gFrameScheduler.frame.payload)
            d.gFrameScheduler.length).loadDataResponse with
          | some x => x
          | none => d.gFrameScheduler.dataResponse) := by
  unfold afterDataCallback applyLoad
  rw [hrole]
  cases (cb (some true) (some d.gFrameScheduler.frame.payload)
    d.gFrameScheduler.length).loadDataResponse <;> rfl

theorem atDispatch_dataResponse (cfg : Config) (length : Nat) (n : Node)
    (hrole : cfg.role = Role.gateway) :
    (atDispatch cfg length n).gFrameScheduler.dataResponse = { payload := [], length := 0 } := by
  unfold atDispatch
  rw [hrole]
  rfl

theorem FrameValidate_gateway (cfg : Config) (n : Node) (hrole : cfg.role = Role.gateway) :
    FrameValidate cfg n
      = FrameGatewayValidate cfg n.gFrameScheduler.frame.header.panId
          n.gFrameScheduler.frame.header.destAddr n := by
  unfold FrameValidate
  rw [hrole]

/-- C12: a Gateway receives a valid Data frame whose data request bit is set,
and the completion callback stages no response, or one of length 0.  The
callback is called once, with dataRequest true, the received payload and the
received length less FRAME_OVERHEAD_LENGTH; nothing is handed to the physical
layer for transmission; the Gateway ends listening: busy, the receiver armed
again, the transmitting flag untouched. -/
theorem FrameAssemble_gateway_request_unanswered (cfg : Config) (payload : List Nat)
    (length : Nat) (n : Node)
    (cb : Option Bool → Option (List Nat) → Nat → CallbackResult)
    (hrole : cfg.role = Role.gateway)
    (hlen : FRAME_OVERHEAD_LENGTH cfg ≤ length) (hbyte : length < 256)
    (hcrc : n.gPhyDevice.footerStatus &&& PROTOCOL_DATASTREAM_FOOTER_CRC ≠ 0)
    (hvalid : FrameGatewayValidate cfg n.gFrameScheduler.frame.header.panId
      n.gFrameScheduler.frame.header.destAddr n = true)
    (htype : n.gFrameScheduler.frame.header.control &&& FRAME_CONTROL_TYPE
      = eFrameType.eFrameTypeData.toNat)
    (hreq : n.gFrameScheduler.frame.header.control &&& FRAME_CONTROL_DATA_REQ ≠ 0)
    (hcb : n.gFrameScheduler.FrameComplete = some cb)
    (hstage : ∀ x, (cb (some true) (some n.gFrameScheduler.frame.payload)
        (length - FRAME_OVERHEAD_LENGTH cfg)).loadDataResponse = some x → x.length = 0) :
    (FrameAssemble cfg payload length n).1
      = (cb (some true) (some n.gFrameScheduler.frame.payload)
          (length - FRAME_OVERHEAD_LENGTH cfg)).statusMessage
    ∧ (FrameAssemble cfg payload length n).2.trace
      = n.trace ++ [Event.frameComplete (some true) (some n.gFrameScheduler.frame.payload)
            (length - FRAME_OVERHEAD_LENGTH cfg),
          Event.phyDisable, Event.phyReceiverOn]
    ∧ (FrameAssemble cfg payload length n).2.gFrameScheduler.busy = true
    ∧ (FrameAssemble cfg payload length n).2.gPhyDevice.transmitting
      = n.gPhyDevice.transmitting := by
  have hv : FrameValidate cfg n = true := by
    rw [FrameValidate_gateway cfg n hrole]
    exact hvalid
  have had := atDispatch_fields cfg length n
  have hmod : (length - FRAME_OVERHEAD_LENGTH cfg) % 256 = length - FRAME_OVERHEAD_LENGTH cfg :=
    Nat.mod_eq_of_lt (by omega)
  have hlen' : (atDispatch cfg length n).gFrameScheduler.length
      = length - FRAME_OVERHEAD_LENGTH cfg := by
    rw [had.2.2.2.1, hmod]
  have hcb' : (atDispatch cfg length n).gFrameScheduler.FrameComplete = some cb := by
    rw [had.2.2.2.2.1, hcb]
  have hreq' : (atDispatch cfg length n).gFrameScheduler.frame.header.control
      &&& FRAME_CONTROL_DATA_REQ ≠ 0 := by
    rw [had.2.1]
    exact hreq
  have haf := afterDataCallback_fields cfg (atDispatch cfg length n) cb
  have hdr := afterDataCallback_dataResponse cfg (atDispatch cfg length n) cb hrole
  rw [had.2.1, hlen', atDispatch_dataResponse cfg length n hrole] at hdr
  have hzero : (afterDataCallback cfg (atDispatch cfg length n)
      cb).gFrameScheduler.dataResponse.length = 0 := by
    rw [hdr]
    cases hx : (cb (some true) (some n.gFrameScheduler.frame.payload)
        (length - FRAME_OVERHEAD_LENGTH cfg)).loadDataResponse with
    | none => rfl
    | some x => exact hstage x hx
  have hdisp := FrameSchedulerData_gateway cfg (atDispatch cfg length n) cb hrole hcb' hreq'
  rw [if_neg (by omega)] at hdisp
  have hbusy : (afterDataCallback cfg (atDispatch cfg length n) cb).gFrameScheduler.busy
      = false := by
    rw [haf.2.2.1]
    exact had.2.2.1
  have hi := FrameIdle_idle cfg _ hbusy
  have hres : FrameAssemble cfg payload length n
      = ((cb (some true) (some n.gFrameScheduler.frame.payload)
            (length - FRAME_OVERHEAD_LENGTH cfg)).statusMessage,
          FrameIdle cfg (afterDataCallback cfg (atDispatch cfg length n) cb)) := by
    rw [FrameAssemble_data cfg payload length n hlen hcrc hv htype, hdisp]
    simp only [hbusy, Bool.not_false, if_true, had.2.1, hlen']
  rw [hres]
  refine ⟨rfl, ?_, ?_, ?_⟩
  · show (FrameIdle cfg _).trace = _
    rw [hi.2.2.2.1, haf.2.2.2.2.2, had.2.1, hlen', had.2.2.2.2.2.2.2.2, hrole]
    simp [idleEvents]
  · show (FrameIdle cfg _).gFrameScheduler.busy = true
    rw [hi.1, hrole]
    rfl
  · show (FrameIdle cfg _).gPhyDevice.transmitting = _
    rw [hi.2.2.2.2, haf.2.2.2.2.1, had.2.2.2.2.2.2.2.1]

/-- Witness of C12: the listening sample Gateway, whose callback stages
nothing, receives a three byte data request from the End Point at address 2. -/
theorem FrameAssemble_gateway_request_unanswered_witness :
    (shippedGateway.role = Role.gateway
      ∧ FRAME_OVERHEAD_LENGTH shippedGateway ≤ 8 ∧ 8 < 256
      ∧ (quietGateway.received sampleDataRequest 0x80).gPhyDevice.footerStatus
          &&& PROTOCOL_DATASTREAM_FOOTER_CRC ≠ 0
      ∧ FrameGatewayValidate shippedGateway [1] [9]
          (quietGateway.received sampleDataRequest 0x80) = true
      ∧ (quietGateway.received sampleDataRequest 0x80).gFrameScheduler.frame.header.control
          &&& FRAME_CONTROL_TYPE = eFrameType.eFrameTypeData.toNat
      ∧ (quietGateway.received sampleDataRequest 0x80).gFrameScheduler.frame.header.control
          &&& FRAME_CONTROL_DATA_REQ ≠ 0
      ∧ (quietGateway.received sampleDataRequest 0x80).gFrameScheduler.FrameComplete
          = some quietCallback)
    ∧ (FrameAssemble shippedGateway [] 8 (quietGateway.received sampleDataRequest 0x80)).2.trace
      = (quietGateway.received sampleDataRequest 0x80).trace
          ++ [Event.frameComplete (some true) (some [1, 2, 3, 0, 0, 0, 0, 0]) 3,
            Event.phyDisable, Event.phyReceiverOn] :=
  ⟨⟨by decide, by decide, by decide, by decide, by decide, by decide, by decide, rfl⟩,
    (FrameAssemble_gateway_request_unanswered shippedGateway [] 8
      (quietGateway.received sampleDataRequest 0x80) quietCallback
      (by decide) (by decide) (by decide) (by decide) (by decide) (by decide) (by decide) rfl
      (fun x hx => by cases hx)).2.1⟩

/-! ## Replies sent from the dispatch -/

/-- An accepted FrameSend, spelled out: the built frame, the busy flag, the
physical device record and the one transmit command. -/
theorem FrameSend_result (cfg : Config) (type : eFrameType) (dataRequest : Bool)
    (payload : List Nat) (k : Nat) (m : Node)
    (hbusy : m.gFrameScheduler.busy = false)
    (hsz : k + FRAME_OVERHEAD_LENGTH cfg ≤ PROTOCOL_DATASTREAM_MAX_SIZE cfg)
    (hfifo : k + FRAME_OVERHEAD_LENGTH cfg ≤ cfg.CC1101_TXFIFO_SIZE)
    (hmod : k + FRAME_OVERHEAD_LENGTH cfg < 256)
    (htx : m.gPhyDevice.transmitting = false) :
    FrameSend cfg type dataRequest payload k m
      = (true,
          { gPhyAddressInfo := m.gPhyAddressInfo
            gFrameScheduler :=
              { (FrameBuild cfg type dataRequest payload k m).gFrameScheduler with busy := true }
            seqNumber := (m.seqNumber + 1) % 256
            gPhyDevice :=
              { m.gPhyDevice with
                gdoWaitForDeassert := true
                streamHeaderLength := k + FRAME_OVERHEAD_LENGTH cfg
                transmitting := true }
            trace := m.trace ++ [Event.phyTransmit
              ((FrameBuild cfg type dataRequest payload k m).gFrameScheduler.frame.toBytes.take
                (k + FRAME_OVERHEAD_LENGTH cfg))
              (k + FRAME_OVERHEAD_LENGTH cfg)] }) := by
  have hm : (k + FRAME_OVERHEAD_LENGTH cfg) % 256 = k + FRAME_OVERHEAD_LENGTH cfg :=
    Nat.mod_eq_of_lt hmod
  have hc : ¬ (k + FRAME_OVERHEAD_LENGTH cfg > cfg.CC1101_TXFIFO_SIZE) := by omega
  unfold FrameSend PhyTransmit
  simp only [hbusy, Bool.not_false, if_true, hsz, hm, hc, if_false, FrameBuild_gPhyDevice, htx,
    Node.emit, FrameBuild_trace]
  rfl

theorem FrameBuild_wellFormed_header (cfg : Config) (type : eFrameType) (dataRequest : Bool)
    (payload : List Nat) (k : Nat) (m : Node) (hwf : m.WellFormed cfg) :
    (FrameBuild cfg type dataRequest payload k m).gFrameScheduler.frame.header.panId.length
      = cfg.PROTOCOL_PHYADDRESS_PANID_SIZE
    ∧ (FrameBuild cfg type dataRequest payload k m).gFrameScheduler.frame.header.destAddr.length
      = cfg.PROTOCOL_PHYADDRESS_ADDRESS_SIZE
    ∧ (FrameBuild cfg type dataRequest payload k m).gFrameScheduler.frame.header.srcAddr.length
      = cfg.PROTOCOL_PHYADDRESS_ADDRESS_SIZE := by
  have hwf2 := hwf
  obtain ⟨⟨hp, ha, hr⟩, ⟨fp, fd, fs, fq⟩⟩ := hwf2
  refine ⟨?_, ?_, ?_⟩
  · rw [FrameBuild_header_panId cfg type dataRequest payload k m hwf]
    exact hp
  · rw [FrameBuild_header_destAddr cfg type dataRequest payload k m hwf]
    cases cfg.role
    · exact hr
    · exact fs
  · rw [FrameBuild_header_srcAddr cfg type dataRequest payload k m hwf]
    exact ha

/-- The frame a node hands to the radio when FrameSend is accepted, read back
through the frame layout: the header FrameBuild stamped and the payload given. -/
theorem FrameSend_reply (cfg : Config) (type : eFrameType) (dataRequest : Bool)
    (payload : List Nat) (k : Nat) (m : Node)
    (hbusy : m.gFrameScheduler.busy = false) (hP : payload.length = k)
    (hsz : k + FRAME_OVERHEAD_LENGTH cfg ≤ PROTOCOL_DATASTREAM_MAX_SIZE cfg)
    (hfifo : k + FRAME_OVERHEAD_LENGTH cfg ≤ cfg.CC1101_TXFIFO_SIZE)
    (hmod : k + FRAME_OVERHEAD_LENGTH cfg < 256)
    (htx : m.gPhyDevice.transmitting = false) (hwf : m.WellFormed cfg) :
    (FrameSend cfg type dataRequest payload k m).2.gFrameScheduler.busy = true
    ∧ (FrameSend cfg type dataRequest payload k m).2.gPhyDevice.transmitting = true
    ∧ (FrameSend cfg type dataRequest payload k m).2.gPhyAddressInfo = m.gPhyAddressInfo
    ∧ (FrameSend cfg type dataRequest payload k m).2.gFrameScheduler.length = k
    ∧ (FrameSend cfg type dataRequest payload k m).2.trace
      = m.trace ++ [Event.phyTransmit
          ((FrameSend cfg type dataRequest payload k m).2.gFrameScheduler.frame.toBytes.take
            (k + FRAME_OVERHEAD_LENGTH cfg))
          (k + FRAME_OVERHEAD_LENGTH cfg)]
    ∧ sFrame.ofBytes cfg
        ((FrameSend cfg type dataRequest payload k m).2.gFrameScheduler.frame.toBytes.take
          (k + FRAME_OVERHEAD_LENGTH cfg))
      = { header := (FrameSend cfg type dataRequest payload k m).2.gFrameScheduler.frame.header
          payload := payload }
    ∧ (FrameSend cfg type dataRequest payload k m).2.gFrameScheduler.frame.header.panId
      = m.gPhyAddressInfo.local_.panId
    ∧ (FrameSend cfg type dataRequest payload k m).2.gFrameScheduler.frame.header.srcAddr
      = m.gPhyAddressInfo.local_.address
    ∧ (FrameSend cfg type dataRequest payload k m).2.gFrameScheduler.frame.header.destAddr
      = (match cfg.role with
          | Role.endPoint => m.gPhyAddressInfo.local_.remote
          | Role.gateway => m.gFrameScheduler.frame.header.srcAddr)
    ∧ (FrameSend cfg type dataRequest payload k m).2.gFrameScheduler.frame.header.control
        &&& FRAME_CONTROL_TYPE = type.toNat
    ∧ (FrameSend cfg type dataRequest payload k m).2.gFrameScheduler.frame.header.control
        &&& FRAME_CONTROL_DATA_REQ = (if dataRequest then FRAME_CONTROL_DATA_REQ else 0)
    ∧ (FrameSend cfg type dataRequest payload k m).2.gFrameScheduler.frame.header.control
        &&& FRAME_CONTROL_MODE = cfg.role.modeBit := by
  have hres := FrameSend_result cfg type dataRequest payload k m hbusy hsz hfifo hmod htx
  have hh := FrameBuild_wellFormed_header cfg type dataRequest payload k m hwf
  have hparse := ofBytes_take_toBytes cfg
    (FrameBuild cfg type dataRequest payload k m).gFrameScheduler.frame k hh.1 hh.2.1 hh.2.2
  have htake : (FrameBuild cfg type dataRequest payload k m).gFrameScheduler.frame.payload.take k
      = payload := by
    subst hP
    simp [FrameBuild_payload, memcpy]
  have hf := FrameBuild_control_fields cfg type dataRequest payload k m
  rw [hres]
  refine ⟨rfl, rfl, rfl, rfl, rfl, ?_, ?_, ?_, ?_, hf.1, hf.2.1, hf.2.2.1⟩
  · show sFrame.ofBytes cfg
        ((FrameBuild cfg type dataRequest payload k m).gFrameScheduler.frame.toBytes.take
          (k + FRAME_OVERHEAD_LENGTH cfg))
      = { header := (FrameBuild cfg type dataRequest payload k m).gFrameScheduler.frame.header
          payload := payload }
    rw [hparse, htake]
  · exact FrameBuild_header_panId cfg type dataRequest payload k m hwf
  · exact FrameBuild_header_srcAddr cfg type dataRequest payload k m hwf
  · exact FrameBuild_header_destAddr cfg type dataRequest payload k m hwf

/-- C13: half duplex turnaround.  A Gateway that is not transmitting receives
a valid Data frame whose data request bit is set, from source address S, and
the completion callback stages a response R of k > 0 bytes that fits the
hardware buffer.  Within that FrameAssemble exactly one frame is handed to the
physical layer, after the callback: k + FRAME_OVERHEAD_LENGTH bytes that read
as a Data frame in Gateway mode with the local PAN id, destination S, the local
address as source and payload R.  The scheduler ends transmitting: busy. -/
theorem FrameAssemble_gateway_turnaround (cfg : Config) (payload : List Nat)
    (length : Nat) (n : Node)
    (cb : Option Bool → Option (List Nat) → Nat → CallbackResult) (R : List Nat) (k : Nat)
    (hrole : cfg.role = Role.gateway)
    (hlen : FRAME_OVERHEAD_LENGTH cfg ≤ length) (hbyte : length < 256)
    (hcrc : n.gPhyDevice.footerStatus &&& PROTOCOL_DATASTREAM_FOOTER_CRC ≠ 0)
    (hvalid : FrameGatewayValidate cfg n.gFrameScheduler.frame.header.panId
      n.gFrameScheduler.frame.header.destAddr n = true)
    (htype : n.gFrameScheduler.frame.header.control &&& FRAME_CONTROL_TYPE
      = eFrameType.eFrameTypeData.toNat)
    (hreq : n.gFrameScheduler.frame.header.control &&& FRAME_CONTROL_DATA_REQ ≠ 0)
    (hcb : n.gFrameScheduler.FrameComplete = some cb)
    (hstage : (cb (some true) (some n.gFrameScheduler.frame.payload)
        (length - FRAME_OVERHEAD_LENGTH cfg)).loadDataResponse
      = some { payload := R, length := k })
    (hk : 0 < k) (hR : R.length = k)
    (hsz : k + FRAME_OVERHEAD_LENGTH cfg ≤ PROTOCOL_DATASTREAM_MAX_SIZE cfg)
    (hfifo : k + FRAME_OVERHEAD_LENGTH cfg ≤ cfg.CC1101_TXFIFO_SIZE)
    (hmax : PROTOCOL_DATASTREAM_MAX_SIZE cfg < 256)
    (htx : n.gPhyDevice.transmitting = false) (hwf : n.WellFormed cfg) :
    (FrameAssemble cfg payload length n).2.gFrameScheduler.busy = true
    ∧ (FrameAssemble cfg payload length n).2.gPhyDevice.transmitting = true
    ∧ (FrameAssemble cfg payload length n).2.trace
      = n.trace ++ [Event.frameComplete (some true) (some n.gFrameScheduler.frame.payload)
            (length - FRAME_OVERHEAD_LENGTH cfg),
          Event.phyEnable,
          Event.phyTransmit
            ((FrameAssemble cfg payload length n).2.gFrameScheduler.frame.toBytes.take
              (k + FRAME_OVERHEAD_LENGTH cfg))
            (k + FRAME_OVERHEAD_LENGTH cfg)]
    ∧ sFrame.ofBytes cfg
        ((FrameAssemble cfg payload length n).2.gFrameScheduler.frame.toBytes.take
          (k + FRAME_OVERHEAD_LENGTH cfg))
      = { header := (FrameAssemble cfg payload length n).2.gFrameScheduler.frame.header
          payload := R }
    ∧ (FrameAssemble cfg payload length n).2.gFrameScheduler.frame.header.panId
      = n.gPhyAddressInfo.local_.panId
    ∧ (FrameAssemble cfg payload length n).2.gFrameScheduler.frame.header.destAddr
      = n.gFrameScheduler.frame.header.srcAddr
    ∧ (FrameAssemble cfg payload length n).2.gFrameScheduler.frame.header.srcAddr
      = n.gPhyAddressInfo.local_.address
    ∧ (FrameAssemble cfg payload length n).2.gFrameScheduler.frame.header.control
        &&& FRAME_CONTROL_TYPE = eFrameType.eFrameTypeData.toNat
    ∧ (FrameAssemble cfg payload length n).2.gFrameScheduler.frame.header.control
        &&& FRAME_CONTROL_MODE = FRAME_CONTROL_MODE_GATEWAY := by
  have hv : FrameValidate cfg n = true := by
    rw [FrameValidate_gateway cfg n hrole]
    exact hvalid
  have had := atDispatch_fields cfg length n
  have hmod : (length - FRAME_OVERHEAD_LENGTH cfg) % 256 = length - FRAME_OVERHEAD_LENGTH cfg :=
    Nat.mod_eq_of_lt (by omega)
  have hlen' : (atDispatch cfg length n).gFrameScheduler.length
      = length - FRAME_OVERHEAD_LENGTH cfg := by
    rw [had.2.2.2.1, hmod]
  have hcb' : (atDispatch cfg length n).gFrameScheduler.FrameComplete = some cb := by
    rw [had.2.2.2.2.1, hcb]
  have hreq' : (atDispatch cfg length n).gFrameScheduler.frame.header.control
      &&& FRAME_CONTROL_DATA_REQ ≠ 0 := by
    rw [had.2.1]
    exact hreq
  have haf := afterDataCallback_fields cfg (atDispatch cfg length n) cb
  have hdr := afterDataCallback_dataResponse cfg (atDispatch cfg length n) cb hrole
  rw [had.2.1, hlen', hstage] at hdr
  simp only at hdr
  have hdisp := FrameSchedulerData_gateway cfg (atDispatch cfg length n) cb hrole hcb' hreq'
  rw [hdr] at hdisp
  simp only [hk, gt_iff_lt, if_true] at hdisp
  -- the node FrameSend starts from
  have mbusy : (PhyEnable (afterDataCallback cfg (atDispatch cfg length n)
      cb)).gFrameScheduler.busy = false := by
    show (afterDataCallback cfg (atDispatch cfg length n) cb).gFrameScheduler.busy = false
    rw [haf.2.2.1]
    exact had.2.2.1
  have mtx : (PhyEnable (afterDataCallback cfg (atDispatch cfg length n)
      cb)).gPhyDevice.transmitting = false := by
    show (afterDataCallback cfg (atDispatch cfg length n) cb).gPhyDevice.transmitting = false
    rw [haf.2.2.2.2.1, had.2.2.2.2.2.2.2.1]
    exact htx
  have mreg : (PhyEnable (afterDataCallback cfg (atDispatch cfg length n)
      cb)).gPhyAddressInfo = n.gPhyAddressInfo := by
    show (afterDataCallback cfg (atDispatch cfg length n) cb).gPhyAddressInfo = _
    rw [haf.1, had.1]
  have mframe : (PhyEnable (afterDataCallback cfg (atDispatch cfg length n)
      cb)).gFrameScheduler.frame
      = { n.gFrameScheduler.frame with header :=
            { n.gFrameScheduler.frame.header with
              control := clearBits n.gFrameScheduler.frame.header.control
                FRAME_CONTROL_DATA_REQ } } := by
    show (afterDataCallback cfg (atDispatch cfg length n) cb).gFrameScheduler.frame = _
    rw [haf.2.1, had.2.1]
  have mtrace : (PhyEnable (afterDataCallback cfg (atDispatch cfg length n) cb)).trace
      = n.trace ++ [Event.frameComplete (some true) (some n.gFrameScheduler.frame.payload)
          (length - FRAME_OVERHEAD_LENGTH cfg), Event.phyEnable] := by
    show (afterDataCallback cfg (atDispatch cfg length n) cb).trace ++ [Event.phyEnable] = _
    rw [haf.2.2.2.2.2, had.2.1, hlen', had.2.2.2.2.2.2.2.2]
    simp
  have mwf : (PhyEnable (afterDataCallback cfg (atDispatch cfg length n) cb)).WellFormed cfg := by
    unfold Node.WellFormed
    rw [mreg, mframe]
    exact hwf
  have hrep := FrameSend_reply cfg eFrameType.eFrameTypeData true R k
    (PhyEnable (afterDataCallback cfg (atDispatch cfg length n) cb))
    mbusy hR hsz hfifo (by omega) mtx mwf
  have hres : FrameAssemble cfg payload length n
      = ((cb (some true) (some (atDispatch cfg length n).gFrameScheduler.frame.payload)
            (atDispatch cfg length n).gFrameScheduler.length).statusMessage,
          (FrameSend cfg eFrameType.eFrameTypeData true R k
            (PhyEnable (afterDataCallback cfg (atDispatch cfg length n) cb))).2) := by
    rw [FrameAssemble_data cfg payload length n hlen hcrc hv htype, hdisp]
    simp only [hrep.1, Bool.not_true, Bool.false_eq_true, if_false]
  rw [hres]
  simp only
  rw [mreg, mframe, mtrace, hrole] at hrep
  refine ⟨hrep.1, hrep.2.1, ?_, hrep.2.2.2.2.2.1, hrep.2.2.2.2.2.2.1, hrep.2.2.2.2.2.2.2.2.1,
    hrep.2.2.2.2.2.2.2.1, hrep.2.2.2.2.2.2.2.2.2.1, hrep.2.2.2.2.2.2.2.2.2.2.2⟩
  rw [hrep.2.2.2.2.1]
  simp

/-- Witness of C13: the sample Gateway whose callback stages an eight byte
packet answers the data request of the End Point at address 2. -/
theorem FrameAssemble_gateway_turnaround_witness :
    (shippedGateway.role = Role.gateway
      ∧ FRAME_OVERHEAD_LENGTH shippedGateway ≤ 8 ∧ 8 < 256
      ∧ (stagingGateway.received sampleDataRequest 0x80).gPhyDevice.footerStatus
          &&& PROTOCOL_DATASTREAM_FOOTER_CRC ≠ 0
      ∧ FrameGatewayValidate shippedGateway [1] [9]
          (stagingGateway.received sampleDataRequest 0x80) = true
      ∧ (stagingGateway.received sampleDataRequest 0x80).gFrameScheduler.frame.header.control
          &&& FRAME_CONTROL_TYPE = eFrameType.eFrameTypeData.toNat
      ∧ (stagingGateway.received sampleDataRequest 0x80).gFrameScheduler.frame.header.control
          &&& FRAME_CONTROL_DATA_REQ ≠ 0
      ∧ (stagingGateway.received sampleDataRequest 0x80).gFrameScheduler.FrameComplete
          = some stagingCallback
      ∧ (stagingCallback (some true) (some [1, 2, 3, 0, 0, 0, 0, 0]) (8 - 5)).loadDataResponse
          = some { payload := [0, 72, 101, 108, 108, 111, 0, 0], length := 8 }
      ∧ 0 < 8 ∧ [0, 72, 101, 108, 108, 111, 0, 0].length = 8
      ∧ 8 + FRAME_OVERHEAD_LENGTH shippedGateway ≤ PROTOCOL_DATASTREAM_MAX_SIZE shippedGateway
      ∧ 8 + FRAME_OVERHEAD_LENGTH shippedGateway ≤ shippedGateway.CC1101_TXFIFO_SIZE
      ∧ PROTOCOL_DATASTREAM_MAX_SIZE shippedGateway < 256
      ∧ (stagingGateway.received sampleDataRequest 0x80).gPhyDevice.transmitting = false
      ∧ (stagingGateway.received sampleDataRequest 0x80).WellFormed shippedGateway)
    ∧ (FrameAssemble shippedGateway [] 8
        (stagingGateway.received sampleDataRequest 0x80)).2.gFrameScheduler.frame.header.destAddr
      = [2]
    ∧ (FrameAssemble shippedGateway [] 8
        (stagingGateway.received sampleDataRequest 0x80)).2.gFrameScheduler.busy = true :=
  ⟨⟨by decide, by decide, by decide, by decide, by decide, by decide, by decide, rfl, rfl,
      by decide, by decide, by decide, by decide, by decide, by decide, by decide⟩,
    (FrameAssemble_gateway_turnaround shippedGateway [] 8
      (stagingGateway.received sampleDataRequest 0x80) stagingCallback
      [0, 72, 101, 108, 108, 111, 0, 0] 8
      (by decide) (by decide) (by decide) (by decide) (by decide) (by decide) (by decide) rfl rfl
      (by decide) (by decide) (by decide) (by decide) (by decide) (by decide)
      (by decide)).2.2.2.2.2.1,
    (FrameAssemble_gateway_turnaround shippedGateway [] 8
      (stagingGateway.received sampleDataRequest 0x80) stagingCallback
      [0, 72, 101, 108, 108, 111, 0, 0] 8
      (by decide) (by decide) (by decide) (by decide) (by decide) (by decide) (by decide) rfl rfl
      (by decide) (by decide) (by decide) (by decide) (by decide) (by decide)
      (by decide)).1⟩

/-! ## The staged data response -/

/-- C14 as stated fails: the listening sample Gateway has the response 7
staged ahead of the request by ProtocolLoadDataResponse; its completion
callback stages nothing.  When the data request of the End Point at address 2
arrives, the callback is called and the Gateway goes back to listening:
nothing is transmitted, and the staged response is gone. -/
theorem staged_ahead_counterexample :
    (ProtocolLoadDataResponse [7] 1 quietGateway).gFrameScheduler.dataResponse
      = { payload := [7], length := 1 }
    ∧ FrameGatewayValidate shippedGateway [1] [9]
        ((ProtocolLoadDataResponse [7] 1 quietGateway).received sampleDataRequest 0x80) = true
    ∧ (FrameAssemble shippedGateway [] 8
        ((ProtocolLoadDataResponse [7] 1 quietGateway).received sampleDataRequest 0x80)).2.trace
      = quietGateway.trace
          ++ [Event.frameComplete (some true) (some [1, 2, 3, 0, 0, 0, 0, 0]) 3,
            Event.phyDisable, Event.phyReceiverOn]
    ∧ (FrameAssemble shippedGateway [] 8
        ((ProtocolLoadDataResponse [7] 1 quietGateway).received sampleDataRequest
          0x80)).2.gPhyDevice.transmitting = false
    ∧ (FrameAssemble shippedGateway [] 8
        ((ProtocolLoadDataResponse [7] 1 quietGateway).received sampleDataRequest
          0x80)).2.gFrameScheduler.dataResponse = { payload := [], length := 0 } := by
  decide

/-- C14, as the code has it: on a Gateway FrameAssemble clears the staged data
response before it validates and dispatches the received frame.  A response
staged beforehand, by ProtocolLoadDataResponse outside the callback or left
from an earlier turnaround, has no effect on the handling of the next received
frame: the result is the one obtained with nothing staged, so a data request
is answered only with what the completion callback stages while it runs, and
a staged response serves one turnaround at most. -/
theorem FrameAssemble_discards_staged (cfg : Config) (payload : List Nat) (length : Nat)
    (n : Node) (R : List Nat) (k : Nat) (hrole : cfg.role = Role.gateway) :
    FrameAssemble cfg payload length (ProtocolLoadDataResponse R k n)
      = FrameAssemble cfg payload length n
    ∧ FrameAssemble cfg payload length n
      = FrameAssemble cfg payload length (FrameSetDataResponse [] 0 n) := by
  constructor
  · unfold FrameAssemble ProtocolLoadDataResponse
    simp only [hrole, FrameSetDataResponse]
  · unfold FrameAssemble
    simp only [hrole, FrameSetDataResponse]

/-- Witness of C14: staging 7 ahead on the listening sample Gateway changes
nothing of how the next data request is handled. -/
theorem FrameAssemble_discards_staged_witness :
    shippedGateway.role = Role.gateway
    ∧ FrameAssemble shippedGateway [] 8
        (ProtocolLoadDataResponse [7] 1 (stagingGateway.received sampleDataRequest 0x80))
      = FrameAssemble shippedGateway [] 8 (stagingGateway.received sampleDataRequest 0x80) :=
  ⟨by decide,
    (FrameAssemble_discards_staged shippedGateway [] 8
      (stagingGateway.received sampleDataRequest 0x80) [7] 1 (by decide)).1⟩

/-! ## Gateway link requests -/

theorem FrameGatewayValidate_mode (cfg : Config) (destPan destAddr : List Nat) (n : Node)
    (h : FrameGatewayValidate cfg destPan destAddr n = true) :
    n.gFrameScheduler.frame.header.control &&& FRAME_CONTROL_MODE
      = FRAME_CONTROL_MODE_ENDPOINT := by
  by_contra hne
  unfold FrameGatewayValidate at h
  simp only [ne_eq, hne, not_false_eq_true, if_true] at h
  cases h

/-- FrameSchedulerLinkRequest on a Gateway, for a frame in End Point mode: the
LinkRequest callback, when registered, is called once and decides; without it
the request is accepted.  An accepted request is answered by an empty Link
Request frame. -/
theorem FrameSchedulerLinkRequest_gateway (cfg : Config) (d : Node)
    (hrole : cfg.role = Role.gateway)
    (hmode : d.gFrameScheduler.frame.header.control &&& FRAME_CONTROL_MODE
      = FRAME_CONTROL_MODE_ENDPOINT) :
    (d.gFrameScheduler.LinkRequest = none →
      FrameSchedulerLinkRequest cfg d
        = (0, (FrameSend cfg eFrameType.eFrameTypeLinkRequest false [] 0 (PhyEnable d)).2))
    ∧ (∀ lr, d.gFrameScheduler.LinkRequest = some lr →
        lr d.gFrameScheduler.frame.payload d.gFrameScheduler.length = true →
        FrameSchedulerLinkRequest cfg d
          = (0, (FrameSend cfg eFrameType.eFrameTypeLinkRequest false [] 0
              (PhyEnable (d.emit (Event.linkRequest d.gFrameScheduler.frame.payload
                d.gFrameScheduler.length)))).2))
    ∧ (∀ lr, d.gFrameScheduler.LinkRequest = some lr →
        lr d.gFrameScheduler.frame.payload d.gFrameScheduler.length = false →
        FrameSchedulerLinkRequest cfg d
          = (0, d.emit (Event.linkRequest d.gFrameScheduler.frame.payload
              d.gFrameScheduler.length))) := by
  refine ⟨?_, ?_, ?_⟩
  · intro hn
    unfold FrameSchedulerLinkRequest
    simp only [hrole, hmode, if_true, hn]
  · intro lr hs ht
    unfold FrameSchedulerLinkRequest
    simp only [hrole, hmode, if_true, hs, ht]
  · intro lr hs hf
    unfold FrameSchedulerLinkRequest
    simp only [hrole, hmode, if_true, hs, hf, Bool.false_eq_true, if_false]

/-- The outcome of FrameAssemble on a Gateway when the dispatch of a Link
Request frame answers it, from a node m0 that differs from the received state
by the traced events evs only. -/
theorem FrameAssemble_linkRequest_answered (cfg : Config) (payload : List Nat) (length : Nat)
    (n m0 : Node) (evs : List Event)
    (hrole : cfg.role = Role.gateway)
    (hlen : FRAME_OVERHEAD_LENGTH cfg ≤ length)
    (hcrc : n.gPhyDevice.footerStatus &&& PROTOCOL_DATASTREAM_FOOTER_CRC ≠ 0)
    (hvalid : FrameGatewayValidate cfg n.gFrameScheduler.frame.header.panId
      n.gFrameScheduler.frame.header.destAddr n = true)
    (htype : n.gFrameScheduler.frame.header.control &&& FRAME_CONTROL_TYPE
      = eFrameType.eFrameTypeLinkRequest.toNat)
    (hdisp : FrameSchedulerLinkRequest cfg (atDispatch cfg length n)
      = (0, (FrameSend cfg eFrameType.eFrameTypeLinkRequest false [] 0 (PhyEnable m0)).2))
    (h0busy : m0.gFrameScheduler.busy = false)
    (h0reg : m0.gPhyAddressInfo = n.gPhyAddressInfo)
    (h0frame : m0.gFrameScheduler.frame = n.gFrameScheduler.frame)
    (h0tx : m0.gPhyDevice.transmitting = n.gPhyDevice.transmitting)
    (h0trace : m0.trace = n.trace ++ evs)
    (hsz : FRAME_OVERHEAD_LENGTH cfg ≤ PROTOCOL_DATASTREAM_MAX_SIZE cfg)
    (hfifo : FRAME_OVERHEAD_LENGTH cfg ≤ cfg.CC1101_TXFIFO_SIZE)
    (hmax : PROTOCOL_DATASTREAM_MAX_SIZE cfg < 256)
    (htx : n.gPhyDevice.transmitting = false) (hwf : n.WellFormed cfg) :
    (FrameAssemble cfg payload length n).1 = 0
      ∧ (FrameAssemble cfg payload length n).2.gFrameScheduler.busy = true
      ∧ (FrameAssemble cfg payload length n).2.gPhyDevice.transmitting = true
      ∧ (FrameAssemble cfg payload length n).2.trace
        = n.trace ++ evs
          ++ [Event.phyEnable,
            Event.phyTransmit
              ((FrameAssemble cfg payload length n).2.gFrameScheduler.frame.toBytes.take
                (FRAME_OVERHEAD_LENGTH cfg))
              (FRAME_OVERHEAD_LENGTH cfg)]
      ∧ sFrame.ofBytes cfg
          ((FrameAssemble cfg payload length n).2.gFrameScheduler.frame.toBytes.take
            (FRAME_OVERHEAD_LENGTH cfg))
        = { header := (FrameAssemble cfg payload length n).2.gFrameScheduler.frame.header
            payload := [] }
      ∧ (FrameAssemble cfg payload length n).2.gFrameScheduler.frame.header.destAddr
        = n.gFrameScheduler.frame.header.srcAddr
      ∧ (FrameAssemble cfg payload length n).2.gFrameScheduler.frame.header.panId
        = n.gPhyAddressInfo.local_.panId
      ∧ (FrameAssemble cfg payload length n).2.gFrameScheduler.frame.header.srcAddr
        = n.gPhyAddressInfo.local_.address
      ∧ (FrameAssemble cfg payload length n).2.gFrameScheduler.frame.header.control
          &&& FRAME_CONTROL_TYPE = eFrameType.eFrameTypeLinkRequest.toNat
      ∧ (FrameAssemble cfg payload length n).2.gFrameScheduler.frame.header.control
          &&& FRAME_CONTROL_DATA_REQ = 0
      ∧ (FrameAssemble cfg payload length n).2.gFrameScheduler.frame.header.control
          &&& FRAME_CONTROL_MODE = FRAME_CONTROL_MODE_GATEWAY
      ∧ (FrameAssemble cfg payload length n).2.gFrameScheduler.length = 0 := by
  have hv : FrameValidate cfg n = true := by
    rw [FrameValidate_gateway cfg n hrole]
    exact hvalid
  have mwf : (PhyEnable m0).WellFormed cfg := by
    unfold Node.WellFormed
    show m0.gPhyAddressInfo.local_.WellFormed cfg ∧ m0.gFrameScheduler.frame.WellFormed cfg
    rw [h0reg, h0frame]
    exact hwf
  have hrep := FrameSend_reply cfg eFrameType.eFrameTypeLinkRequest false [] 0 (PhyEnable m0)
    h0busy rfl (by omega) (by omega) (by omega) (h0tx.trans htx) mwf
  have hres : FrameAssemble cfg payload length n
      = (0, (FrameSend cfg eFrameType.eFrameTypeLinkRequest false [] 0 (PhyEnable m0)).2) := by
    rw [FrameAssemble_linkRequest cfg payload length n hlen hcrc hv htype, hdisp]
    simp only [hrep.1, Bool.not_true, Bool.false_eq_true, if_false]
  have hreg : (PhyEnable m0).gPhyAddressInfo = n.gPhyAddressInfo := h0reg
  have hframe : (PhyEnable m0).gFrameScheduler.frame = n.gFrameScheduler.frame := h0frame
  have htrace : (PhyEnable m0).trace = n.trace ++ evs ++ [Event.phyEnable] := by
    show m0.trace ++ [Event.phyEnable] = _
    rw [h0trace]
  rw [hres]
  simp only [Nat.zero_add] at hrep
  rw [hreg, hframe, htrace, hrole] at hrep
  refine ⟨rfl, hrep.1, hrep.2.1, ?_, hrep.2.2.2.2.2.1, hrep.2.2.2.2.2.2.2.2.1,
    hrep.2.2.2.2.2.2.1, hrep.2.2.2.2.2.2.2.1, hrep.2.2.2.2.2.2.2.2.2.1, ?_,
    hrep.2.2.2.2.2.2.2.2.2.2.2, hrep.2.2.2.1⟩
  · rw [hrep.2.2.2.2.1]
    simp
  · simpa using hrep.2.2.2.2.2.2.2.2.2.2.1

/-- The outcome of FrameAssemble on a Gateway when the dispatch of a Link
Request frame denies it and leaves the node m0. -/
theorem FrameAssemble_linkRequest_denied (cfg : Config) (payload : List Nat) (length : Nat)
    (n m0 : Node) (evs : List Event)
    (hrole : cfg.role = Role.gateway)
    (hlen : FRAME_OVERHEAD_LENGTH cfg ≤ length)
    (hcrc : n.gPhyDevice.footerStatus &&& PROTOCOL_DATASTREAM_FOOTER_CRC ≠ 0)
    (hvalid : FrameGatewayValidate cfg n.gFrameScheduler.frame.header.panId
      n.gFrameScheduler.frame.header.destAddr n = true)
    (htype : n.gFrameScheduler.frame.header.control &&& FRAME_CONTROL_TYPE
      = eFrameType.eFrameTypeLinkRequest.toNat)
    (hdisp : FrameSchedulerLinkRequest cfg (atDispatch cfg length n) = (0, m0))
    (h0busy : m0.gFrameScheduler.busy = false)
    (h0tx : m0.gPhyDevice.transmitting = n.gPhyDevice.transmitting)
    (h0trace : m0.trace = n.trace ++ evs)
    (htx : n.gPhyDevice.transmitting = false) :
    (FrameAssemble cfg payload length n).1 = 0
      ∧ (FrameAssemble cfg payload length n).2.gFrameScheduler.busy = true
      ∧ (FrameAssemble cfg payload length n).2.gPhyDevice.transmitting = false
      ∧ (FrameAssemble cfg payload length n).2.trace
        = n.trace ++ evs ++ [Event.phyDisable, Event.phyReceiverOn] := by
  have hv : FrameValidate cfg n = true := by
    rw [FrameValidate_gateway cfg n hrole]
    exact hvalid
  have hi := FrameIdle_idle cfg m0 h0busy
  have hres : FrameAssemble cfg payload length n = (0, FrameIdle cfg m0) := by
    rw [FrameAssemble_linkRequest cfg payload length n hlen hcrc hv htype, hdisp]
    simp only [h0busy, Bool.not_false, if_true]
  rw [hres]
  refine ⟨rfl, ?_, ?_, ?_⟩
  · show (FrameIdle cfg m0).gFrameScheduler.busy = true
    rw [hi.1, hrole]
    rfl
  · show (FrameIdle cfg m0).gPhyDevice.transmitting = false
    rw [hi.2.2.2.2, h0tx, htx]
  · show (FrameIdle cfg m0).trace = _
    rw [hi.2.2.2.1, h0trace, hrole]
    rfl

/-- C17: Gateway link request dispatch.  When a Gateway that is not
transmitting accepts the header of a Link Request frame from source S, the
request is accepted if no LinkRequest callback is registered, and otherwise
exactly when that callback, called once with the received payload and length,
returns true.  On acceptance exactly one frame is handed to the radio:
FRAME_OVERHEAD_LENGTH bytes that read as an empty Link Request frame in Gateway
mode, data request bit 0, addressed to S; the scheduler ends busy transmitting.
On denial nothing is transmitted and the Gateway arms the receiver again. -/
theorem FrameAssemble_gateway_linkRequest (cfg : Config) (payload : List Nat) (length : Nat)
    (n : Node)
    (hrole : cfg.role = Role.gateway)
    (hlen : FRAME_OVERHEAD_LENGTH cfg ≤ length)
    (hcrc : n.gPhyDevice.footerStatus &&& PROTOCOL_DATASTREAM_FOOTER_CRC ≠ 0)
    (hvalid : FrameGatewayValidate cfg n.gFrameScheduler.frame.header.panId
      n.gFrameScheduler.frame.header.destAddr n = true)
    (htype : n.gFrameScheduler.frame.header.control &&& FRAME_CONTROL_TYPE
      = eFrameType.eFrameTypeLinkRequest.toNat)
    (hbyte : length < 256)
    (hsz : FRAME_OVERHEAD_LENGTH cfg ≤ PROTOCOL_DATASTREAM_MAX_SIZE cfg)
    (hfifo : FRAME_OVERHEAD_LENGTH cfg ≤ cfg.CC1101_TXFIFO_SIZE)
    (hmax : PROTOCOL_DATASTREAM_MAX_SIZE cfg < 256)
    (htx : n.gPhyDevice.transmitting = false) (hwf : n.WellFormed cfg) :
    (n.gFrameScheduler.LinkRequest = none →
      (FrameAssemble cfg payload length n).1 = 0
      ∧ (FrameAssemble cfg payload length n).2.gFrameScheduler.busy = true
      ∧ (FrameAssemble cfg payload length n).2.gPhyDevice.transmitting = true
      ∧ (FrameAssemble cfg payload length n).2.trace
        = n.trace ++ []
          ++ [Event.phyEnable,
            Event.phyTransmit
              ((FrameAssemble cfg payload length n).2.gFrameScheduler.frame.toBytes.take
                (FRAME_OVERHEAD_LENGTH cfg))
              (FRAME_OVERHEAD_LENGTH cfg)]
      ∧ sFrame.ofBytes cfg
          ((FrameAssemble cfg payload length n).2.gFrameScheduler.frame.toBytes.take
            (FRAME_OVERHEAD_LENGTH cfg))
        = { header := (FrameAssemble cfg payload length n).2.gFrameScheduler.frame.header
            payload := [] }
      ∧ (FrameAssemble cfg payload length n).2.gFrameScheduler.frame.header.destAddr
        = n.gFrameScheduler.frame.header.srcAddr
      ∧ (FrameAssemble cfg payload length n).2.gFrameScheduler.frame.header.panId
        = n.gPhyAddressInfo.local_.panId
      ∧ (FrameAssemble cfg payload length n).2.gFrameScheduler.frame.header.srcAddr
        = n.gPhyAddressInfo.local_.address
      ∧ (FrameAssemble cfg payload length n).2.gFrameScheduler.frame.header.control
          &&& FRAME_CONTROL_TYPE = eFrameType.eFrameTypeLinkRequest.toNat
      ∧ (FrameAssemble cfg payload length n).2.gFrameScheduler.frame.header.control
          &&& FRAME_CONTROL_DATA_REQ = 0
      ∧ (FrameAssemble cfg payload length n).2.gFrameScheduler.frame.header.control
          &&& FRAME_CONTROL_MODE = FRAME_CONTROL_MODE_GATEWAY
      ∧ (FrameAssemble cfg payload length n).2.gFrameScheduler.length = 0)
    ∧ (∀ lr, n.gFrameScheduler.LinkRequest = some lr →
        lr n.gFrameScheduler.frame.payload (length - FRAME_OVERHEAD_LENGTH cfg) = true →
      (FrameAssemble cfg payload length n).1 = 0
      ∧ (FrameAssemble cfg payload length n).2.gFrameScheduler.busy = true
      ∧ (FrameAssemble cfg payload length n).2.gPhyDevice.transmitting = true
      ∧ (FrameAssemble cfg payload length n).2.trace
        = n.trace ++ [Event.linkRequest n.gFrameScheduler.frame.payload
              (length - FRAME_OVERHEAD_LENGTH cfg)]
          ++ [Event.phyEnable,
            Event.phyTransmit
              ((FrameAssemble cfg payload length n).2.gFrameScheduler.frame.toBytes.take
                (FRAME_OVERHEAD_LENGTH cfg))
              (FRAME_OVERHEAD_LENGTH cfg)]
      ∧ sFrame.ofBytes cfg
          ((FrameAssemble cfg payload length n).2.gFrameScheduler.frame.toBytes.take
            (FRAME_OVERHEAD_LENGTH cfg))
        = { header := (FrameAssemble cfg payload length n).2.gFrameScheduler.frame.header
            payload := [] }
      ∧ (FrameAssemble cfg payload length n).2.gFrameScheduler.frame.header.destAddr
        = n.gFrameScheduler.frame.header.srcAddr
      ∧ (FrameAssemble cfg payload length n).2.gFrameScheduler.frame.header.panId
        = n.gPhyAddressInfo.local_.panId
      ∧ (FrameAssemble cfg payload length n).2.gFrameScheduler.frame.header.srcAddr
        = n.gPhyAddressInfo.local_.address
      ∧ (FrameAssemble cfg payload length n).2.gFrameScheduler.frame.header.control
          &&& FRAME_CONTROL_TYPE = eFrameType.eFrameTypeLinkRequest.toNat
      ∧ (FrameAssemble cfg payload length n).2.gFrameScheduler.frame.header.control
          &&& FRAME_CONTROL_DATA_REQ = 0
      ∧ (FrameAssemble cfg payload length n).2.gFrameScheduler.frame.header.control
          &&& FRAME_CONTROL_MODE = FRAME_CONTROL_MODE_GATEWAY
      ∧ (FrameAssemble cfg payload length n).2.gFrameScheduler.length = 0)
    ∧ (∀ lr, n.gFrameScheduler.LinkRequest = some lr →
        lr n.gFrameScheduler.frame.payload (length - FRAME_OVERHEAD_LENGTH cfg) = false →
      (FrameAssemble cfg payload length n).1 = 0
      ∧ (FrameAssemble cfg payload length n).2.gFrameScheduler.busy = true
      ∧ (FrameAssemble cfg payload length n).2.gPhyDevice.transmitting = false
      ∧ (FrameAssemble cfg payload length n).2.trace
        = n.trace ++ [Event.linkRequest n.gFrameScheduler.frame.payload
              (length - FRAME_OVERHEAD_LENGTH cfg)] ++ [Event.phyDisable, Event.phyReceiverOn]) := by
  have had := atDispatch_fields cfg length n
  have hmod : (length - FRAME_OVERHEAD_LENGTH cfg) % 256 = length - FRAME_OVERHEAD_LENGTH cfg :=
    Nat.mod_eq_of_lt (by omega)
  have hlen' : (atDispatch cfg length n).gFrameScheduler.length
      = length - FRAME_OVERHEAD_LENGTH cfg := by
    rw [had.2.2.2.1, hmod]
  have hmode : (atDispatch cfg length n).gFrameScheduler.frame.header.control
      &&& FRAME_CONTROL_MODE = FRAME_CONTROL_MODE_ENDPOINT := by
    rw [had.2.1]
    exact FrameGatewayValidate_mode cfg _ _ n hvalid
  have hd := FrameSchedulerLinkRequest_gateway cfg (atDispatch cfg length n) hrole hmode
  rw [had.2.2.2.2.2.1, had.2.1, hlen'] at hd
  refine ⟨?_, ?_, ?_⟩
  · intro hn
    have h := FrameAssemble_linkRequest_answered cfg payload length n (atDispatch cfg length n) []
      hrole hlen hcrc hvalid htype (hd.1 hn) had.2.2.1 had.1 had.2.1
      (by rw [had.2.2.2.2.2.2.2.1]) (by rw [had.2.2.2.2.2.2.2.2]; simp) hsz hfifo hmax htx hwf
    simpa using h
  · intro lr hs ht
    exact FrameAssemble_linkRequest_answered cfg payload length n
      ((atDispatch cfg length n).emit (Event.linkRequest n.gFrameScheduler.frame.payload
        (length - FRAME_OVERHEAD_LENGTH cfg)))
      [Event.linkRequest n.gFrameScheduler.frame.payload (length - FRAME_OVERHEAD_LENGTH cfg)]
      hrole hlen hcrc hvalid htype (hd.2.1 lr hs ht) had.2.2.1 had.1 had.2.1
      (by show (atDispatch cfg length n).gPhyDevice.transmitting = _; rw [had.2.2.2.2.2.2.2.1])
      (by show (atDispatch cfg length n).trace ++ _ = _; rw [had.2.2.2.2.2.2.2.2])
      hsz hfifo hmax htx hwf
  · intro lr hs hf
    exact FrameAssemble_linkRequest_denied cfg payload length n
      ((atDispatch cfg length n).emit (Event.linkRequest n.gFrameScheduler.frame.payload
        (length - FRAME_OVERHEAD_LENGTH cfg)))
      [Event.linkRequest n.gFrameScheduler.frame.payload (length - FRAME_OVERHEAD_LENGTH cfg)]
      hrole hlen hcrc hvalid htype (hd.2.2 lr hs hf) had.2.2.1
      (by show (atDispatch cfg length n).gPhyDevice.transmitting = _; rw [had.2.2.2.2.2.2.2.1])
      (by show (atDispatch cfg length n).trace ++ _ = _; rw [had.2.2.2.2.2.2.2.2])
      htx

/-- Witness of C17: the listening sample Gateway, without LinkRequest callback,
answers the Link Request of the End Point at address 2. -/
theorem FrameAssemble_gateway_linkRequest_witness :
    (shippedGateway.role = Role.gateway
      ∧ FRAME_OVERHEAD_LENGTH shippedGateway ≤ 5
      ∧ (quietGateway.received sampleLinkRequest 0x80).gPhyDevice.footerStatus
          &&& PROTOCOL_DATASTREAM_FOOTER_CRC ≠ 0
      ∧ FrameGatewayValidate shippedGateway [0] [0]
          (quietGateway.received sampleLinkRequest 0x80) = true
      ∧ (quietGateway.received sampleLinkRequest 0x80).gFrameScheduler.frame.header.control
          &&& FRAME_CONTROL_TYPE = eFrameType.eFrameTypeLinkRequest.toNat
      ∧ 5 < 256
      ∧ FRAME_OVERHEAD_LENGTH shippedGateway ≤ PROTOCOL_DATASTREAM_MAX_SIZE shippedGateway
      ∧ FRAME_OVERHEAD_LENGTH shippedGateway ≤ shippedGateway.CC1101_TXFIFO_SIZE
      ∧ PROTOCOL_DATASTREAM_MAX_SIZE shippedGateway < 256
      ∧ (quietGateway.received sampleLinkRequest 0x80).gPhyDevice.transmitting = false
      ∧ (quietGateway.received sampleLinkRequest 0x80).WellFormed shippedGateway
      ∧ (quietGateway.received sampleLinkRequest 0x80).gFrameScheduler.LinkRequest = none)
    ∧ (FrameAssemble shippedGateway [] 5
        (quietGateway.received sampleLinkRequest 0x80)).2.gFrameScheduler.busy = true
    ∧ (FrameAssemble shippedGateway [] 5
        (quietGateway.received sampleLinkRequest 0x80)).2.gFrameScheduler.frame.header.destAddr
      = [2] :=
  ⟨⟨by decide, by decide, by decide, by decide, by decide, by decide, by decide, by decide,
      by decide, by decide, by decide, rfl⟩,
    ((FrameAssemble_gateway_linkRequest shippedGateway [] 5
      (quietGateway.received sampleLinkRequest 0x80)
      (by decide) (by decide) (by decide) (by decide) (by decide) (by decide) (by decide)
      (by decide) (by decide) (by decide) (by decide)).1 rfl).2.1,
    ((FrameAssemble_gateway_linkRequest shippedGateway [] 5
      (quietGateway.received sampleLinkRequest 0x80)
      (by decide) (by decide) (by decide) (by decide) (by decide) (by decide) (by decide)
      (by decide) (by decide) (by decide) (by decide)).1 rfl).2.2.2.2.2.1⟩

/-! ## Link operations, the PAN id and the backup hook -/

/-- C21: on an End Point, PhyAddressLinkEstablish(p, r) leaves the PAN id of the
registry unchanged, whatever p is, when fixed is set, and stores p when fixed is
clear; the fixed flag and the local address are unchanged in both cases.  The
fixed flag is set by PhyAddressInit exactly when the PAN id it is given is not
the broadcast value, so after such an Init the PAN id survives every
PhyAddressLinkEstablish. -/
theorem PhyAddressLinkEstablish_panId (cfg : Config) (p r : List Nat) (n : Node)
    (hrole : cfg.role = Role.endPoint)
    (hwf : n.gPhyAddressInfo.local_.WellFormed cfg) :
    (n.gPhyAddressInfo.local_.fixed = true →
      (PhyAddressLinkEstablish cfg p r n).gPhyAddressInfo.local_.panId
        = n.gPhyAddressInfo.local_.panId)
    ∧ (n.gPhyAddressInfo.local_.fixed = false →
        p.length = cfg.PROTOCOL_PHYADDRESS_PANID_SIZE →
        (PhyAddressLinkEstablish cfg p r n).gPhyAddressInfo.local_.panId = p)
    ∧ (PhyAddressLinkEstablish cfg p r n).gPhyAddressInfo.local_.fixed
        = n.gPhyAddressInfo.local_.fixed
    ∧ (PhyAddressLinkEstablish cfg p r n).gPhyAddressInfo.local_.address
        = n.gPhyAddressInfo.local_.address
    ∧ (∀ (pan addr : List Nat) (b : Bool),
        PhyAddressIsBroadcast pan cfg.PROTOCOL_PHYADDRESS_PANID_SIZE = false →
        (PhyAddressInit cfg pan addr b n).gPhyAddressInfo.local_.fixed = true
        ∧ (PhyAddressLinkEstablish cfg p r
            (PhyAddressInit cfg pan addr b n)).gPhyAddressInfo.local_.panId
          = (PhyAddressInit cfg pan addr b n).gPhyAddressInfo.local_.panId) := by
  obtain ⟨wp, _, _⟩ := hwf
  have hl := PhyAddressLinkEstablish_local cfg p r n hrole
  refine ⟨?_, ?_, ?_, ?_, ?_⟩
  · intro hf
    rw [hl]
    simp [hf]
  · intro hf hp
    rw [hl]
    simp only [hf]
    exact memcpy_exact _ _ _ wp hp
  · rw [hl]
  · rw [hl]
  · intro pan addr b hb
    have hi := PhyAddressInit_local cfg pan addr b n hrole
    have hfix : (PhyAddressInit cfg pan addr b n).gPhyAddressInfo.local_.fixed = true := by
      rw [hi]
      simp [hb]
    refine ⟨hfix, ?_⟩
    rw [PhyAddressLinkEstablish_local cfg p r _ hrole]
    simp [hfix]

/-- Witness of C21: the sample End Point, whose PAN id is not fixed, adopts PAN
id 7; the End Point initialised with PAN id 1 keeps it. -/
theorem PhyAddressLinkEstablish_panId_witness :
    (shippedEndPoint.role = Role.endPoint
      ∧ sampleEndPoint.gPhyAddressInfo.local_.WellFormed shippedEndPoint
      ∧ sampleEndPoint.gPhyAddressInfo.local_.fixed = false
      ∧ [7].length = shippedEndPoint.PROTOCOL_PHYADDRESS_PANID_SIZE)
    ∧ (PhyAddressLinkEstablish shippedEndPoint [7] [9]
        sampleEndPoint).gPhyAddressInfo.local_.panId = [7]
    ∧ (PhyAddressLinkEstablish shippedEndPoint [7] [9]
        sampleEndPoint).gPhyAddressInfo.local_.address = [2] :=
  ⟨⟨by decide, by decide, by decide, by decide⟩,
    (PhyAddressLinkEstablish_panId shippedEndPoint [7] [9] sampleEndPoint
      (by decide) (by decide)).2.1 (by decide) (by decide),
    (PhyAddressLinkEstablish_panId shippedEndPoint [7] [9] sampleEndPoint
      (by decide) (by decide)).2.2.2.1⟩

/-- The radio commands and hook calls of PhyAddressLinkDestroy on an End Point:
the address filter is disabled unless the PAN id is fixed, and then, when a
backup hook is registered, it is called once, in write mode, with the record
as just updated. -/
theorem PhyAddressLinkDestroy_trace (cfg : Config) (n : Node)
    (hrole : cfg.role = Role.endPoint) :
    (PhyAddressLinkDestroy cfg n).trace
      = n.trace
        ++ (if n.gPhyAddressInfo.local_.fixed then [] else [Event.phyDisableAddressFilter])
        ++ (if n.gPhyAddressInfo.Backup then
              [Event.backup false
                (PhyAddressLinkDestroy cfg n).gPhyAddressInfo.local_.toBytes
                ((sizeofPhyAddressLocal cfg / sizeofPhyAddressInfo cfg) % 256)]
            else []) := by
  unfold PhyAddressLinkDestroy
  simp only [hrole]
  cases hf : n.gPhyAddressInfo.local_.fixed <;> cases hb : n.gPhyAddressInfo.Backup <;>
    simp [PhyAddressBackupWrite, PhyDisableAddressFilter, Node.emit, hf, hb]

/-- The quotient sizeof(local) / sizeof(struct sPhyAddressInfo) is zero: the
structure holds the local record and, after it, a function pointer. -/
theorem backup_size_zero (cfg : Config) (hw : 0 < cfg.sizeofFunctionPointer) :
    sizeofPhyAddressLocal cfg / sizeofPhyAddressInfo cfg = 0 := by
  apply Nat.div_eq_of_lt
  unfold sizeofPhyAddressInfo
  simp only
  have h := Nat.div_add_mod (sizeofPhyAddressLocal cfg + cfg.sizeofFunctionPointer - 1)
    cfg.sizeofFunctionPointer
  have hr := Nat.mod_lt (sizeofPhyAddressLocal cfg + cfg.sizeofFunctionPointer - 1) hw
  have hc := Nat.mul_comm cfg.sizeofFunctionPointer
    ((sizeofPhyAddressLocal cfg + cfg.sizeofFunctionPointer - 1) / cfg.sizeofFunctionPointer)
  rw [hc] at h
  generalize (sizeofPhyAddressLocal cfg + cfg.sizeofFunctionPointer - 1)
    / cfg.sizeofFunctionPointer * cfg.sizeofFunctionPointer = t at h ⊢
  omega

/-- C22 fails on the code.  On the shipped End Point (PAN id and addresses of 1
byte, so a local record of 4 bytes) with a backup hook registered, each of
PhyAddressLinkEstablish and PhyAddressLinkDestroy calls the hook once, in write
mode, after the update and with the updated record, but the size it passes is
sizeof(local) / sizeof(struct sPhyAddressInfo) = 4 / 6 = 0, not the 4 bytes of
the record. -/
theorem backup_hook_size_is_zero :
    sizeofPhyAddressLocal shippedEndPoint = 4
    ∧ backedEndPoint.gPhyAddressInfo.Backup = true
    ∧ (PhyAddressLinkEstablish shippedEndPoint [7] [9] backedEndPoint).trace
      = backedEndPoint.trace
          ++ [Event.phyEnableAddressFilter 7, Event.backup false [0, 7, 2, 9] 0]
    ∧ (PhyAddressLinkEstablish shippedEndPoint [7] [9]
        backedEndPoint).gPhyAddressInfo.local_.toBytes = [0, 7, 2, 9]
    ∧ (PhyAddressLinkDestroy shippedEndPoint
        (PhyAddressLinkEstablish shippedEndPoint [7] [9] backedEndPoint)).trace
      = (PhyAddressLinkEstablish shippedEndPoint [7] [9] backedEndPoint).trace
          ++ [Event.phyDisableAddressFilter, Event.backup false [0, 0, 2, 0] 0] := by
  decide

/-! ## Protocol operations of the End Point -/

/-- A FrameSend made while the scheduler is busy changes nothing. -/
theorem FrameSend_of_busy (cfg : Config) (type : eFrameType) (dataRequest : Bool)
    (payload : List Nat) (k : Nat) (m : Node) (hbusy : m.gFrameScheduler.busy = true) :
    FrameSend cfg type dataRequest payload k m = (false, m) := by
  unfold FrameSend
  simp [hbusy]

/-- What an accepted FrameSend found: the scheduler not busy, a frame that fits
the data stream and the TX FIFO, and no transmission in flight. -/
theorem FrameSend_accepted_inv (cfg : Config) (type : eFrameType) (dataRequest : Bool)
    (payload : List Nat) (k : Nat) (m : Node)
    (hacc : (FrameSend cfg type dataRequest payload k m).1 = true) :
    m.gFrameScheduler.busy = false
    ∧ k + FRAME_OVERHEAD_LENGTH cfg ≤ PROTOCOL_DATASTREAM_MAX_SIZE cfg
    ∧ (k + FRAME_OVERHEAD_LENGTH cfg) % 256 ≤ cfg.CC1101_TXFIFO_SIZE
    ∧ m.gPhyDevice.transmitting = false := by
  cases hb : m.gFrameScheduler.busy
  · by_cases hsz : k + FRAME_OVERHEAD_LENGTH cfg ≤ PROTOCOL_DATASTREAM_MAX_SIZE cfg
    · by_cases hp : (PhyTransmit cfg
          (FrameBuild cfg type dataRequest payload k m).gFrameScheduler.frame.toBytes
          ((k + FRAME_OVERHEAD_LENGTH cfg) % 256)
          (FrameBuild cfg type dataRequest payload k m)).1 = true
      · have h := (PhyTransmit_accepts_iff cfg _ _ _).mp hp
        exact ⟨rfl, hsz, h.1, h.2⟩
      · exfalso
        unfold FrameSend at hacc
        simp [hb, hsz, hp] at hacc
    · exfalso
      unfold FrameSend at hacc
      simp [hb, hsz] at hacc
  · rw [FrameSend_of_busy cfg type dataRequest payload k m hb] at hacc
    cases hacc

/-- C24: ProtocolTransfer requires a link.  With no link it returns false and
leaves the node as it was: no frame built, the sequence counter not advanced,
nothing handed to the radio, busy unchanged.  With a link it returns what
FrameSend(eFrameTypeData, true, txData, txLength) returns, and leaves the state
that call leaves; when that is true, one frame has been handed to the radio, a
Data frame with the data request bit set, carrying txData and addressed to the
remote address of the link. -/
theorem ProtocolTransfer_requires_link (cfg : Config) (txData : List Nat) (txLength : Nat)
    (n : Node) (hrole : cfg.role = Role.endPoint) :
    (PhyAddressLinkExists cfg n = false →
      ProtocolTransfer cfg txData txLength n = (false, n))
    ∧ (PhyAddressLinkExists cfg n = true →
        ProtocolTransfer cfg txData txLength n
          = FrameSend cfg eFrameType.eFrameTypeData true txData txLength n)
    ∧ (PhyAddressLinkExists cfg n = true →
        (ProtocolTransfer cfg txData txLength n).1 = true →
        n.WellFormed cfg → txData.length = txLength →
        PROTOCOL_DATASTREAM_MAX_SIZE cfg < 256 →
        (ProtocolTransfer cfg txData txLength n).2.trace
          = n.trace ++ [Event.phyTransmit
              ((ProtocolTransfer cfg txData txLength n).2.gFrameScheduler.frame.toBytes.take
                (txLength + FRAME_OVERHEAD_LENGTH cfg))
              (txLength + FRAME_OVERHEAD_LENGTH cfg)]
        ∧ sFrame.ofBytes cfg
            ((ProtocolTransfer cfg txData txLength n).2.gFrameScheduler.frame.toBytes.take
              (txLength + FRAME_OVERHEAD_LENGTH cfg))
          = { header := (ProtocolTransfer cfg txData txLength n).2.gFrameScheduler.frame.header
              payload := txData }
        ∧ (ProtocolTransfer cfg txData txLength n).2.gFrameScheduler.frame.header.control
            &&& FRAME_CONTROL_TYPE = eFrameType.eFrameTypeData.toNat
        ∧ (ProtocolTransfer cfg txData txLength n).2.gFrameScheduler.frame.header.control
            &&& FRAME_CONTROL_DATA_REQ = FRAME_CONTROL_DATA_REQ
        ∧ (ProtocolTransfer cfg txData txLength n).2.gFrameScheduler.frame.header.destAddr
          = n.gPhyAddressInfo.local_.remote
        ∧ n.gPhyAddressInfo.local_.remote
          ≠ List.replicate cfg.PROTOCOL_PHYADDRESS_ADDRESS_SIZE PHY_ADDRESS_BROADCAST) := by
  have heq : PhyAddressLinkExists cfg n = true →
      ProtocolTransfer cfg txData txLength n
        = FrameSend cfg eFrameType.eFrameTypeData true txData txLength n := by
    intro hl
    unfold ProtocolTransfer
    simp only [hl, if_true]
    rcases hr : FrameSend cfg eFrameType.eFrameTypeData true txData txLength n with ⟨b, m⟩
    cases b <;> simp
  refine ⟨?_, heq, ?_⟩
  · intro hl
    unfold ProtocolTransfer
    simp [hl]
  · intro hl hacc hwf hP hmax
    rw [heq hl] at hacc ⊢
    obtain ⟨hb, hsz, hfm, htx⟩ := FrameSend_accepted_inv cfg _ _ _ _ _ hacc
    have hmod : txLength + FRAME_OVERHEAD_LENGTH cfg < 256 := by omega
    have hfifo : txLength + FRAME_OVERHEAD_LENGTH cfg ≤ cfg.CC1101_TXFIFO_SIZE := by
      rw [Nat.mod_eq_of_lt hmod] at hfm
      exact hfm
    have h := FrameSend_reply cfg eFrameType.eFrameTypeData true txData txLength n
      hb hP hsz hfifo hmod htx hwf
    obtain ⟨_, _, _, _, htr, hparse, _, _, hdest, htype, hreq, _⟩ := h
    refine ⟨htr, hparse, htype, ?_, ?_, ?_⟩
    · simpa using hreq
    · rw [hdest]
      simp [hrole]
    · intro he
      have := (PhyAddressLinkExists_eq_false_iff cfg n hwf.1.2.2).mpr he
      rw [hl] at this
      cases this

/-- Witness of C24: the linked sample End Point transfers three bytes to the
Gateway at address 9; the unlinked one is refused and left as it was. -/
theorem ProtocolTransfer_requires_link_witness :
    (shippedEndPoint.role = Role.endPoint
      ∧ PhyAddressLinkExists shippedEndPoint linkedEndPoint = true
      ∧ PhyAddressLinkExists shippedEndPoint sampleEndPoint = false
      ∧ (ProtocolTransfer shippedEndPoint [1, 2, 3] 3 linkedEndPoint).1 = true
      ∧ linkedEndPoint.WellFormed shippedEndPoint
      ∧ [1, 2, 3].length = 3
      ∧ PROTOCOL_DATASTREAM_MAX_SIZE shippedEndPoint < 256)
    ∧ ProtocolTransfer shippedEndPoint [1, 2, 3] 3 sampleEndPoint = (false, sampleEndPoint)
    ∧ (ProtocolTransfer shippedEndPoint [1, 2, 3] 3
        linkedEndPoint).2.gFrameScheduler.frame.header.destAddr = [9]
    ∧ (ProtocolTransfer shippedEndPoint [1, 2, 3] 3
        linkedEndPoint).2.gFrameScheduler.frame.header.control
          &&& FRAME_CONTROL_DATA_REQ = FRAME_CONTROL_DATA_REQ :=
  ⟨⟨by decide, by decide, by decide, by decide, by decide, by decide, by decide⟩,
    (ProtocolTransfer_requires_link shippedEndPoint [1, 2, 3] 3 sampleEndPoint
      (by decide)).1 (by decide),
    ((ProtocolTransfer_requires_link shippedEndPoint [1, 2, 3] 3 linkedEndPoint
      (by decide)).2.2 (by decide) (by decide) (by decide) (by decide) (by decide)).2.2.2.2.1,
    ((ProtocolTransfer_requires_link shippedEndPoint [1, 2, 3] 3 linkedEndPoint
      (by decide)).2.2 (by decide) (by decide) (by decide) (by decide) (by decide)).2.2.2.1⟩

/-! ## The Gateway is always receptive -/

/-- On a Gateway FrameListen leaves the scheduler busy, whether it arms the
receiver or finds the scheduler busy already. -/
theorem FrameListen_busy (cfg : Config) (n : Node) :
    (FrameListen cfg n).2.gFrameScheduler.busy = true := by
  cases hb : n.gFrameScheduler.busy
  · exact (FrameListen_arms cfg n hb).2.1 ▸ rfl
  · unfold FrameListen
    simp [hb]

/-- The idle policy of a Gateway leaves the scheduler busy. -/
theorem FrameIdle_gateway_busy (cfg : Config) (n : Node) (hrole : cfg.role = Role.gateway) :
    (FrameIdle cfg n).gFrameScheduler.busy = true := by
  unfold FrameIdle
  simp only [hrole]
  exact FrameListen_busy cfg (PhyDisable n)

/-- C27: a Gateway is always receptive.  After FrameInit, and after each of the
scheduler handlers FrameAssemble (for any received length, frame and status),
FrameDisassemble and FrameTimeout, run from any state, the busy flag is true.
The three handlers clear busy first, so the listen of the idle policy they end
with is accepted: unless FrameAssemble leaves a transmission in flight, the
last radio command is the receiver being switched on. -/
theorem gateway_always_busy (cfg : Config) (n : Node) (hrole : cfg.role = Role.gateway) :
    (∀ fc lr, (FrameInit cfg fc lr n).gFrameScheduler.busy = true)
    ∧ (∀ payload length, (FrameAssemble cfg payload length n).2.gFrameScheduler.busy = true)
    ∧ (FrameDisassemble cfg n).2.gFrameScheduler.busy = true
    ∧ (FrameTimeout cfg n).2.gFrameScheduler.busy = true
    ∧ (FrameTimeout cfg n).2.trace = n.trace ++ [Event.phyDisable, Event.phyReceiverOn]
    ∧ (n.gFrameScheduler.busy = false → ∀ fc lr,
        (FrameInit cfg fc lr n).trace = n.trace ++ [Event.phyDisable, Event.phyReceiverOn]) := by
  refine ⟨?_, ?_, ?_, ?_, ?_, ?_⟩
  · intro fc lr
    unfold FrameInit
    exact FrameIdle_gateway_busy cfg _ hrole
  · intro payload length
    unfold FrameAssemble
    simp only [hrole]
    split_ifs <;> first
      | exact FrameIdle_gateway_busy cfg _ hrole
      | simp_all
  · unfold FrameDisassemble
    simp only
    split
    · exact FrameListen_busy cfg _
    · split
      · exact FrameIdle_gateway_busy cfg _ hrole
      · exact FrameIdle_gateway_busy cfg _ hrole
  · unfold FrameTimeout
    exact FrameIdle_gateway_busy cfg _ hrole
  · unfold FrameTimeout
    have h := FrameIdle_idle cfg
      { n with gFrameScheduler := { n.gFrameScheduler with busy := false } } rfl
    rw [h.2.2.2.1, hrole]
    rfl
  · intro hb fc lr
    unfold FrameInit
    simp only [hrole]
    have h := FrameIdle_idle cfg
      { n with gFrameScheduler :=
          { n.gFrameScheduler with FrameComplete := fc, LinkRequest := lr } } hb
    rw [h.2.2.2.1, hrole]
    rfl

/-- Witness of C27: the sample Gateway is busy after FrameInit, after a frame
with a failed CRC, after a transmit completion and after a timeout. -/
theorem gateway_always_busy_witness :
    shippedGateway.role = Role.gateway
    ∧ (FrameInit shippedGateway (some quietCallback) none sampleGateway).gFrameScheduler.busy
      = true
    ∧ (FrameAssemble shippedGateway [] 5
        (quietGateway.received sampleDataFrame 0)).2.gFrameScheduler.busy = true
    ∧ (FrameDisassemble shippedGateway quietGateway).2.gFrameScheduler.busy = true
    ∧ (FrameTimeout shippedGateway quietGateway).2.gFrameScheduler.busy = true :=
  ⟨by decide,
    (gateway_always_busy shippedGateway sampleGateway (by decide)).1 (some quietCallback) none,
    (gateway_always_busy shippedGateway (quietGateway.received sampleDataFrame 0)
      (by decide)).2.1 [] 5,
    (gateway_always_busy shippedGateway quietGateway (by decide)).2.2.1,
    (gateway_always_busy shippedGateway quietGateway (by decide)).2.2.2.1⟩

/-! ## The data request bit of Gateway frames -/

/-- C29 fails on the code.  The sample Gateway, whose completion callback stages
an eight byte response, receives a Data frame with the data request bit set
from the End Point at address 2.  FrameSchedulerData passes the data request
indicator of the received frame on to FrameSend, so the response handed to the
radio has control byte 0x03: Data type, Gateway mode, data request bit set.
When its transmission completes, FrameDisassemble takes the branch of a frame
that requests data: the receiver is switched on and the completion callback is
not called.  The Link Request answer of the same Gateway has the bit clear
(control byte 0x41), and the completion of its transmission is reported to the
callback. -/
theorem gateway_response_requests_data :
    (FrameAssemble shippedGateway [] 8
        (stagingGateway.received sampleDataRequest 0x80)).2.trace
      = stagingGateway.trace
          ++ [Event.frameComplete (some true) (some [1, 2, 3, 0, 0, 0, 0, 0]) 3,
              Event.phyEnable,
              Event.phyTransmit [1, 2, 9, 0x03, 0, 0, 72, 101, 108, 108, 111, 0, 0] 13]
    ∧ (FrameAssemble shippedGateway [] 8
        (stagingGateway.received sampleDataRequest 0x80)).2.gFrameScheduler.frame.header.control
          &&& FRAME_CONTROL_DATA_REQ = FRAME_CONTROL_DATA_REQ
    ∧ (PhySyncEopIsr shippedGateway true []
        (FrameAssemble shippedGateway [] 8
          (stagingGateway.received sampleDataRequest 0x80)).2).2.trace
      = (FrameAssemble shippedGateway [] 8
          (stagingGateway.received sampleDataRequest 0x80)).2.trace
          ++ [Event.phyDisable, Event.phyReceiverOn, Event.phyEnable]
    ∧ (FrameAssemble shippedGateway [] 5
        (stagingGateway.received sampleLinkRequest 0x80)).2.trace
      = stagingGateway.trace ++ [Event.phyEnable, Event.phyTransmit [1, 2, 9, 0x41, 0] 5]
    ∧ (PhySyncEopIsr shippedGateway true []
        (FrameAssemble shippedGateway [] 5
          (stagingGateway.received sampleLinkRequest 0x80)).2).2.trace
      = (FrameAssemble shippedGateway [] 5
          (stagingGateway.received sampleLinkRequest 0x80)).2.trace
          ++ [Event.phyDisable, Event.frameComplete (some false) none 0, Event.phyDisable,
              Event.phyReceiverOn, Event.phyEnable] := by
  decide

/-! ## The receive timeout -/

/-- The compare value PhyCalculateRxTimeout stores, in closed form: the first
assignment, of the preamble and sync bits, is overwritten by the second. -/
theorem PhyCalculateRxTimeout_compare (cfg : Config) (baudRate scaleFactor : Nat) (n : Node) :
    (PhyCalculateRxTimeout cfg baudRate scaleFactor n).gPhyDevice.rxTimeout.compare
      = ((((cfg.PHY_MAX_TXFIFO_SIZE * 8) % 2 ^ 32 * (1000 / baudRate)) % 2 ^ 32 / scaleFactor
            + 1) % 2 ^ 32 * 4) % 2 ^ 32 := by
  have hlt : ((cfg.PHY_MAX_TXFIFO_SIZE * 8) % 2 ^ 32 * (1000 / baudRate)) % 2 ^ 32 / scaleFactor
      < 2 ^ 32 :=
    Nat.lt_of_le_of_lt (Nat.div_le_self _ _) (Nat.mod_lt _ (by norm_num))
  unfold PhyCalculateRxTimeout storeRxTimeoutCompare
  simp only [Nat.shiftLeft_eq]
  rw [Nat.mod_eq_of_lt hlt]

/-- PhyCalculateRxTimeout changes nothing but the compare value. -/
theorem PhyCalculateRxTimeout_keeps (cfg : Config) (baudRate scaleFactor : Nat) (n : Node) :
    PhyCalculateRxTimeout cfg baudRate scaleFactor n
      = { n with gPhyDevice :=
            { n.gPhyDevice with rxTimeout :=
                { n.gPhyDevice.rxTimeout with
                  compare :=
                    (PhyCalculateRxTimeout cfg baudRate scaleFactor
                      n).gPhyDevice.rxTimeout.compare } } } := by
  unfold PhyCalculateRxTimeout storeRxTimeoutCompare
  rfl

/-- C30 fails on the code.  With a 64 byte FIFO: for 1.2 kBaud, stored as 12
with scale factor 100, the 576 bits of preamble, sync and full buffer take
480 ms, which doubled is 960 ticks, and the code stores 1700; the value stored
is a function of the FIFO size alone, the (4 + 4) * 8 preamble and sync bits
having been overwritten; and for 115.2 kBaud, stored as 1152 with scale factor
100, the integer quotient 1000 / 1152 is 0 and the code stores 4 ticks, less
than the 512000 / 115200 ms a full buffer takes. -/
theorem PhyCalculateRxTimeout_differs_from_documentation :
    (PhyCalculateRxTimeout timeoutEndPoint 12 100
        (Node.zero timeoutEndPoint)).gPhyDevice.rxTimeout.compare = 1700
    ∧ documentedRxTimeout timeoutEndPoint 12 100 = 960
    ∧ (∀ (baudRate scaleFactor : Nat) (n : Node),
        (PhyCalculateRxTimeout timeoutEndPoint baudRate scaleFactor n).gPhyDevice.rxTimeout.compare
          = ((512 * (1000 / baudRate)) % 2 ^ 32 / scaleFactor + 1) % 2 ^ 32 * 4 % 2 ^ 32)
    ∧ (PhyCalculateRxTimeout timeoutEndPoint 1152 100
        (Node.zero timeoutEndPoint)).gPhyDevice.rxTimeout.compare = 4
    ∧ 4 * (1152 * 100) < timeoutEndPoint.PHY_MAX_TXFIFO_SIZE * 8 * 1000 := by
  refine ⟨by decide, by decide, ?_, by decide, by decide⟩
  intro baudRate scaleFactor n
  rw [PhyCalculateRxTimeout_compare]
  rfl

/-- With no generic timer callback registered the tail of the timer interrupt
returns 0 and changes nothing. -/
theorem PhyTimerGeneric_none (cfg : Config) (n : Node) (h : n.gPhyDevice.Generic = none) :
    PhyTimerGeneric cfg n = (0, n) := by
  unfold PhyTimerGeneric
  rw [h]

/-- A generic timer callback other than FrameTimeout leaves the node alone. -/
theorem PhyTimerGeneric_node (cfg : Config) (n : Node)
    (h : n.gPhyDevice.Generic ≠ some TimerCallback.frameTimeout) :
    (PhyTimerGeneric cfg n).2 = n := by
  unfold PhyTimerGeneric
  cases hg : n.gPhyDevice.Generic with
  | none => rfl
  | some cb =>
    cases cb with
    | frameTimeout => exact absurd hg h
    | application status => rfl

/-- A tick with the receive timeout disabled, or in a build without it, only
services the generic timer. -/
theorem PhyTimerIsr_disabled (cfg : Config) (n : Node)
    (h : n.gPhyDevice.rxTimeout.enable = false) : PhyTimerIsr cfg n = PhyTimerGeneric cfg n := by
  unfold PhyTimerIsr
  simp [h]

/-- A tick that finds the enabled counter above 1 decrements it and services
the generic timer. -/
theorem PhyTimerIsr_counting (cfg : Config) (n : Node) (c : Nat)
    (hcfg : cfg.role = Role.endPoint ∧ cfg.PROTOCOL_USE_RX_TIMEOUT = true)
    (hen : n.gPhyDevice.rxTimeout.enable = true)
    (hc : n.gPhyDevice.rxTimeout.counter = c) (h2 : 2 ≤ c) (h32 : c < 2 ^ 32) :
    PhyTimerIsr cfg n = PhyTimerGeneric cfg (n.withRxCounter (c - 1)) := by
  have hdec : (c + (2 ^ 32 - 1)) % 2 ^ 32 = c - 1 := by
    have e : c + (2 ^ 32 - 1) = (c - 1) + 2 ^ 32 := by omega
    rw [e, Nat.add_mod_right]
    exact Nat.mod_eq_of_lt (by omega)
  have hne : c - 1 ≠ 0 := by omega
  unfold PhyTimerIsr
  rw [if_pos hcfg, if_pos hen]
  simp only [hc, hdec, if_neg hne]
  rfl

theorem PhyTimerDisableRxTimeout_callbacks (n : Node) :
    (PhyTimerDisableRxTimeout n).gPhyDevice.RxTimeout = n.gPhyDevice.RxTimeout
    ∧ (PhyTimerDisableRxTimeout n).gPhyDevice.Generic = n.gPhyDevice.Generic := by
  unfold PhyTimerDisableRxTimeout PhyTimerStop
  cases n.gPhyDevice.timerRunning <;> exact ⟨rfl, rfl⟩

/-- The tick that finds the enabled counter at 1 disables the timeout and then
consults the receive timeout callback. -/
theorem PhyTimerIsr_at_one (cfg : Config) (n : Node)
    (hcfg : cfg.role = Role.endPoint ∧ cfg.PROTOCOL_USE_RX_TIMEOUT = true)
    (hen : n.gPhyDevice.rxTimeout.enable = true)
    (hc : n.gPhyDevice.rxTimeout.counter = 1) :
    PhyTimerIsr cfg n
      = (match n.gPhyDevice.RxTimeout with
          | some RxTimeout => RxTimeout.call cfg (PhyTimerDisableRxTimeout (n.withRxCounter 0))
          | none => PhyTimerGeneric cfg (PhyTimerDisableRxTimeout (n.withRxCounter 0))) := by
  have hz : (1 + (2 ^ 32 - 1)) % 2 ^ 32 = 0 := by norm_num
  have hcb : (PhyTimerDisableRxTimeout (n.withRxCounter 0)).gPhyDevice.RxTimeout
      = n.gPhyDevice.RxTimeout := (PhyTimerDisableRxTimeout_callbacks _).1
  rw [← hcb]
  unfold PhyTimerIsr
  rw [if_pos hcfg, if_pos hen]
  simp only [hc, hz, if_true]
  rfl

/-- The tick that finds the enabled counter at 1, with FrameTimeout registered
as the receive timeout callback, disables the timeout and runs FrameTimeout. -/
theorem PhyTimerIsr_expires (cfg : Config) (n : Node)
    (hcfg : cfg.role = Role.endPoint ∧ cfg.PROTOCOL_USE_RX_TIMEOUT = true)
    (hen : n.gPhyDevice.rxTimeout.enable = true)
    (hc : n.gPhyDevice.rxTimeout.counter = 1)
    (hrx : n.gPhyDevice.RxTimeout = some TimerCallback.frameTimeout) :
    PhyTimerIsr cfg n = FrameTimeout cfg (PhyTimerDisableRxTimeout (n.withRxCounter 0)) := by
  rw [PhyTimerIsr_at_one cfg n hcfg hen hc, hrx]
  rfl

/-- The same tick with no receive timeout callback registered: the timeout is
disabled, the generic timer is serviced, and FrameTimeout does not run. -/
theorem PhyTimerIsr_expires_unhandled (cfg : Config) (n : Node)
    (hcfg : cfg.role = Role.endPoint ∧ cfg.PROTOCOL_USE_RX_TIMEOUT = true)
    (hen : n.gPhyDevice.rxTimeout.enable = true)
    (hc : n.gPhyDevice.rxTimeout.counter = 1)
    (hrx : n.gPhyDevice.RxTimeout = none) :
    PhyTimerIsr cfg n = PhyTimerGeneric cfg (PhyTimerDisableRxTimeout (n.withRxCounter 0)) := by
  rw [PhyTimerIsr_at_one cfg n hcfg hen hc, hrx]

theorem timerTicks_disabled (cfg : Config) (k : Nat) (n : Node)
    (h : n.gPhyDevice.rxTimeout.enable = false)
    (hgen : n.gPhyDevice.Generic ≠ some TimerCallback.frameTimeout) : timerTicks cfg k n = n := by
  induction k with
  | zero => rfl
  | succ k ih =>
    show timerTicks cfg k (PhyTimerIsr cfg n).2 = n
    rw [PhyTimerIsr_disabled cfg n h, PhyTimerGeneric_node cfg n hgen]
    exact ih

theorem timerTicks_add (cfg : Config) (j k : Nat) (n : Node) :
    timerTicks cfg (j + k) n = timerTicks cfg k (timerTicks cfg j n) := by
  induction j generalizing n with
  | zero => simp [timerTicks]
  | succ j ih =>
    have e : j + 1 + k = (j + k) + 1 := by omega
    rw [e]
    show timerTicks cfg (j + k) (PhyTimerIsr cfg n).2 = timerTicks cfg k (timerTicks cfg (j + 1) n)
    rw [ih]
    rfl

/-- While fewer ticks have passed than the counter held, only the counter has
changed: it has gone down by one per tick. -/
theorem timerTicks_counting (cfg : Config) (k c : Nat) (n : Node)
    (hcfg : cfg.role = Role.endPoint ∧ cfg.PROTOCOL_USE_RX_TIMEOUT = true)
    (hen : n.gPhyDevice.rxTimeout.enable = true)
    (hgen : n.gPhyDevice.Generic ≠ some TimerCallback.frameTimeout)
    (hc : n.gPhyDevice.rxTimeout.counter = c) (hk : k < c) (h32 : c < 2 ^ 32) :
    timerTicks cfg k n = n.withRxCounter (c - k) := by
  induction k generalizing n c with
  | zero =>
    subst hc
    rfl
  | succ k ih =>
    show timerTicks cfg k (PhyTimerIsr cfg n).2 = _
    rw [PhyTimerIsr_counting cfg n c hcfg hen hc (by omega) h32]
    rw [PhyTimerGeneric_node cfg (n.withRxCounter (c - 1)) hgen]
    rw [ih (c - 1) (n.withRxCounter (c - 1)) hen hgen rfl (by omega) (by omega)]
    have e : c - 1 - k = c - (k + 1) := by omega
    rw [e]
    rfl

/-- The tick that brings the counter to zero runs FrameTimeout, when that is
the registered receive timeout callback, on the node with the timeout
disabled. -/
theorem timerTicks_expires (cfg : Config) (c : Nat) (n : Node)
    (hcfg : cfg.role = Role.endPoint ∧ cfg.PROTOCOL_USE_RX_TIMEOUT = true)
    (hen : n.gPhyDevice.rxTimeout.enable = true)
    (hrx : n.gPhyDevice.RxTimeout = some TimerCallback.frameTimeout)
    (hgen : n.gPhyDevice.Generic ≠ some TimerCallback.frameTimeout)
    (hc : n.gPhyDevice.rxTimeout.counter = c) (h1 : 1 ≤ c) (h32 : c < 2 ^ 32) :
    timerTicks cfg c n
      = (FrameTimeout cfg (PhyTimerDisableRxTimeout (n.withRxCounter 0))).2 := by
  obtain ⟨k, rfl⟩ : ∃ k, c = k + 1 := ⟨c - 1, by omega⟩
  rw [timerTicks_add cfg k 1 n]
  rw [timerTicks_counting cfg k (k + 1) n hcfg hen hgen hc (by omega) h32]
  have e : k + 1 - k = 1 := by omega
  rw [e]
  show (PhyTimerIsr cfg (n.withRxCounter 1)).2 = _
  rw [PhyTimerIsr_expires cfg (n.withRxCounter 1) hcfg hen rfl hrx]
  rfl

/-- With no receive timeout callback and no generic timer callback registered,
the tick that brings the counter to zero only disables the timeout: the busy
flag set by the listen stays set and nothing is traced. -/
theorem timerTicks_expires_unhandled (cfg : Config) (c : Nat) (n : Node)
    (hcfg : cfg.role = Role.endPoint ∧ cfg.PROTOCOL_USE_RX_TIMEOUT = true)
    (hen : n.gPhyDevice.rxTimeout.enable = true)
    (hrx : n.gPhyDevice.RxTimeout = none)
    (hgen : n.gPhyDevice.Generic = none)
    (hc : n.gPhyDevice.rxTimeout.counter = c) (h1 : 1 ≤ c) (h32 : c < 2 ^ 32) :
    timerTicks cfg c n = PhyTimerDisableRxTimeout (n.withRxCounter 0)
    ∧ (timerTicks cfg c n).gFrameScheduler = n.gFrameScheduler
    ∧ (timerTicks cfg c n).trace = n.trace := by
  have hgen2 : n.gPhyDevice.Generic ≠ some TimerCallback.frameTimeout := by
    rw [hgen]
    exact fun h => Option.noConfusion h
  have key : timerTicks cfg c n = PhyTimerDisableRxTimeout (n.withRxCounter 0) := by
    obtain ⟨k, rfl⟩ : ∃ k, c = k + 1 := ⟨c - 1, by omega⟩
    rw [timerTicks_add cfg k 1 n]
    rw [timerTicks_counting cfg k (k + 1) n hcfg hen hgen2 hc (by omega) h32]
    have e : k + 1 - k = 1 := by omega
    rw [e]
    show (PhyTimerIsr cfg (n.withRxCounter 1)).2 = _
    rw [PhyTimerIsr_expires_unhandled cfg (n.withRxCounter 1) hcfg hen rfl hrx]
    rw [PhyTimerGeneric_none]
    · rfl
    · rw [(PhyTimerDisableRxTimeout_callbacks _).2]
      exact hgen
  refine ⟨key, ?_, ?_⟩
  · rw [key]
    unfold PhyTimerDisableRxTimeout PhyTimerStop Node.withRxCounter
    cases hr : n.gPhyDevice.timerRunning <;> simp [hr]
  · rw [key]
    unfold PhyTimerDisableRxTimeout PhyTimerStop Node.withRxCounter
    cases hr : n.gPhyDevice.timerRunning <;> simp [hr]

/-- An accepted FrameListen of an End Point built with the receive timeout
arms the timeout: enabled, the counter loaded with the compare value. -/
theorem FrameListen_timeout_armed (cfg : Config) (m : Node)
    (hcfg : cfg.role = Role.endPoint ∧ cfg.PROTOCOL_USE_RX_TIMEOUT = true)
    (hbusy : m.gFrameScheduler.busy = false) :
    (FrameListen cfg m).2.gPhyDevice.rxTimeout
      = { enable := true
          compare := m.gPhyDevice.rxTimeout.compare
          counter := m.gPhyDevice.rxTimeout.compare }
    ∧ (FrameListen cfg m).2.gPhyDevice.timerRunning = true := by
  unfold FrameListen PhyReceiverOn
  cases hr : m.gPhyDevice.timerRunning <;>
    simp [hbusy, hcfg, PhyTimerEnableRxTimeout, PhyTimerStart, Node.emit, hr]

/-- The node an expired receive timeout leaves on an End Point: the timeout
disabled and its counter cleared, the timer stopped, busy cleared and the radio
put in low power. -/
theorem FrameTimeout_after_disable (cfg : Config) (a : Node) (hrole : cfg.role = Role.endPoint) :
    (FrameTimeout cfg (PhyTimerDisableRxTimeout (a.withRxCounter 0))).2.gFrameScheduler
      = { a.gFrameScheduler with busy := false }
    ∧ (FrameTimeout cfg (PhyTimerDisableRxTimeout (a.withRxCounter 0))).2.gPhyDevice
      = { a.gPhyDevice with
          timerRunning := false
          rxTimeout := { a.gPhyDevice.rxTimeout with enable := false, counter := 0 } }
    ∧ (FrameTimeout cfg (PhyTimerDisableRxTimeout (a.withRxCounter 0))).2.trace
      = a.trace ++ [Event.phyLowPowerMode]
    ∧ (FrameTimeout cfg (PhyTimerDisableRxTimeout (a.withRxCounter 0))).2.gPhyAddressInfo
      = a.gPhyAddressInfo
    ∧ (FrameTimeout cfg (PhyTimerDisableRxTimeout (a.withRxCounter 0))).2.seqNumber
      = a.seqNumber := by
  unfold FrameTimeout FrameIdle PhyTimerDisableRxTimeout PhyTimerStop Node.withRxCounter
  cases hr : a.gPhyDevice.timerRunning <;>
    simp [hrole, PhyLowPowerMode, Node.emit, hr]

theorem PhyReceiverOn_callbacks (cfg : Config) (n : Node) :
    (PhyReceiverOn cfg n).gPhyDevice.RxTimeout = n.gPhyDevice.RxTimeout
    ∧ (PhyReceiverOn cfg n).gPhyDevice.Generic = n.gPhyDevice.Generic := by
  unfold PhyReceiverOn
  by_cases ht : cfg.role = Role.endPoint ∧ cfg.PROTOCOL_USE_RX_TIMEOUT = true
  · cases hr : n.gPhyDevice.timerRunning <;>
      simp [ht, PhyTimerEnableRxTimeout, PhyTimerStart, Node.emit, hr]
  · simp [ht, Node.emit]

/-- FrameListen leaves the registered timer callbacks alone. -/
theorem FrameListen_callbacks (cfg : Config) (n : Node) :
    (FrameListen cfg n).2.gPhyDevice.RxTimeout = n.gPhyDevice.RxTimeout
    ∧ (FrameListen cfg n).2.gPhyDevice.Generic = n.gPhyDevice.Generic := by
  unfold FrameListen
  split_ifs
  · exact PhyReceiverOn_callbacks cfg _
  · exact ⟨rfl, rfl⟩

/-- C26: the receive timeout of an End Point built with it, with FrameTimeout
registered as the receive timeout callback, as ProtocolInit registers it, and a
generic timer callback that is not FrameTimeout (ProtocolInit registers none).
Once FrameListen has armed a receive with compare value c, 1 ≤ c, the timeout
is enabled with the counter at c; as long as fewer than c ticks have passed,
with no other event, the node differs from the armed one in the counter alone,
which has gone down by one per tick (busy is still set, nothing was traced,
FrameTimeout has not run); the c-th tick runs FrameTimeout once, on the node
with the timeout disabled, which clears busy and puts the radio in low power,
the idle policy of an End Point; ticks after that change nothing; and the next
accepted FrameListen arms the timeout with c again. -/
theorem rxTimeout_fires_once (cfg : Config) (m : Node) (c : Nat)
    (hrole : cfg.role = Role.endPoint) (hto : cfg.PROTOCOL_USE_RX_TIMEOUT = true)
    (hrx : m.gPhyDevice.RxTimeout = some TimerCallback.frameTimeout)
    (hgen : m.gPhyDevice.Generic ≠ some TimerCallback.frameTimeout)
    (hbusy : m.gFrameScheduler.busy = false)
    (hcmp : m.gPhyDevice.rxTimeout.compare = c) (h1 : 1 ≤ c) (h32 : c < 2 ^ 32) :
    (FrameListen cfg m).2.gPhyDevice.rxTimeout.enable = true
    ∧ (FrameListen cfg m).2.gPhyDevice.rxTimeout.counter = c
    ∧ (FrameListen cfg m).2.gFrameScheduler.busy = true
    ∧ (∀ k, k < c →
        timerTicks cfg k (FrameListen cfg m).2 = (FrameListen cfg m).2.withRxCounter (c - k)
        ∧ (timerTicks cfg k (FrameListen cfg m).2).gPhyDevice.rxTimeout.counter = c - k
        ∧ (timerTicks cfg k (FrameListen cfg m).2).gPhyDevice.rxTimeout.enable = true
        ∧ (timerTicks cfg k (FrameListen cfg m).2).gFrameScheduler.busy = true
        ∧ (timerTicks cfg k (FrameListen cfg m).2).trace = (FrameListen cfg m).2.trace)
    ∧ timerTicks cfg c (FrameListen cfg m).2
      = (FrameTimeout cfg
          (PhyTimerDisableRxTimeout ((timerTicks cfg (c - 1) (FrameListen cfg m).2).withRxCounter
            0))).2
    ∧ (timerTicks cfg c (FrameListen cfg m).2).gFrameScheduler.busy = false
    ∧ (timerTicks cfg c (FrameListen cfg m).2).gPhyDevice.rxTimeout.enable = false
    ∧ (timerTicks cfg c (FrameListen cfg m).2).gPhyDevice.rxTimeout.counter = 0
    ∧ (timerTicks cfg c (FrameListen cfg m).2).trace
      = (FrameListen cfg m).2.trace ++ [Event.phyLowPowerMode]
    ∧ (∀ j, timerTicks cfg (c + j) (FrameListen cfg m).2
        = timerTicks cfg c (FrameListen cfg m).2)
    ∧ (FrameListen cfg (timerTicks cfg c (FrameListen cfg m).2)).1 = true
    ∧ (FrameListen cfg (timerTicks cfg c (FrameListen cfg m).2)).2.gPhyDevice.rxTimeout.enable
      = true
    ∧ (FrameListen cfg (timerTicks cfg c (FrameListen cfg m).2)).2.gPhyDevice.rxTimeout.counter
      = c := by
  have hcfg : cfg.role = Role.endPoint ∧ cfg.PROTOCOL_USE_RX_TIMEOUT = true := ⟨hrole, hto⟩
  obtain ⟨harm, _⟩ := FrameListen_timeout_armed cfg m hcfg hbusy
  have hen : (FrameListen cfg m).2.gPhyDevice.rxTimeout.enable = true := by rw [harm]
  have hctr : (FrameListen cfg m).2.gPhyDevice.rxTimeout.counter = c := by rw [harm]; exact hcmp
  have hcmp2 : (FrameListen cfg m).2.gPhyDevice.rxTimeout.compare = c := by rw [harm]; exact hcmp
  have hb : (FrameListen cfg m).2.gFrameScheduler.busy = true :=
    (FrameListen_not_busy cfg m hbusy).1
  have hrx2 : (FrameListen cfg m).2.gPhyDevice.RxTimeout = some TimerCallback.frameTimeout := by
    rw [(FrameListen_callbacks cfg m).1]
    exact hrx
  have hgen2 : (FrameListen cfg m).2.gPhyDevice.Generic ≠ some TimerCallback.frameTimeout := by
    rw [(FrameListen_callbacks cfg m).2]
    exact hgen
  have hcount : ∀ k, k < c →
      timerTicks cfg k (FrameListen cfg m).2 = (FrameListen cfg m).2.withRxCounter (c - k) :=
    fun k hk => timerTicks_counting cfg k c _ hcfg hen hgen2 hctr hk h32
  have hexp := timerTicks_expires cfg c (FrameListen cfg m).2 hcfg hen hrx2 hgen2 hctr h1 h32
  obtain ⟨hs, hd, ht, _, _⟩ := FrameTimeout_after_disable cfg (FrameListen cfg m).2 hrole
  have hfb : (timerTicks cfg c (FrameListen cfg m).2).gFrameScheduler.busy = false := by
    rw [hexp, hs]
  have hfe : (timerTicks cfg c (FrameListen cfg m).2).gPhyDevice.rxTimeout.enable = false := by
    rw [hexp, hd]
  have hfc : (timerTicks cfg c (FrameListen cfg m).2).gPhyDevice.rxTimeout.compare = c := by
    rw [hexp, hd]
    exact hcmp2
  obtain ⟨harm2, _⟩ := FrameListen_timeout_armed cfg _ hcfg hfb
  refine ⟨hen, hctr, hb, ?_, ?_, hfb, hfe, ?_, ?_, ?_, ?_, ?_, ?_⟩
  · intro k hk
    rw [hcount k hk]
    exact ⟨rfl, rfl, hen, hb, rfl⟩
  · rw [hexp, hcount (c - 1) (by omega)]
    rfl
  · rw [hexp, hd]
  · rw [hexp, ht]
  · intro j
    rw [timerTicks_add]
    refine timerTicks_disabled cfg j _ hfe ?_
    rw [hexp, hd]
    exact hgen2
  · exact (FrameListen_arms cfg _ hfb).1
  · rw [harm2]
  · rw [harm2]
    exact hfc

/-- Witness of C26: the End Point ProtocolInit leaves for 115.2 kBaud in a
build with the receive timeout (FrameTimeout registered, no generic timer
callback, compare value 4) listens; after 3 ticks it is still busy with the
counter at 1, and the 4th tick clears busy. -/
theorem rxTimeout_fires_once_witness :
    (timeoutEndPoint.role = Role.endPoint
      ∧ timeoutEndPoint.PROTOCOL_USE_RX_TIMEOUT = true
      ∧ staleInit.gPhyDevice.RxTimeout = some TimerCallback.frameTimeout
      ∧ staleInit.gPhyDevice.Generic ≠ some TimerCallback.frameTimeout
      ∧ staleInit.gFrameScheduler.busy = false
      ∧ staleInit.gPhyDevice.rxTimeout.compare = 4
      ∧ 1 ≤ 4 ∧ 4 < 2 ^ 32)
    ∧ (timerTicks timeoutEndPoint 3
        (FrameListen timeoutEndPoint staleInit).2).gPhyDevice.rxTimeout.counter = 4 - 3
    ∧ (timerTicks timeoutEndPoint 3
        (FrameListen timeoutEndPoint staleInit).2).gFrameScheduler.busy = true
    ∧ (timerTicks timeoutEndPoint 4
        (FrameListen timeoutEndPoint staleInit).2).gFrameScheduler.busy = false :=
  ⟨⟨by decide, by decide, by decide, by decide, by decide, by decide, by decide, by decide⟩,
    ((rxTimeout_fires_once timeoutEndPoint staleInit 4
      (by decide) (by decide) (by decide) (by decide) (by decide) (by decide) (by decide)
      (by decide)).2.2.2.1 3 (by decide)).2.1,
    ((rxTimeout_fires_once timeoutEndPoint staleInit 4
      (by decide) (by decide) (by decide) (by decide) (by decide) (by decide) (by decide)
      (by decide)).2.2.2.1 3 (by decide)).2.2.2.1,
    (rxTimeout_fires_once timeoutEndPoint staleInit 4
      (by decide) (by decide) (by decide) (by decide) (by decide) (by decide) (by decide)
      (by decide)).2.2.2.2.2.1⟩

/-! ## The link handshake -/

/-- The End-of-Packet interrupt of a completed transmission: the transmitting
flag is cleared and FrameDisassemble runs, between the disable and the enable
of the interrupt. -/
theorem PhySyncEopIsr_sent (cfg : Config) (fifo : List Nat) (n : Node)
    (hw : n.gPhyDevice.gdoWaitForDeassert = true) (ht : n.gPhyDevice.transmitting = true) :
    PhySyncEopIsr cfg true fifo n
      = ((FrameDisassemble cfg
            { PhyDisable n with
              gPhyDevice := { (PhyDisable n).gPhyDevice with transmitting := false } }).1,
          PhyEnable (FrameDisassemble cfg
            { PhyDisable n with
              gPhyDevice := { (PhyDisable n).gPhyDevice with transmitting := false } }).2) := by
  have hw1 : (PhyDisable n).gPhyDevice.gdoWaitForDeassert = true := hw
  have ht1 : (PhyDisable n).gPhyDevice.transmitting = true := ht
  unfold PhySyncEopIsr
  simp only [if_true, hw1, ht1]

/-- The End-of-Packet interrupt of a reception: the FIFO is read into the shared
buffer and FrameAssemble runs on the received length. -/
theorem PhySyncEopIsr_received (cfg : Config) (fifo : List Nat) (n : Node)
    (hw : n.gPhyDevice.gdoWaitForDeassert = true) (ht : n.gPhyDevice.transmitting = false) :
    PhySyncEopIsr cfg true fifo n
      = ((FrameAssemble cfg (PhyGetDataStream cfg fifo (PhyDisable n)).gFrameScheduler.frame.toBytes
            (PhyGetDataStream cfg fifo (PhyDisable n)).gPhyDevice.streamHeaderLength
            (PhyGetDataStream cfg fifo (PhyDisable n))).1,
          PhyEnable (FrameAssemble cfg
            (PhyGetDataStream cfg fifo (PhyDisable n)).gFrameScheduler.frame.toBytes
            (PhyGetDataStream cfg fifo (PhyDisable n)).gPhyDevice.streamHeaderLength
            (PhyGetDataStream cfg fifo (PhyDisable n))).2) := by
  have hw1 : (PhyDisable n).gPhyDevice.gdoWaitForDeassert = true := hw
  have ht1 : (PhyDisable n).gPhyDevice.transmitting = false := ht
  unfold PhySyncEopIsr
  simp only [if_true, hw1, ht1]
  rfl

theorem FrameSend_busyInFlight (cfg : Config) (type : eFrameType) (dataRequest : Bool)
    (payload : List Nat) (k : Nat) (n : Node) (h : n.busyInFlight) :
    (FrameSend cfg type dataRequest payload k n).2.busyInFlight := by
  unfold Node.busyInFlight at h ⊢
  unfold FrameSend PhyTransmit
  split_ifs <;> simp_all [FrameBuild, Node.emit]

theorem FrameListen_busyInFlight (cfg : Config) (n : Node) :
    (FrameListen cfg n).2.busyInFlight :=
  fun _ => FrameListen_busy cfg n

theorem busyInFlight_of_fields (n m : Node) (h : n.busyInFlight)
    (hb : m.gFrameScheduler.busy = n.gFrameScheduler.busy)
    (ht : m.gPhyDevice.transmitting = n.gPhyDevice.transmitting) : m.busyInFlight := by
  unfold Node.busyInFlight at h ⊢
  rw [hb, ht]
  exact h

theorem FrameListen_transmitting (cfg : Config) (n : Node) :
    (FrameListen cfg n).2.gPhyDevice.transmitting = n.gPhyDevice.transmitting := by
  unfold FrameListen
  split_ifs
  · exact (PhyReceiverOn_keeps cfg _).2.2.2.2
  · rfl

theorem FrameIdle_transmitting (cfg : Config) (n : Node) :
    (FrameIdle cfg n).gPhyDevice.transmitting = n.gPhyDevice.transmitting := by
  unfold FrameIdle
  cases cfg.role
  · rfl
  · exact FrameListen_transmitting cfg (PhyDisable n)

/-- The idle policy on a node with no transmission in flight. -/
theorem FrameIdle_busyInFlight (cfg : Config) (n : Node)
    (h : n.gPhyDevice.transmitting = false) : (FrameIdle cfg n).busyInFlight := by
  intro ht
  rw [FrameIdle_transmitting, h] at ht
  cases ht

theorem FrameDisassemble_transmitting (cfg : Config) (n : Node) :
    (FrameDisassemble cfg n).2.gPhyDevice.transmitting = n.gPhyDevice.transmitting := by
  unfold FrameDisassemble
  simp only
  split_ifs
  · exact FrameListen_transmitting cfg _
  · split
    · rw [FrameIdle_transmitting, (applyLoad_keeps cfg _ _).2.2.2.2.2]
      rfl
    · exact FrameIdle_transmitting cfg _

theorem FrameSchedulerData_busyInFlight (cfg : Config) (n : Node) (h : n.busyInFlight) :
    (FrameSchedulerData cfg n).2.busyInFlight := by
  unfold FrameSchedulerData
  split
  · simp only
    cases cfg.role
    · exact h
    · simp only
      split_ifs
      · apply FrameSend_busyInFlight
        refine busyInFlight_of_fields n _ h ?_ ?_
        · show (applyLoad _ _ _).gFrameScheduler.busy = _
          rw [(applyLoad_keeps _ _ _).1]
          rfl
        · show (applyLoad _ _ _).gPhyDevice.transmitting = _
          rw [(applyLoad_keeps _ _ _).2.2.2.2.2]
          rfl
      · refine busyInFlight_of_fields n _ h ?_ ?_
        · show (applyLoad _ _ _).gFrameScheduler.busy = _
          rw [(applyLoad_keeps _ _ _).1]
          rfl
        · show (applyLoad _ _ _).gPhyDevice.transmitting = _
          rw [(applyLoad_keeps _ _ _).2.2.2.2.2]
          rfl
  · exact h

theorem FrameSchedulerLinkRequest_busyInFlight (cfg : Config) (n : Node) (h : n.busyInFlight) :
    (FrameSchedulerLinkRequest cfg n).2.busyInFlight := by
  unfold FrameSchedulerLinkRequest
  cases cfg.role
  · simp only
    exact busyInFlight_of_fields n _ h
      (by rw [(PhyAddressLinkEstablish_keeps _ _ _ _).1])
      (by rw [(PhyAddressLinkEstablish_keeps _ _ _ _).2.2])
  · simp only
    split_ifs
    · apply FrameSend_busyInFlight
      split
      · exact h
      · exact h
    · split
      · exact h
      · exact h
    · exact h

theorem busyInFlight_of_quiet (m : Node) (hm : m.gPhyDevice.transmitting = false) :
    m.busyInFlight := by
  intro ht
  rw [hm] at ht
  cases ht

/-- The tail of FrameAssemble: the idle policy, unless the dispatch left the
scheduler busy. -/
theorem idle_unless_busy_busyInFlight (cfg : Config) (r : Nat × Node) (h : r.2.busyInFlight) :
    (if !r.2.gFrameScheduler.busy then (r.1, FrameIdle cfg r.2) else r).2.busyInFlight := by
  cases hb : r.2.gFrameScheduler.busy
  · simp only [Bool.not_false, if_true]
    apply FrameIdle_busyInFlight
    cases ht : r.2.gPhyDevice.transmitting
    · rfl
    · have := h ht
      rw [hb] at this
      cases this
  · simp only [Bool.not_true, Bool.false_eq_true, if_false]
    exact h

theorem FrameAssemble_busyInFlight (cfg : Config) (payload : List Nat) (length : Nat) (n : Node)
    (h : n.gPhyDevice.transmitting = false) :
    (FrameAssemble cfg payload length n).2.busyInFlight := by
  have hd : (atDispatch cfg length n).busyInFlight :=
    busyInFlight_of_quiet _ (by rw [(atDispatch_fields cfg length n).2.2.2.2.2.2.2.1]; exact h)
  by_cases hok : length ≥ FRAME_OVERHEAD_LENGTH cfg
      ∧ (n.gPhyDevice.footerStatus &&& PROTOCOL_DATASTREAM_FOOTER_CRC) ≠ 0
  · cases hv : FrameValidate cfg n
    · cases hrole : cfg.role
      · have hv2 : FrameEndPointValidate cfg n.gFrameScheduler.frame.header.panId
            n.gFrameScheduler.frame.header.destAddr
            { n with gFrameScheduler :=
                { n.gFrameScheduler with
                  busy := false, length := (length - FRAME_OVERHEAD_LENGTH cfg) % 256 } }
            = false := by
          unfold FrameValidate at hv
          rw [hrole] at hv
          exact hv
        have hres : FrameAssemble cfg payload length n
            = (0, FrameIdle cfg
                { n with gFrameScheduler :=
                    { n.gFrameScheduler with
                      busy := false, length := (length - FRAME_OVERHEAD_LENGTH cfg) % 256 } }) := by
          simp [FrameAssemble, hrole, hok, hv2]
        rw [hres]
        exact FrameIdle_busyInFlight cfg _ h
      · have hv2 : FrameGatewayValidate cfg n.gFrameScheduler.frame.header.panId
            n.gFrameScheduler.frame.header.destAddr
            { n with gFrameScheduler :=
                { n.gFrameScheduler with
                  busy := false, length := (length - FRAME_OVERHEAD_LENGTH cfg) % 256,
                  dataResponse := { payload := [], length := 0 } } } = false := by
          unfold FrameValidate at hv
          rw [hrole] at hv
          exact hv
        have hres : FrameAssemble cfg payload length n
            = (0, FrameIdle cfg
                { n with gFrameScheduler :=
                    { n.gFrameScheduler with
                      busy := false, length := (length - FRAME_OVERHEAD_LENGTH cfg) % 256,
                      dataResponse := { payload := [], length := 0 } } }) := by
          simp [FrameAssemble, hrole, hok, hv2, FrameSetDataResponse]
        rw [hres]
        exact FrameIdle_busyInFlight cfg _ h
    · rw [FrameAssemble_accepted cfg payload length n hok.1 hok.2 hv]
      apply idle_unless_busy_busyInFlight
      split_ifs
      · exact FrameSchedulerData_busyInFlight cfg _ hd
      · exact FrameSchedulerLinkRequest_busyInFlight cfg _ hd
      · exact hd
  · cases hrole : cfg.role
    · have hres : FrameAssemble cfg payload length n
          = (0, FrameIdle cfg
              { n with gFrameScheduler := { n.gFrameScheduler with busy := false, length := 0 } }) := by
        simp only [FrameAssemble, hrole]
        rw [if_neg hok]
      rw [hres]
      exact FrameIdle_busyInFlight cfg _ h
    · have hres : FrameAssemble cfg payload length n
          = (0, FrameIdle cfg
              (FrameSetDataResponse [] 0
                { n with gFrameScheduler :=
                    { n.gFrameScheduler with busy := false, length := 0 } })) := by
        simp only [FrameAssemble, hrole, FrameSetDataResponse]
        rw [if_neg hok]
      rw [hres]
      exact FrameIdle_busyInFlight cfg _ h

/-- The End-of-Packet interrupt keeps the scheduler busy while a transmission
is in flight: a completed transmission clears the transmitting flag before
FrameDisassemble runs, and a reception starts with no transmission in flight. -/
theorem PhySyncEopIsr_busyInFlight (cfg : Config) (gdo0Event : Bool) (fifo : List Nat) (n : Node)
    (h : n.busyInFlight) : (PhySyncEopIsr cfg gdo0Event fifo n).2.busyInFlight := by
  cases hg : gdo0Event
  · unfold PhySyncEopIsr
    simp only [Bool.false_eq_true, if_false]
    exact h
  · cases hw : n.gPhyDevice.gdoWaitForDeassert
    · have hw1 : (PhyDisable n).gPhyDevice.gdoWaitForDeassert = false := hw
      unfold PhySyncEopIsr
      simp only [if_true, hw1, Bool.false_eq_true, if_false]
      exact busyInFlight_of_fields n _ h rfl rfl
    · cases ht : n.gPhyDevice.transmitting
      · rw [PhySyncEopIsr_received cfg fifo n hw ht]
        have hq : (PhyGetDataStream cfg fifo (PhyDisable n)).gPhyDevice.transmitting = false := by
          unfold PhyGetDataStream
          cases fifo <;> exact ht
        exact busyInFlight_of_fields _ _ (FrameAssemble_busyInFlight cfg _ _ _ hq) rfl rfl
      · rw [PhySyncEopIsr_sent cfg fifo n hw ht]
        apply busyInFlight_of_quiet
        show (FrameDisassemble cfg _).2.gPhyDevice.transmitting = false
        rw [FrameDisassemble_transmitting]

/-! ## The frame reception handler, case by case -/

/-- FrameAssemble either rejects the frame, running the idle policy on a node
that differs from the one it was given in the scheduler's busy flag, stored
length and staged data response only, or dispatches it from the node
atDispatch and runs the idle policy unless the dispatch left the scheduler
busy. -/
theorem FrameAssemble_shape (cfg : Config) (payload : List Nat) (length : Nat) (n : Node) :
    (∃ m, FrameAssemble cfg payload length n = (0, FrameIdle cfg m)
        ∧ m.seqNumber = n.seqNumber ∧ m.gPhyDevice = n.gPhyDevice ∧ m.trace = n.trace
        ∧ m.gFrameScheduler.frame = n.gFrameScheduler.frame)
    ∨ (∃ r : Nat × Node,
        (r = FrameSchedulerData cfg (atDispatch cfg length n)
          ∨ r = FrameSchedulerLinkRequest cfg (atDispatch cfg length n)
          ∨ r = (0, atDispatch cfg length n))
        ∧ FrameAssemble cfg payload length n
          = (if !r.2.gFrameScheduler.busy then (r.1, FrameIdle cfg r.2) else r)) := by
  by_cases hok : length ≥ FRAME_OVERHEAD_LENGTH cfg
      ∧ (n.gPhyDevice.footerStatus &&& PROTOCOL_DATASTREAM_FOOTER_CRC) ≠ 0
  · cases hv : FrameValidate cfg n
    · left
      cases hrole : cfg.role
      · have hv2 : FrameEndPointValidate cfg n.gFrameScheduler.frame.header.panId
            n.gFrameScheduler.frame.header.destAddr
            { n with gFrameScheduler :=
                { n.gFrameScheduler with
                  busy := false, length := (length - FRAME_OVERHEAD_LENGTH cfg) % 256 } }
            = false := by
          unfold FrameValidate at hv
          rw [hrole] at hv
          exact hv
        refine ⟨{ n with gFrameScheduler :=
                    { n.gFrameScheduler with
                      busy := false, length := (length - FRAME_OVERHEAD_LENGTH cfg) % 256 } },
          ?_, rfl, rfl, rfl, rfl⟩
        simp [FrameAssemble, hrole, hok, hv2]
      · have hv2 : FrameGatewayValidate cfg n.gFrameScheduler.frame.header.panId
            n.gFrameScheduler.frame.header.destAddr
            { n with gFrameScheduler :=
                { n.gFrameScheduler with
                  busy := false, length := (length - FRAME_OVERHEAD_LENGTH cfg) % 256,
                  dataResponse := { payload := [], length := 0 } } } = false := by
          unfold FrameValidate at hv
          rw [hrole] at hv
          exact hv
        refine ⟨{ n with gFrameScheduler :=
                    { n.gFrameScheduler with
                      busy := false, length := (length - FRAME_OVERHEAD_LENGTH cfg) % 256,
                      dataResponse := { payload := [], length := 0 } } },
          ?_, rfl, rfl, rfl, rfl⟩
        simp [FrameAssemble, hrole, hok, hv2, FrameSetDataResponse]
    · right
      rw [FrameAssemble_accepted cfg payload length n hok.1 hok.2 hv]
      split_ifs
      · exact ⟨_, Or.inl rfl, by simp [*]⟩
      · exact ⟨_, Or.inl rfl, by simp [*]⟩
      · exact ⟨_, Or.inr (Or.inl rfl), by simp [*]⟩
      · exact ⟨_, Or.inr (Or.inl rfl), by simp [*]⟩
      · exact ⟨_, Or.inr (Or.inr rfl), by simp [*]⟩
      · exact ⟨_, Or.inr (Or.inr rfl), by simp [*]⟩
  · left
    cases hrole : cfg.role
    · refine ⟨{ n with gFrameScheduler := { n.gFrameScheduler with busy := false, length := 0 } },
        ?_, rfl, rfl, rfl, rfl⟩
      simp only [FrameAssemble, hrole]
      rw [if_neg hok]
    · refine ⟨FrameSetDataResponse [] 0
          { n with gFrameScheduler := { n.gFrameScheduler with busy := false, length := 0 } },
        ?_, rfl, rfl, rfl, rfl⟩
      simp only [FrameAssemble, hrole, FrameSetDataResponse]
      rw [if_neg hok]

/-! ## The generic timer callback is set by initialisation only -/

theorem PhyTransmit_Generic (cfg : Config) (dataField : List Nat) (count : Nat) (n : Node) :
    (PhyTransmit cfg dataField count n).2.gPhyDevice.Generic = n.gPhyDevice.Generic := by
  unfold PhyTransmit
  by_cases hc : count > cfg.CC1101_TXFIFO_SIZE
  · simp [hc]
  · cases ht : n.gPhyDevice.transmitting <;> simp [hc, ht, Node.emit]

theorem FrameSend_Generic (cfg : Config) (type : eFrameType) (dataRequest : Bool)
    (payload : List Nat) (k : Nat) (n : Node) :
    (FrameSend cfg type dataRequest payload k n).2.gPhyDevice.Generic = n.gPhyDevice.Generic := by
  have hk := PhyTransmit_Generic cfg
    (FrameBuild cfg type dataRequest payload k n).gFrameScheduler.frame.toBytes
    ((k + FRAME_OVERHEAD_LENGTH cfg) % 256) (FrameBuild cfg type dataRequest payload k n)
  rw [FrameBuild_gPhyDevice] at hk
  unfold FrameSend
  cases hb : n.gFrameScheduler.busy
  · simp only [Bool.not_false, if_true]
    by_cases hsz : k + FRAME_OVERHEAD_LENGTH cfg ≤ PROTOCOL_DATASTREAM_MAX_SIZE cfg
    · simp only [hsz, if_true]
      split
      · exact hk
      · exact hk
    · simp only [hsz, if_false]
      rw [FrameBuild_gPhyDevice]
  · rfl

theorem FrameIdle_Generic (cfg : Config) (n : Node) :
    (FrameIdle cfg n).gPhyDevice.Generic = n.gPhyDevice.Generic := by
  unfold FrameIdle
  cases cfg.role
  · rfl
  · exact (FrameListen_callbacks cfg (PhyDisable n)).2

theorem FrameDisassemble_Generic (cfg : Config) (n : Node) :
    (FrameDisassemble cfg n).2.gPhyDevice.Generic = n.gPhyDevice.Generic := by
  unfold FrameDisassemble
  simp only
  split_ifs
  · exact (FrameListen_callbacks cfg _).2
  · split
    · rw [FrameIdle_Generic, (applyLoad_keeps cfg _ _).2.2.2.2.2]
      rfl
    · exact FrameIdle_Generic cfg _

theorem FrameTimeout_Generic (cfg : Config) (n : Node) :
    (FrameTimeout cfg n).2.gPhyDevice.Generic = n.gPhyDevice.Generic := by
  unfold FrameTimeout
  exact FrameIdle_Generic cfg _

theorem FrameSchedulerData_Generic (cfg : Config) (n : Node) :
    (FrameSchedulerData cfg n).2.gPhyDevice.Generic = n.gPhyDevice.Generic := by
  unfold FrameSchedulerData
  split
  · simp only
    cases cfg.role
    · rfl
    · simp only
      split_ifs
      · rw [FrameSend_Generic]
        show (applyLoad _ _ _).gPhyDevice.Generic = _
        rw [(applyLoad_keeps _ _ _).2.2.2.2.2]
        rfl
      · show (applyLoad _ _ _).gPhyDevice.Generic = _
        rw [(applyLoad_keeps _ _ _).2.2.2.2.2]
        rfl
  · rfl

theorem FrameSchedulerLinkRequest_Generic (cfg : Config) (n : Node) :
    (FrameSchedulerLinkRequest cfg n).2.gPhyDevice.Generic = n.gPhyDevice.Generic := by
  unfold FrameSchedulerLinkRequest
  cases cfg.role
  · simp only
    rw [(PhyAddressLinkEstablish_keeps _ _ _ _).2.2]
  · simp only
    split_ifs
    · rw [FrameSend_Generic]
      split <;> rfl
    · split <;> rfl
    · rfl

theorem FrameAssemble_Generic (cfg : Config) (payload : List Nat) (length : Nat) (n : Node) :
    (FrameAssemble cfg payload length n).2.gPhyDevice.Generic = n.gPhyDevice.Generic := by
  have hd : (atDispatch cfg length n).gPhyDevice = n.gPhyDevice :=
    (atDispatch_fields cfg length n).2.2.2.2.2.2.2.1
  rcases FrameAssemble_shape cfg payload length n with ⟨m, hm, _, hdev, _, _⟩ | ⟨r, hr, hres⟩
  · rw [hm]
    show (FrameIdle cfg m).gPhyDevice.Generic = _
    rw [FrameIdle_Generic, hdev]
  · have hrG : r.2.gPhyDevice.Generic = n.gPhyDevice.Generic := by
      rcases hr with h | h | h
      · rw [h, FrameSchedulerData_Generic, hd]
      · rw [h, FrameSchedulerLinkRequest_Generic, hd]
      · rw [h]
        show (atDispatch cfg length n).gPhyDevice.Generic = _
        rw [hd]
    rw [hres]
    cases hb : r.2.gFrameScheduler.busy
    · simp only [Bool.not_false, if_true]
      rw [FrameIdle_Generic, hrG]
    · simp only [Bool.not_true, Bool.false_eq_true, if_false]
      exact hrG

theorem PhyGetDataStream_Generic (cfg : Config) (fifo : List Nat) (n : Node) :
    (PhyGetDataStream cfg fifo n).gPhyDevice.Generic = n.gPhyDevice.Generic := by
  unfold PhyGetDataStream
  cases fifo <;> rfl

theorem PhySyncEopIsr_Generic (cfg : Config) (gdo0Event : Bool) (fifo : List Nat) (n : Node) :
    (PhySyncEopIsr cfg gdo0Event fifo n).2.gPhyDevice.Generic = n.gPhyDevice.Generic := by
  cases hg : gdo0Event
  · unfold PhySyncEopIsr
    simp only [Bool.false_eq_true, if_false]
  · cases hw : n.gPhyDevice.gdoWaitForDeassert
    · have hw1 : (PhyDisable n).gPhyDevice.gdoWaitForDeassert = false := hw
      unfold PhySyncEopIsr
      simp only [if_true, hw1, Bool.false_eq_true, if_false]
      rfl
    · cases ht : n.gPhyDevice.transmitting
      · rw [PhySyncEopIsr_received cfg fifo n hw ht]
        show (FrameAssemble cfg _ _ (PhyGetDataStream cfg fifo (PhyDisable n))).2.gPhyDevice.Generic
          = _
        rw [FrameAssemble_Generic, PhyGetDataStream_Generic]
        rfl
      · rw [PhySyncEopIsr_sent cfg fifo n hw ht]
        show (FrameDisassemble cfg _).2.gPhyDevice.Generic = _
        rw [FrameDisassemble_Generic]
        rfl

theorem PhyTimerGeneric_Generic (cfg : Config) (n : Node) :
    (PhyTimerGeneric cfg n).2.gPhyDevice.Generic = n.gPhyDevice.Generic := by
  cases hg : n.gPhyDevice.Generic with
  | none =>
    rw [PhyTimerGeneric_none cfg n hg]
    exact hg
  | some cb =>
    have hres : PhyTimerGeneric cfg n = cb.call cfg n := by
      unfold PhyTimerGeneric
      rw [hg]
    rw [hres]
    cases cb with
    | frameTimeout =>
      show (FrameTimeout cfg n).2.gPhyDevice.Generic = _
      rw [FrameTimeout_Generic]
      exact hg
    | application status => exact hg

/-- The node a timer tick leaves is the one the generic timer callback or the
receive timeout callback leaves, called on a node that differs from the one the
tick found in the receive timeout counters and the running flag of the timer
only. -/
theorem PhyTimerIsr_shape (cfg : Config) (n : Node) :
    ∃ m : Node,
      m.gFrameScheduler = n.gFrameScheduler ∧ m.seqNumber = n.seqNumber ∧ m.trace = n.trace
      ∧ m.gPhyAddressInfo = n.gPhyAddressInfo
      ∧ m.gPhyDevice.Generic = n.gPhyDevice.Generic
      ∧ m.gPhyDevice.transmitting = n.gPhyDevice.transmitting
      ∧ (PhyTimerIsr cfg n = PhyTimerGeneric cfg m
          ∨ ∃ cb : TimerCallback, PhyTimerIsr cfg n = cb.call cfg m) := by
  by_cases hcfg : cfg.role = Role.endPoint ∧ cfg.PROTOCOL_USE_RX_TIMEOUT = true
  · cases hen : n.gPhyDevice.rxTimeout.enable
    · exact ⟨n, rfl, rfl, rfl, rfl, rfl, rfl, Or.inl (PhyTimerIsr_disabled cfg n hen)⟩
    · by_cases hz : (n.gPhyDevice.rxTimeout.counter + (2 ^ 32 - 1)) % 2 ^ 32 = 0
      · have hk : ∀ a : Node,
            (PhyTimerDisableRxTimeout a).gFrameScheduler = a.gFrameScheduler
            ∧ (PhyTimerDisableRxTimeout a).seqNumber = a.seqNumber
            ∧ (PhyTimerDisableRxTimeout a).trace = a.trace
            ∧ (PhyTimerDisableRxTimeout a).gPhyAddressInfo = a.gPhyAddressInfo
            ∧ (PhyTimerDisableRxTimeout a).gPhyDevice.Generic = a.gPhyDevice.Generic
            ∧ (PhyTimerDisableRxTimeout a).gPhyDevice.transmitting
              = a.gPhyDevice.transmitting := by
          intro a
          unfold PhyTimerDisableRxTimeout PhyTimerStop
          cases a.gPhyDevice.timerRunning <;> exact ⟨rfl, rfl, rfl, rfl, rfl, rfl⟩
        have hres : PhyTimerIsr cfg n
            = (match (PhyTimerDisableRxTimeout (n.withRxCounter 0)).gPhyDevice.RxTimeout with
                | some RxTimeout =>
                  RxTimeout.call cfg (PhyTimerDisableRxTimeout (n.withRxCounter 0))
                | none => PhyTimerGeneric cfg (PhyTimerDisableRxTimeout (n.withRxCounter 0))) := by
          unfold PhyTimerIsr
          rw [if_pos hcfg, if_pos hen]
          simp only [hz, if_true, Node.withRxCounter]
        obtain ⟨h1, h2, h3, h4, h5, h6⟩ := hk (n.withRxCounter 0)
        refine ⟨PhyTimerDisableRxTimeout (n.withRxCounter 0), h1, h2, h3, h4, h5, h6, ?_⟩
        rw [hres]
        cases (PhyTimerDisableRxTimeout (n.withRxCounter 0)).gPhyDevice.RxTimeout with
        | none => exact Or.inl rfl
        | some cb => exact Or.inr ⟨cb, rfl⟩
      · obtain ⟨c, hc⟩ :
            ∃ c, (n.gPhyDevice.rxTimeout.counter + (2 ^ 32 - 1)) % 2 ^ 32 = c := ⟨_, rfl⟩
        rw [hc] at hz
        refine ⟨n.withRxCounter c, rfl, rfl, rfl, rfl, rfl, rfl, Or.inl ?_⟩
        unfold PhyTimerIsr
        rw [if_pos hcfg, if_pos hen]
        simp only [hc, if_neg hz, Node.withRxCounter]
  · refine ⟨n, rfl, rfl, rfl, rfl, rfl, rfl, Or.inl ?_⟩
    unfold PhyTimerIsr
    rw [if_neg hcfg]

theorem TimerCallback.call_Generic (cfg : Config) (cb : TimerCallback) (n : Node) :
    (cb.call cfg n).2.gPhyDevice.Generic = n.gPhyDevice.Generic := by
  cases cb with
  | frameTimeout => exact FrameTimeout_Generic cfg n
  | application status => rfl

theorem PhyTimerIsr_Generic (cfg : Config) (n : Node) :
    (PhyTimerIsr cfg n).2.gPhyDevice.Generic = n.gPhyDevice.Generic := by
  obtain ⟨m, _, _, _, _, hG, _, h | ⟨cb, h⟩⟩ := PhyTimerIsr_shape cfg n
  · rw [h, PhyTimerGeneric_Generic, hG]
  · rw [h, TimerCallback.call_Generic, hG]

theorem Stimulus.run_Generic (cfg : Config) (s : Stimulus) (n : Node) :
    (s.run cfg n).gPhyDevice.Generic = n.gPhyDevice.Generic := by
  cases s with
  | send c => exact FrameSend_Generic cfg _ _ _ _ n
  | listen => exact (FrameListen_callbacks cfg n).2
  | edge g f => exact PhySyncEopIsr_Generic cfg g f n
  | tick => exact PhyTimerIsr_Generic cfg n

/-- In a build without the receive timeout a timer tick only services the
generic timer. -/
theorem PhyTimerIsr_without_timeout (cfg : Config) (n : Node)
    (hcfg : ¬ (cfg.role = Role.endPoint ∧ cfg.PROTOCOL_USE_RX_TIMEOUT = true)) :
    PhyTimerIsr cfg n = PhyTimerGeneric cfg n := by
  unfold PhyTimerIsr
  rw [if_neg hcfg]

theorem Stimulus.run_busyInFlight (cfg : Config)
    (hcfg : ¬ (cfg.role = Role.endPoint ∧ cfg.PROTOCOL_USE_RX_TIMEOUT = true))
    (s : Stimulus) (n : Node) (hgen : n.gPhyDevice.Generic ≠ some TimerCallback.frameTimeout)
    (h : n.busyInFlight) : (s.run cfg n).busyInFlight := by
  cases s with
  | send c => exact FrameSend_busyInFlight cfg _ _ _ _ n h
  | listen => exact FrameListen_busyInFlight cfg n
  | edge g f => exact PhySyncEopIsr_busyInFlight cfg g f n h
  | tick =>
    show (PhyTimerIsr cfg n).2.busyInFlight
    rw [PhyTimerIsr_without_timeout cfg n hcfg, PhyTimerGeneric_node cfg n hgen]
    exact h

/-- In a build without the receive timeout, with a generic timer callback that
is not FrameTimeout (ProtocolInit registers none), whatever the FrameSend and
FrameListen calls, port interrupts and timer ticks, the scheduler stays busy
for as long as a transmission is in flight. -/
theorem busyInFlight_without_timeout (cfg : Config)
    (hcfg : ¬ (cfg.role = Role.endPoint ∧ cfg.PROTOCOL_USE_RX_TIMEOUT = true))
    (run : List Stimulus) (n : Node)
    (hgen : n.gPhyDevice.Generic ≠ some TimerCallback.frameTimeout) (h : n.busyInFlight) :
    (runAll cfg run n).busyInFlight := by
  induction run generalizing n with
  | nil => exact h
  | cons s rest ih =>
    refine ih (s.run cfg n) ?_ (Stimulus.run_busyInFlight cfg hcfg s n hgen h)
    rw [Stimulus.run_Generic]
    exact hgen

theorem PhyAddressInit_gPhyDevice (cfg : Config) (panId address : List Nat) (Backup : Bool)
    (n : Node) : (PhyAddressInit cfg panId address Backup n).gPhyDevice = n.gPhyDevice := by
  unfold PhyAddressInit
  cases cfg.role
  · simp only
    split_ifs <;> rfl
  · rfl

theorem FrameInit_transmitting (cfg : Config)
    (fc : Option (Option Bool → Option (List Nat) → Nat → CallbackResult))
    (lr : Option (List Nat → Nat → Bool)) (n : Node) :
    (FrameInit cfg fc lr n).gPhyDevice.transmitting = n.gPhyDevice.transmitting := by
  unfold FrameInit
  simp only
  rw [FrameIdle_transmitting]
  cases cfg.role <;> rfl

theorem PhyInit_transmitting (cfg : Config) (baudRate scaleFactor : Nat) (n : Node) :
    (PhyInit cfg baudRate scaleFactor n).gPhyDevice.transmitting = false := by
  unfold PhyInit
  simp only
  split_ifs
  · rw [PhyCalculateRxTimeout_keeps]
  · rfl

/-- ProtocolInit leaves no transmission in flight, so the node it leaves has
the scheduler busy whenever one is. -/
theorem ProtocolInit_busyInFlight (cfg : Config) (baudRate scaleFactor : Nat)
    (panId address : List Nat) (Backup : Bool)
    (tc : Option (Option Bool → Option (List Nat) → Nat → CallbackResult))
    (lr : Option (List Nat → Nat → Bool)) (n : Node) :
    (ProtocolInit cfg baudRate scaleFactor panId address Backup tc lr n).2.busyInFlight := by
  apply busyInFlight_of_quiet
  have h0 := PhyInit_transmitting cfg baudRate scaleFactor n
  unfold ProtocolInit
  cases cfg.role
  · simp only
    show (FrameInit _ _ _ _).gPhyDevice.transmitting = false
    rw [FrameInit_transmitting, PhyAddressInit_gPhyDevice]
    split_ifs
    · exact h0
    · exact h0
  · simp only
    show (FrameInit _ _ _ _).gPhyDevice.transmitting = false
    rw [FrameInit_transmitting, PhyAddressInit_gPhyDevice]
    exact h0

/-- ProtocolInit registers no generic timer callback. -/
theorem ProtocolInit_Generic (cfg : Config) (baudRate scaleFactor : Nat)
    (panId address : List Nat) (Backup : Bool)
    (tc : Option (Option Bool → Option (List Nat) → Nat → CallbackResult))
    (lr : Option (List Nat → Nat → Bool)) (n : Node) :
    (ProtocolInit cfg baudRate scaleFactor panId address Backup tc lr n).2.gPhyDevice.Generic
      = none := by
  have hF : ∀ (fc : Option (Option Bool → Option (List Nat) → Nat → CallbackResult))
      (l : Option (List Nat → Nat → Bool)) (m : Node),
      (FrameInit cfg fc l m).gPhyDevice.Generic = m.gPhyDevice.Generic := by
    intro fc l m
    unfold FrameInit
    simp only
    rw [FrameIdle_Generic]
    cases cfg.role <;> rfl
  unfold ProtocolInit
  cases cfg.role
  · simp only
    show (FrameInit _ _ _ _).gPhyDevice.Generic = none
    rw [hF, PhyAddressInit_gPhyDevice]
    split_ifs <;> rfl
  · simp only
    show (FrameInit _ _ _ _).gPhyDevice.Generic = none
    rw [hF, PhyAddressInit_gPhyDevice]
    rfl

/-! ## The busy flag while a transmission is in flight -/

/-- C25 fails on the code.  The receive timeout armed by a listen is disabled
only when it expires, not when the awaited frame arrives, so it keeps counting
into whatever the End Point does next.  An End Point initialised by
ProtocolInit with compare value 4 connects, the transmission completes and it
listens (timeout armed at 4), one tick passes, the answer of the Gateway
arrives and is processed (the timeout is still enabled, counter 3), and the
application starts a transfer, which is accepted.  Three ticks later, before
the End-of-Packet interrupt of that transmission, the timeout expires:
FrameTimeout clears busy and puts the radio in low power while the transmitting
flag is set, and a FrameListen made then is accepted.  The same state is
reached from the initialised node by the run of FrameSend calls, interrupts and
ticks staleRun. -/
theorem rxTimeout_clears_busy_in_transmit :
    timeoutEndPoint.role = Role.endPoint
    ∧ timeoutEndPoint.PROTOCOL_USE_RX_TIMEOUT = true
    ∧ staleInit.busyInFlight
    ∧ staleListening.gPhyDevice.rxTimeout = { enable := true, compare := 4, counter := 4 }
    ∧ staleLinked.gFrameScheduler.busy = false
    ∧ staleLinked.gPhyDevice.transmitting = false
    ∧ staleLinked.gPhyDevice.rxTimeout = { enable := true, compare := 4, counter := 3 }
    ∧ staleTransfer.1 = true
    ∧ staleTransfer.2.gFrameScheduler.busy = true
    ∧ staleTransfer.2.gPhyDevice.transmitting = true
    ∧ staleExpired.gPhyDevice.transmitting = true
    ∧ staleExpired.gFrameScheduler.busy = false
    ∧ staleExpired.trace = staleTransfer.2.trace ++ [Event.phyLowPowerMode]
    ∧ (FrameListen timeoutEndPoint staleExpired).1 = true
    ∧ (FrameListen timeoutEndPoint staleExpired).2.gPhyDevice.transmitting = true
    ∧ (runAll timeoutEndPoint staleRun staleInit).trace = staleExpired.trace
    ∧ (runAll timeoutEndPoint staleRun staleInit).gPhyDevice.transmitting = true
    ∧ (runAll timeoutEndPoint staleRun staleInit).gFrameScheduler.busy = false
    ∧ ¬ (runAll timeoutEndPoint staleRun staleInit).busyInFlight := by
  decide

/-! ## What FrameSend decides -/

/-- FrameSend is accepted exactly when the scheduler is not busy, the frame
fits the data stream and, as the count byte handed to the physical layer, the
TX FIFO, and no transmission is in flight. -/
theorem FrameSend_accepts_iff (cfg : Config) (type : eFrameType) (dataRequest : Bool)
    (payload : List Nat) (k : Nat) (m : Node) :
    (FrameSend cfg type dataRequest payload k m).1 = true ↔
      m.gFrameScheduler.busy = false
      ∧ k + FRAME_OVERHEAD_LENGTH cfg ≤ PROTOCOL_DATASTREAM_MAX_SIZE cfg
      ∧ (k + FRAME_OVERHEAD_LENGTH cfg) % 256 ≤ cfg.CC1101_TXFIFO_SIZE
      ∧ m.gPhyDevice.transmitting = false := by
  constructor
  · exact FrameSend_accepted_inv cfg type dataRequest payload k m
  · rintro ⟨hb, hsz, hfifo, htx⟩
    have hp : (PhyTransmit cfg
        (FrameBuild cfg type dataRequest payload k m).gFrameScheduler.frame.toBytes
        ((k + FRAME_OVERHEAD_LENGTH cfg) % 256)
        (FrameBuild cfg type dataRequest payload k m)).1 = true :=
      (PhyTransmit_accepts_iff cfg _ _ _).mpr ⟨hfifo, htx⟩
    unfold FrameSend
    simp [hb, hsz, hp]

end BaseLink
